import Mathlib

/-!
Verification development for the food-planner repository (`src/main.py`).

Modelling conventions (shallow embedding):
* Python floats are modelled by `ℚ`; Python's `round(x, 2)` (round half to
  even) is `round2`.
* `Item` objects are identified by their index into the catalog list
  (Python object identity `is` becomes index equality); the mutable
  `lunch_role` attribute is part of the catalog state, which the generator
  threads explicitly.
* Methods that raise become `Except Err` values; the "run" variants
  (`mealAddRun`, `dayPlanAddRun`) additionally return the state as it is at
  the moment the exception would propagate, mirroring the statement order
  of the source.
* `random.Random(seed)` is modelled by an abstract stream of 32-bit words
  (`Rng`); CPython's Mersenne Twister (used by concrete counterexamples) is
  embedded as `mtWord`/`mtStream` below, following the reference MT19937
  `init_by_array` seeding and tempering, valid for the first 227 outputs.
-/

namespace FoodPlanner

/-- Round half to even of a rational, as CPython's `round` on the exact
value: the floor, unless the fractional part exceeds 1/2 (then ceiling),
with ties going to the even integer. -/
def rhe (x : ℚ) : ℤ :=
  let f := ⌊x⌋
  if x - f < 1/2 then f
  else if 1/2 < x - f then f + 1
  else if Even f then f else f + 1

/-- Python's `round(q, 2)`. -/
def round2 (q : ℚ) : ℚ := (rhe (q * 100) : ℚ) / 100

/-- `q` is an exact multiple of 1/100 (a "2-decimal" value). -/
def D2 (q : ℚ) : Prop := ∃ m : ℤ, q * 100 = (m : ℚ)

/-- The meal slots (`MealType` in the source). -/
inductive MealType where
  | breakfast
  | lunch
  | dinner
deriving DecidableEq, Repr

/-- A lunch role (`lunch_role` strings "MAIN"/"SIDE"). -/
inductive Role where
  | main
  | side
deriving DecidableEq, Repr

/-- A catalog entry (`Item` in the source).  `__init__` rounds every
nutrient field to 2 decimals and rejects `max_portions ≤ 0`; that
constructor invariant is carried as hypotheses (`CatCalRounded`,
`CapsPos`) where a proof needs it. -/
structure Item where
  name : String
  calories_per_portion : ℚ
  fat_per_portion : Option ℚ
  carbs_per_portion : Option ℚ
  protein_per_portion : Option ℚ
  fibre_per_portion : Option ℚ
  salt_per_portion : Option ℚ
  meal_types : List MealType
  max_portions : Option ℚ
  lunch_role : Option Role
deriving DecidableEq, Repr

/-- Default item used for out-of-range catalog indices; it is eligible for
no meal, so it can never actually enter a plan. -/
def dfltItem : Item :=
  ⟨"", 0, none, none, none, none, none, [], none, none⟩

/-- `item.step_portions()`: always one standard portion. -/
def step_portions : ℚ := 1

/-- `default_portions(item)`: always one standard portion. -/
def default_portions : ℚ := 1

def itemAt (cat : List Item) (i : Nat) : Item := cat.getD i dfltItem

/-- The error taxonomy: each constructor corresponds to one `raise` site of
the source. -/
inductive Err where
  /-- `Portion.__init__`: `standard_portions must be > 0`. -/
  | nonposQuantity
  /-- `Portion.__init__`: `standard_portions (..) exceeds item's max_portions`. -/
  | portionOverMax
  /-- `Meal.add`: `.. is not allowed for ..` (slot eligibility). -/
  | notAllowed
  /-- `DayPlan.add`: `Cannot add .. would exceed max_portions` (daily cap). -/
  | exceedsMaxPortions
  /-- `generate_day_plan`: `No items for meal type ..`. -/
  | noItems (mt : MealType)
  /-- `generate_day_plan`: `No items for lunch available`. -/
  | noLunch
  /-- `pick_lunch_pair`: `No lunch candidates available`. -/
  | noLunchCandidates
  /-- `random.choice` on an empty sequence (`IndexError`). -/
  | indexError
  /-- `random.sample` with sample larger than population (`ValueError`). -/
  | sampleTooLarge
  /-- Modelling artefact: the fuel of the rejection-sampling loop inside
  `_randbelow` ran out (the Python loop terminates with probability 1). -/
  | rngFuel
deriving DecidableEq, Repr

/-- A quantity of standard portions of one catalog entry
(`Portion`: it stores only its item reference and the count). -/
structure Portion where
  idx : Nat
  portions : ℚ
deriving DecidableEq, Repr

def dfltPortion : Portion := ⟨0, 0⟩

/-- `Portion.__init__(item, standard_portions)`: rejects non-positive
quantities and quantities exceeding the item's own `max_portions`. -/
def mkPortion (cat : List Item) (i : Nat) (sp : ℚ) : Except Err Portion :=
  if sp ≤ 0 then .error .nonposQuantity
  else
    match (itemAt cat i).max_portions with
    | some m => if m < sp then .error .portionOverMax else .ok ⟨i, sp⟩
    | none => .ok ⟨i, sp⟩

/-- The six-key nutrient dictionary produced by
`Item.nutrients_for_portions` / `Meal.nutrients` / `DayPlan.nutrients`
(these dictionaries always carry exactly these keys; the empty starting
dict behaves as all-zero under `dict.get(k, 0.0)`). -/
structure Nutr where
  calories : ℚ
  fat : ℚ
  carbs : ℚ
  protein : ℚ
  fibre : ℚ
  salt : ℚ
deriving DecidableEq, Repr

def nZero : Nutr := ⟨0, 0, 0, 0, 0, 0⟩

/-- `add_nutrients` restricted to the fixed six keys (every summed key is
rounded to 2 decimals). -/
def nAdd (a b : Nutr) : Nutr :=
  ⟨round2 (a.calories + b.calories), round2 (a.fat + b.fat),
   round2 (a.carbs + b.carbs), round2 (a.protein + b.protein),
   round2 (a.fibre + b.fibre), round2 (a.salt + b.salt)⟩

/-- `Item.nutrients_for_portions(portions)`: each per-portion value (0 for
a missing macro) scaled and rounded to 2 decimals. -/
def portionNutr (cat : List Item) (p : Portion) : Nutr :=
  let it := itemAt cat p.idx
  ⟨round2 (it.calories_per_portion * p.portions),
   round2 ((it.fat_per_portion.getD 0) * p.portions),
   round2 ((it.carbs_per_portion.getD 0) * p.portions),
   round2 ((it.protein_per_portion.getD 0) * p.portions),
   round2 ((it.fibre_per_portion.getD 0) * p.portions),
   round2 ((it.salt_per_portion.getD 0) * p.portions)⟩

/-- `Meal.nutrients`: fold `add_nutrients` over the portions, starting
from the empty dictionary. -/
def mealNutr (cat : List Item) (l : List Portion) : Nutr :=
  l.foldl (fun t p => nAdd t (portionNutr cat p)) nZero

/-- `Meal.add` as a state-and-error pair: the returned portion list is the
meal's state at the point the exception (if any) propagates; the
eligibility check precedes the append, so a failing add leaves the meal
untouched. -/
def mealAddRun (cat : List Item) (mt : MealType) (l : List Portion)
    (po : Portion) : Option Err × List Portion :=
  if mt ∈ (itemAt cat po.idx).meal_types then (none, l ++ [po])
  else (some .notAllowed, l)

/-- A day plan: one meal per slot, each an ordered list of portions. -/
structure DayPlan where
  breakfast : List Portion
  lunch : List Portion
  dinner : List Portion
deriving DecidableEq, Repr

def emptyPlan : DayPlan := ⟨[], [], []⟩

def DayPlan.meal (p : DayPlan) (mt : MealType) : List Portion :=
  match mt with
  | .breakfast => p.breakfast
  | .lunch => p.lunch
  | .dinner => p.dinner

def DayPlan.setMeal (p : DayPlan) (mt : MealType) (l : List Portion) :
    DayPlan :=
  match mt with
  | .breakfast => { p with breakfast := l }
  | .lunch => { p with lunch := l }
  | .dinner => { p with dinner := l }

/-- The portions of item `i` contained in one meal's portion list. -/
def msum (l : List Portion) (i : Nat) : ℚ :=
  (l.map (fun q => if q.idx = i then q.portions else 0)).sum

/-- The running daily total of an item across all three meals, as summed
by `DayPlan.add` / the repair loops (`p.item is it` is index equality). -/
def itemTotal (p : DayPlan) (i : Nat) : ℚ :=
  msum p.breakfast i + msum p.lunch i + msum p.dinner i

/-- `DayPlan.add` as a state-and-error pair: the daily-cap check happens
before delegating to the target meal, so on either failure (cap or
eligibility) the plan is returned unchanged. -/
def dayPlanAddRun (cat : List Item) (p : DayPlan) (mt : MealType)
    (po : Portion) : Option Err × DayPlan :=
  let capFail :=
    match (itemAt cat po.idx).max_portions with
    | some m => decide (m < itemTotal p po.idx + po.portions)
    | none => false
  if capFail then (some .exceedsMaxPortions, p)
  else
    match mealAddRun cat mt (p.meal mt) po with
    | (some e, l) => (some e, p.setMeal mt l)
    | (none, l) => (none, p.setMeal mt l)

/-- `DayPlan.add` in `Except` form, used by the generation engine. -/
def dayPlanAdd (cat : List Item) (p : DayPlan) (mt : MealType)
    (po : Portion) : Except Err DayPlan :=
  match dayPlanAddRun cat p mt po with
  | (some e, _) => .error e
  | (none, p') => .ok p'

/-- `DayPlan.nutrients`: combine the three meals (insertion order
breakfast, lunch, dinner) starting from the empty dictionary. -/
def planNutr (cat : List Item) (p : DayPlan) : Nutr :=
  nAdd (nAdd (nAdd nZero (mealNutr cat p.breakfast))
    (mealNutr cat p.lunch)) (mealNutr cat p.dinner)

def planCal (cat : List Item) (p : DayPlan) : ℚ := (planNutr cat p).calories

/-- `Goals.__init__`: the constructor merely converts its arguments to
float and stores them; it contains no validation of any kind. -/
structure Goals where
  calories_target : ℚ
  protein_min : ℚ
  fat_max : Option ℚ
  carbs_min : Option ℚ
deriving DecidableEq, Repr

/-- `Goals(calories_target, protein_min, fat_max, carbs_min)` — a total
function, since the source constructor can never fail. -/
def mkGoals (ct pm : ℚ) (fm cm : Option ℚ) : Goals := ⟨ct, pm, fm, cm⟩

/-- `DayPlan.score(goals)`. -/
def score (cat : List Item) (p : DayPlan) (g : Goals) : ℚ :=
  let n := planNutr cat p
  let s0 := |g.calories_target - n.calories|
  let s1 := if n.protein < g.protein_min
    then s0 + (g.protein_min - n.protein) ^ 2 * 3 else s0
  let s2 := match g.fat_max with
    | some fm => if fm < n.fat then s1 + (n.fat - fm) ^ 2 * 2 else s1
    | none => s1
  let s3 := match g.carbs_min with
    | some cm => if n.carbs < cm then s2 + (cm - n.carbs) ^ 2 * (3/2) else s2
    | none => s2
  round2 s3

/-- `items_for_meal(items, meal_type)`: the (index) pool of entries listing
the slot, in catalog order. -/
def items_for_meal (cat : List Item) (mt : MealType) : List Nat :=
  (List.range cat.length).filter (fun i => decide (mt ∈ (itemAt cat i).meal_types))

/-! ### The generic nutrient dictionary (`add_nutrients`)

`add_nutrients` in the source operates on arbitrary `dict[str, float]`
values.  A Python dict is modelled by its key list (order is irrelevant to
dict equality) together with a total value function; `getD` is
`d.get(k, 0.0)`. -/

structure PyDict where
  keys : List String
  val : String → ℚ

def PyDict.getD (d : PyDict) (k : String) : ℚ :=
  if k ∈ d.keys then d.val k else 0

/-- `add_nutrients(a, b)`: keys are the union `set(a) | set(b)`, each value
is the rounded sum of the two looked-up values (missing keys count as 0). -/
def add_nutrients (a b : PyDict) : PyDict :=
  ⟨a.keys ++ b.keys, fun k => round2 (a.getD k + b.getD k)⟩

/-- Python dict equality: same key set and equal values on the keys. -/
def dictEq (a b : PyDict) : Prop :=
  (∀ k, k ∈ a.keys ↔ k ∈ b.keys) ∧ ∀ k ∈ a.keys, a.val k = b.val k

/-! ### The random source

`random.Random(seed)` is a stream of 32-bit outputs; `getrandbits(k)`
(for `0 < k ≤ 32`) takes the top `k` bits of the next word, and
`_randbelow(n)` rejection-samples `n.bit_length()`-bit values.  The
rejection loop terminates with probability 1; the embedding gives it fuel
and reports `Err.rngFuel` on the (measure-zero) streams that exhaust it. -/

structure Rng where
  bits : Nat → Nat
  pos : Nat

def U32 : Nat := 4294967296

def getrandbits (r : Rng) (k : Nat) : Nat × Rng :=
  ((r.bits r.pos % U32) >>> (32 - k), ⟨r.bits, r.pos + 1⟩)

/-- `n.bit_length()`. -/
def bitLen (n : Nat) : Nat := if n = 0 then 0 else Nat.log2 n + 1

/-- `Random._randbelow(n)`: draw `bit_length(n)`-bit values until one is
below `n`. -/
def randbelow : Nat → Rng → Nat → Except Err (Nat × Rng)
  | 0, _, _ => .error .rngFuel
  | fuel + 1, r, n =>
      let p := getrandbits r (bitLen n)
      if p.1 < n then .ok p else randbelow fuel p.2 n

def rngFuelN : Nat := 1000

/-- `Random.choice(seq)`: `seq[_randbelow(len(seq))]` (empty sequences
raise `IndexError`). -/
def choice (r : Rng) (l : List Nat) : Except Err (Nat × Rng) :=
  if l.isEmpty then .error .indexError
  else do
    let (i, r') ← randbelow rngFuelN r l.length
    return (l.getD i 0, r')

/-- The redraw loop of `Random.sample`'s large-population branch: draw
indices until one differs from the already-selected index. -/
def resampleNe : Nat → Rng → Nat → Nat → Except Err (Nat × Rng)
  | 0, _, _, _ => .error .rngFuel
  | fuel + 1, r, n, avoid => do
      let (j, r') ← randbelow rngFuelN r n
      if j = avoid then resampleNe fuel r' n avoid else .ok (j, r')

/-- `Random.sample(population, 2)`: for populations of at most 21 (the
`setsize` for k = 2) the pool-swap algorithm, otherwise the
selected-set rejection algorithm. -/
def sample2 (r : Rng) (l : List Nat) : Except Err ((Nat × Nat) × Rng) :=
  let n := l.length
  if n < 2 then .error .sampleTooLarge
  else if n ≤ 21 then do
    let (j1, r) ← randbelow rngFuelN r n
    let x := l.getD j1 0
    let pool := l.set j1 (l.getD (n - 1) 0)
    let (j2, r) ← randbelow rngFuelN r (n - 1)
    return ((x, pool.getD j2 0), r)
  else do
    let (j1, r) ← randbelow rngFuelN r n
    let (j2, r) ← resampleNe rngFuelN r n j1
    return ((l.getD j1 0, l.getD j2 0), r)

/-! ### Lunch-pair selection

`pick_lunch_pair` mutates the shared items' `lunch_role` attributes.  All
role reads happen before any role write within one call, so the writes are
collected as a list of `RoleOp` which the caller applies to the catalog
immediately after the call — an explicit-state rendering of the same
mutations, in source order. -/

/-- One `lunch_role` write: `x.lunch_role = x.lunch_role or R` becomes
`ifUnset`, the unconditional `x.lunch_role = R` becomes `force`. -/
inductive RoleOp where
  | ifUnset (i : Nat) (ro : Role)
  | force (i : Nat) (ro : Role)
deriving DecidableEq, Repr

def applyRoleOp (cat : List Item) : RoleOp → List Item
  | .ifUnset i ro =>
      match (itemAt cat i).lunch_role with
      | some _ => cat
      | none => cat.set i { itemAt cat i with lunch_role := some ro }
  | .force i ro => cat.set i { itemAt cat i with lunch_role := some ro }

def applyRoleOps (cat : List Item) (ops : List RoleOp) : List Item :=
  ops.foldl applyRoleOp cat

def dedupGo : List Nat → List Nat → List Nat
  | _, [] => []
  | seen, x :: xs =>
      if x ∈ seen then dedupGo seen xs else x :: dedupGo (x :: seen) xs

/-- `list(dict.fromkeys(pool))`: deduplicate keeping first occurrences. -/
def dedupFirst (l : List Nat) : List Nat := dedupGo [] l

/-- Cases D and E of `pick_lunch_pair` (no explicit roles apply, or
fall-through from the earlier cases). -/
def pickCaseDE (cat : List Item) (pool : List Nat) (r : Rng) :
    Except Err ((Nat × Nat) × List RoleOp × Rng) :=
  let up := dedupFirst pool
  if 2 ≤ up.length then do
    let ((a, b), r) ← sample2 r up
    if (itemAt cat b).calories_per_portion ≤ (itemAt cat a).calories_per_portion
    then return ((a, b), [.ifUnset a .main, .ifUnset b .side], r)
    else return ((b, a), [.ifUnset a .side, .ifUnset b .main], r)
  else if up.length = 1 then
    let s := up.getD 0 0
    return ((s, s), [.ifUnset s .main], r)
  else .error .noLunchCandidates

/-- `pick_lunch_pair(rng, pool)`: returns `(main, side)` plus the pending
role writes, mirroring the case structure of the source (including the
fall-through from case B/C to D/E when the forced-flip branch does not
apply). -/
def pick_lunch_pair (cat : List Item) (pool : List Nat) (r : Rng) :
    Except Err ((Nat × Nat) × List RoleOp × Rng) :=
  let mains := pool.filter (fun i => decide ((itemAt cat i).lunch_role = some .main))
  let sides := pool.filter (fun i => decide ((itemAt cat i).lunch_role = some .side))
  if !mains.isEmpty && !sides.isEmpty then do
    let (mn, r) ← choice r mains
    let sc := sides.filter (fun s => s ≠ mn)
    let (sd, r) ← if sc.isEmpty then choice r sides else choice r sc
    return ((mn, sd), [.ifUnset mn .main, .ifUnset sd .side], r)
  else if !mains.isEmpty then do
    let (mn, r) ← choice r mains
    let nmc := pool.filter (fun i => i ≠ mn)
    if !nmc.isEmpty then do
      let (sd, r) ← choice r nmc
      return ((mn, sd), [.ifUnset mn .main, .ifUnset sd .side], r)
    else if 2 ≤ mains.length then do
      let (other, r) ← choice r (mains.filter (fun m => m ≠ mn))
      return ((mn, other), [.ifUnset mn .main, .force other .side], r)
    else pickCaseDE cat pool r
  else if !sides.isEmpty then do
    let (sd, r) ← choice r sides
    let nsc := pool.filter (fun i => i ≠ sd)
    if !nsc.isEmpty then do
      let (mn, r) ← choice r nsc
      return ((mn, sd), [.ifUnset mn .main, .ifUnset sd .side], r)
    else if 2 ≤ sides.length then do
      let (other, r) ← choice r (sides.filter (fun s => s ≠ sd))
      return ((other, sd), [.force other .main, .ifUnset sd .side], r)
    else pickCaseDE cat pool r
  else pickCaseDE cat pool r

/-! ### The generation engine -/

/-- Stage 1 of `generate_day_plan`: base fill of breakfast and dinner (one
random eligible entry each, one default portion), then the lunch pair.
Returns the plan, the catalog with the lunch-role writes applied, and the
advanced random source. -/
def stage1 (cat : List Item) (r : Rng) :
    Except Err (DayPlan × List Item × Rng) :=
  let poolB := items_for_meal cat .breakfast
  if poolB.isEmpty then .error (.noItems .breakfast) else do
  let (ib, r) ← choice r poolB
  let pb ← mkPortion cat ib default_portions
  let plan ← dayPlanAdd cat emptyPlan .breakfast pb
  let poolD := items_for_meal cat .dinner
  if poolD.isEmpty then .error (.noItems .dinner) else do
  let (idn, r) ← choice r poolD
  let pd ← mkPortion cat idn default_portions
  let plan ← dayPlanAdd cat plan .dinner pd
  let poolL := items_for_meal cat .lunch
  if poolL.isEmpty then .error .noLunch else do
  let ((mi, si), ops, r) ← pick_lunch_pair cat poolL r
  let cat1 := applyRoleOps cat ops
  let pm ← mkPortion cat1 mi default_portions
  let plan ← dayPlanAdd cat1 plan .lunch pm
  let ps ← mkPortion cat1 si default_portions
  let plan ← dayPlanAdd cat1 plan .lunch ps
  return (plan, cat1, r)

def lunchIdxs (plan : DayPlan) : List Nat := plan.lunch.map (·.idx)

/-- The candidate scan of `add_best_item`: fold over the candidates
tracking `(best, best_score)` starting from `(None, -1.0)`, skipping
entries whose daily cap a further step would exceed, whose added calories
are non-positive, or which would push past the calorie limit; the score is
added protein per added calorie, and strict improvement wins. -/
def bfStep (cat : List Item) (plan : DayPlan) (lim cur : ℚ)
    (acc : Option Nat × ℚ) (it : Nat) : Option Nat × ℚ :=
  let itm := itemAt cat it
  let capSkip :=
    match itm.max_portions with
    | some m => decide (m < itemTotal plan it + step_portions)
    | none => false
  if capSkip then acc
  else
    let addedCal := itm.calories_per_portion * step_portions
    if addedCal ≤ 0 then acc
    else if lim < cur + addedCal then acc
    else
      let s := (itm.protein_per_portion.getD 0) * step_portions / addedCal
      if acc.2 < s then (some it, s) else acc

def bestFold (cat : List Item) (plan : DayPlan) (lim cur : ℚ)
    (cands : List Nat) : Option Nat × ℚ :=
  cands.foldl (bfStep cat plan lim cur) (none, -1)

/-- `add_best_item(mt, candidates, cal_limit)`: `.ok none` is Python's
`return False`. -/
def addBestItem (cat : List Item) (plan : DayPlan) (mt : MealType)
    (cands : List Nat) (lim : ℚ) : Except Err (Option DayPlan) :=
  let cur := (planNutr cat plan).calories
  match (bestFold cat plan lim cur cands).1 with
  | none => .ok none
  | some best => do
      let po ← mkPortion cat best step_portions
      let plan' ← dayPlanAdd cat plan mt po
      return some plan'

/-- The stage-2 candidate pool for one slot: eligible entries, restricted
for lunch to entries already present in the lunch meal, then filtered to
per-portion protein > 5. -/
def stage2Pool (cat : List Item) (plan : DayPlan) (mt : MealType) :
    List Nat :=
  let pool := items_for_meal cat mt
  let pool :=
    if mt = .lunch then pool.filter (fun i => decide (i ∈ lunchIdxs plan))
    else pool
  pool.filter (fun i => decide ((5 : ℚ) < (itemAt cat i).protein_per_portion.getD 0))

/-- The inner slot loop of stage 2 (`for mt in [DINNER, BREAKFAST,
LUNCH]`): first slot whose pool yields an addition wins. -/
def stage2Try (cat : List Item) (plan : DayPlan) (lim : ℚ) :
    List MealType → Except Err (Option DayPlan)
  | [] => .ok none
  | mt :: rest =>
      let pool := stage2Pool cat plan mt
      if pool.isEmpty then stage2Try cat plan lim rest
      else
        (addBestItem cat plan mt pool lim).bind fun res =>
          match res with
          | some plan' => .ok (some plan')
          | none => stage2Try cat plan lim rest

/-- One iteration of the protein-repair loop; `.ok none` is a `break`. -/
def stage2Step (cat : List Item) (g : Goals) (lim : ℚ) (plan : DayPlan) :
    Except Err (Option DayPlan) :=
  let n := planNutr cat plan
  if g.protein_min ≤ n.protein then .ok none
  else if lim < n.calories then .ok none
  else stage2Try cat plan lim [.dinner, .breakfast, .lunch]

/-- Stage 2 — protein repair, bounded to 200 iterations. -/
def stage2 (cat : List Item) (g : Goals) (lim : ℚ) :
    Nat → DayPlan → Except Err DayPlan
  | 0, plan => .ok plan
  | fuel + 1, plan => do
      match ← stage2Step cat g lim plan with
      | none => return plan
      | some plan' => stage2 cat g lim fuel plan'

/-- The stage-3 candidate set: (slot, entry) pairs over breakfast, dinner,
lunch — lunch restricted to entries already in the lunch meal — excluding
entries whose daily cap one more step would exceed. -/
def stage3Cands (cat : List Item) (plan : DayPlan) :
    List (MealType × Nat) :=
  [MealType.breakfast, .dinner, .lunch].flatMap fun mt =>
    let pool := items_for_meal cat mt
    let pool :=
      if mt = .lunch then pool.filter (fun i => decide (i ∈ lunchIdxs plan))
      else pool
    (pool.filter (fun i =>
      match (itemAt cat i).max_portions with
      | some m => decide (itemTotal plan i + step_portions ≤ m)
      | none => true)).map (fun i => (mt, i))

/-- The stage-3 ranking: per-portion carbs minus twice per-portion fat. -/
def carbScore (cat : List Item) (i : Nat) : ℚ :=
  (itemAt cat i).carbs_per_portion.getD 0
    - (itemAt cat i).fat_per_portion.getD 0 * 2

/-- The stage-3 maximum scan: start from the first candidate, update on
strict improvement. -/
def bestCarb (cat : List Item) :
    (MealType × Nat) → List (MealType × Nat) → MealType × Nat
  | best, [] => best
  | best, c :: rest =>
      if carbScore cat best.2 < carbScore cat c.2 then bestCarb cat c rest
      else bestCarb cat best rest

/-- One iteration of the calorie-repair loop; `.ok none` is a `break`. -/
def stage3Step (cat : List Item) (g : Goals) (lim : ℚ) (plan : DayPlan) :
    Except Err (Option DayPlan) :=
  let cal := (planNutr cat plan).calories
  if |cal - g.calories_target| ≤ 100 then .ok none
  else if g.calories_target + 100 < cal then .ok none
  else
    match stage3Cands cat plan with
    | [] => .ok none
    | c :: rest =>
        let best := bestCarb cat c rest
        let addedCal := (itemAt cat best.2).calories_per_portion * step_portions
        if cal + addedCal ≤ lim then do
          let po ← mkPortion cat best.2 step_portions
          let plan' ← dayPlanAdd cat plan best.1 po
          return some plan'
        else .ok none

/-- Stage 3 — calorie repair, bounded to 80 iterations. -/
def stage3 (cat : List Item) (g : Goals) (lim : ℚ) :
    Nat → DayPlan → Except Err DayPlan
  | 0, plan => .ok plan
  | fuel + 1, plan => do
      match ← stage3Step cat g lim plan with
      | none => return plan
      | some plan' => stage3 cat g lim fuel plan'

/-- `generate_day_plan(items, goals, seed)`: stage 1 then the two repair
stages; returns the plan together with the (possibly role-mutated)
catalog. -/
def generate_day_plan (cat : List Item) (g : Goals) (r : Rng) :
    Except Err (DayPlan × List Item) := do
  let lim := g.calories_target + 100
  let (plan, cat1, _) ← stage1 cat r
  let plan ← stage2 cat1 g lim 200 plan
  let plan ← stage3 cat1 g lim 80 plan
  return (plan, cat1)

/-! ### CPython's Mersenne Twister

`random.Random(seed)` for an integer seed `0 ≤ seed < 2³²` runs
`init_by_array` with the single-word key `[seed]`; each `getrandbits(k ≤
32)` call consumes one tempered output word.  Since no run in this file
consumes more than a few words, outputs are extracted directly from the
initial state — valid for the first 227 outputs (before index 227 the
twist of word `i` reads only untouched state entries `i`, `i+1`,
`i+397`). -/

def mtScanStep (f : Nat → Nat → Nat → Nat) (st : Nat × Nat × List Nat)
    (c : Nat) : Nat × Nat × List Nat :=
  let nv := f st.1 c st.2.1
  (nv, st.2.1 + 1, nv :: st.2.2)

/-- Sequential in-place update scan (`mt[i] = f(mt[i-1], mt[i], i)`),
written as an accumulator fold. -/
def mtScan (f : Nat → Nat → Nat → Nat) (prev i : Nat) (l : List Nat) :
    List Nat :=
  ((l.foldl (mtScanStep f) (prev, i, [])).2.2).reverse

def igStep (st : Nat × Nat × List Nat) : Nat → Nat × Nat × List Nat :=
  fun _ =>
    let cur := (1812433253 * (st.1 ^^^ (st.1 >>> 30)) + st.2.1) % U32
    (cur, st.2.1 + 1, cur :: st.2.2)

/-- `init_genrand(s)`. -/
def initGenrand (s : Nat) : List Nat :=
  let m0 := s % U32
  (((List.range 623).foldl igStep (m0, 1, [m0])).2.2).reverse

def mtF1 (key prev cur : Nat) : Nat :=
  ((cur ^^^ ((prev ^^^ (prev >>> 30)) * 1664525 % U32)) + key) % U32

def mtF2 (prev cur i : Nat) : Nat :=
  (((cur ^^^ ((prev ^^^ (prev >>> 30)) * 1566083941 % U32)) + U32) - i % U32) % U32

/-- First loop of `init_by_array` for a one-word key (624 iterations:
indices 1..623, wrap `mt[0] := mt[623]`, then index 1 again). -/
def mtPass1 (key : Nat) (mt : List Nat) : List Nat :=
  match mt with
  | [] => []
  | m0 :: rest =>
      let r1 := mtScan (fun prev cur _ => mtF1 key prev cur) m0 1 rest
      let lst := r1.getD 622 0
      match r1 with
      | [] => [lst]
      | c1 :: rest2 => lst :: mtF1 key lst c1 :: rest2

/-- Second loop of `init_by_array` (623 iterations: indices 2..623, wrap,
then index 1), followed by `mt[0] := 0x80000000`. -/
def mtPass2 (mt : List Nat) : List Nat :=
  match mt with
  | m0 :: m1 :: rest =>
      let r2 := mtScan mtF2 m1 2 rest
      let lst := r2.getD 621 (m0 % U32)
      2147483648 :: mtF2 lst m1 1 :: r2
  | l => l

/-- The MT19937 state right after seeding with the one-word key `[seed]`. -/
def mtInit (seed : Nat) : List Nat :=
  mtPass2 (mtPass1 (seed % U32) (initGenrand 19650218))

def temper (y : Nat) : Nat :=
  let y1 := y ^^^ (y >>> 11)
  let y2 := y1 ^^^ ((y1 <<< 7) &&& 2636928640)
  let y3 := y2 ^^^ ((y2 <<< 15) &&& 4022730752)
  y3 ^^^ (y3 >>> 18)

/-- The `i`-th output word (`genrand_uint32`), read off the freshly seeded
state; faithful for `i < 227`. -/
def mtWord (mt : List Nat) (i : Nat) : Nat :=
  let a := mt.getD i 0
  let b := mt.getD (i + 1) 0
  let c := mt.getD (i + 397) 0
  let y := (a &&& 2147483648) ||| (b &&& 2147483647)
  temper (c ^^^ (y >>> 1) ^^^ (if y % 2 = 1 then 2567483615 else 0))

def mtStream (seed : Nat) : Nat → Nat := fun i => mtWord (mtInit seed) i

/-- `random.Random(seed)` at the start of its output stream. -/
def mtRng (seed : Nat) : Rng := ⟨mtStream seed, 0⟩

/-- An all-zero word stream (every `getrandbits` yields 0, so every
`choice` picks the first element). -/
def constRng : Rng := ⟨fun _ => 0, 0⟩

/-! ### Basic lemmas about the embedding -/

/-- Everything of an `Item` except its mutable `lunch_role`. -/
def core (it : Item) :=
  (it.name, it.calories_per_portion, it.fat_per_portion,
   it.carbs_per_portion, it.protein_per_portion, it.fibre_per_portion,
   it.salt_per_portion, it.meal_types, it.max_portions)

/-- Day-wide cap invariant: no item's daily total exceeds its cap. -/
def CapOK (cat : List Item) (p : DayPlan) : Prop :=
  ∀ i m, (itemAt cat i).max_portions = some m → itemTotal p i ≤ m

/-- `Item.__init__` rejects `max_portions ≤ 0`; catalogs built by the
constructor satisfy this. -/
def CapsPos (cat : List Item) : Prop :=
  ∀ it ∈ cat, 0 < it.max_portions.getD 1

/-- `Item.__init__` rounds `calories_per_portion` to 2 decimals; catalogs
built by the constructor satisfy this. -/
def CalR (cat : List Item) : Prop :=
  ∀ it ∈ cat, round2 it.calories_per_portion = it.calories_per_portion

/-- The lunch-membership invariant: at least the stage-1 pair is present
(in positions 0 and 1) and every lunch portion references one of the two
stage-1 entries. -/
def LInv (plan : DayPlan) (a b : Nat) : Prop :=
  2 ≤ plan.lunch.length ∧ (plan.lunch.getD 0 dfltPortion).idx = a ∧
  (plan.lunch.getD 1 dfltPortion).idx = b ∧
  ∀ q ∈ plan.lunch, q.idx = a ∨ q.idx = b

/-- Witness for C2 on a concrete catalog, goals and seed stream. -/
def catW2 : List Item :=
  [⟨"bf", 100, none, none, some 0, none, none, [.breakfast], none, none⟩,
   ⟨"dn", 100, none, none, none, none, none, [.dinner], some 2, none⟩,
   ⟨"lm", 100, none, none, none, none, none, [.lunch], none, some .main⟩,
   ⟨"ls", 100, none, none, none, none, none, [.lunch], none, some .side⟩]

def goalsW2 : Goals := mkGoals 400 0 none none

def planW2 : DayPlan := ⟨[⟨0, 1⟩], [⟨2, 1⟩, ⟨3, 1⟩], [⟨1, 1⟩]⟩

/-- Witness for C3 on a concrete run (dinner item capped at 2) and a
concrete over-cap `DayPlan.add`. -/
def catW3 : List Item :=
  [⟨"bf", 100, none, none, some 0, none, none, [.breakfast], none, none⟩,
   ⟨"dn", 100, none, none, none, none, none, [.dinner], some 2, none⟩,
   ⟨"lm", 100, none, none, none, none, none, [.lunch], none, some .main⟩,
   ⟨"ls", 100, none, none, none, none, none, [.lunch], none, some .side⟩]

def planW3 : DayPlan := ⟨[⟨0, 1⟩], [⟨2, 1⟩, ⟨3, 1⟩], [⟨1, 1⟩]⟩

def catW5 : List Item :=
  [⟨"only-bf", 100, none, none, none, none, none, [.breakfast], some 1,
    none⟩]

def planW5 : DayPlan := ⟨[⟨0, 1⟩], [], []⟩

def catW7 : List Item :=
  [⟨"b7", 100, none, none, some 0, none, none, [.breakfast], none, none⟩,
   ⟨"d7", 100, none, none, none, none, none, [.dinner], none, none⟩,
   ⟨"m7", 100, none, none, none, none, none, [.lunch], none, some .main⟩,
   ⟨"s7", 100, none, none, none, none, none, [.lunch], none, some .side⟩]

def planW7 : DayPlan := ⟨[⟨0, 1⟩], [⟨2, 1⟩, ⟨3, 1⟩], [⟨1, 1⟩]⟩

def catW6 : List Item :=
  [⟨"A6", 100, none, none, none, none, none, [.breakfast], none, none⟩,
   ⟨"D6", 100, none, none, none, none, none, [.dinner], none, none⟩,
   ⟨"L6", 100, none, none, none, none, none, [.lunch], none, none⟩]

def catW6out : List Item :=
  [⟨"A6", 100, none, none, none, none, none, [.breakfast], none, none⟩,
   ⟨"D6", 100, none, none, none, none, none, [.dinner], none, none⟩,
   ⟨"L6", 100, none, none, none, none, none, [.lunch], none, some .main⟩]

def planW6 : DayPlan := ⟨[⟨0, 1⟩], [⟨2, 1⟩, ⟨2, 1⟩], [⟨1, 1⟩]⟩

def catX6 : List Item :=
  [⟨"A6", 100, none, none, none, none, none, [.breakfast], none, none⟩,
   ⟨"D6", 100, none, none, none, none, none, [.dinner], none, none⟩,
   ⟨"L6", 100, none, none, none, none, none, [.lunch], some 1, none⟩]

def dictA9 : PyDict := ⟨["x"], fun _ => 1 / 10⟩

def dictB9 : PyDict := ⟨["y"], fun _ => 3 / 10⟩

def dictC9 : PyDict := ⟨["x"], fun _ => 1 / 2⟩

def dictA9x : PyDict := ⟨["x"], fun _ => 3 / 1000⟩

def dictB9x : PyDict := ⟨["x"], fun _ => 3 / 1000⟩

def dictC9x : PyDict := ⟨["x"], fun _ => 0⟩

def catW4 : List Item :=
  [⟨"X4", 100, none, none, none, none, none, [.breakfast, .lunch], some 1,
    none⟩]

def planW4 : DayPlan := ⟨[⟨0, 1⟩], [], []⟩

def c1RngA : List Nat :=
  [0, 1, 2, 3, 4, 5, 6, 7,
   8, 9, 10, 11, 12, 13, 14, 15,
   16, 17, 18, 19, 20, 21, 22, 23,
   24, 25, 26, 27, 28, 29, 30, 31,
   32, 33, 34, 35, 36, 37, 38, 39,
   40, 41, 42, 43, 44, 45, 46, 47,
   48, 49, 50, 51, 52, 53, 54, 55,
   56, 57, 58, 59, 60, 61, 62, 63,
   64, 65, 66, 67, 68, 69, 70, 71,
   72, 73, 74, 75, 76, 77, 78, 79,
   80, 81, 82, 83, 84, 85, 86, 87,
   88, 89, 90, 91, 92, 93, 94, 95,
   96, 97, 98, 99, 100, 101, 102, 103,
   104, 105, 106, 107, 108, 109, 110, 111,
   112, 113, 114, 115, 116, 117, 118, 119,
   120, 121, 122, 123, 124, 125, 126, 127,
   128, 129, 130, 131, 132, 133, 134, 135,
   136, 137, 138, 139, 140, 141, 142, 143,
   144, 145, 146, 147, 148, 149, 150, 151,
   152, 153, 154, 155, 156, 157, 158, 159,
   160, 161, 162, 163, 164, 165, 166, 167,
   168, 169, 170, 171, 172, 173, 174, 175,
   176, 177, 178, 179, 180, 181, 182, 183,
   184, 185, 186, 187, 188, 189, 190, 191,
   192, 193, 194, 195, 196, 197, 198, 199,
   200, 201, 202, 203, 204, 205, 206, 207,
   208, 209, 210, 211, 212, 213, 214, 215,
   216, 217, 218, 219, 220, 221, 222, 223,
   224, 225, 226, 227, 228, 229, 230, 231,
   232, 233, 234, 235, 236, 237, 238, 239,
   240, 241, 242, 243, 244, 245, 246, 247,
   248, 249, 250, 251, 252, 253, 254, 255,
   256, 257, 258, 259, 260, 261, 262, 263,
   264, 265, 266, 267, 268, 269, 270, 271,
   272, 273, 274, 275, 276, 277, 278, 279,
   280, 281, 282, 283, 284, 285, 286, 287,
   288, 289, 290, 291, 292, 293, 294, 295,
   296, 297, 298, 299, 300, 301, 302, 303,
   304, 305, 306, 307, 308, 309, 310, 311]

def c1RngB : List Nat :=
  [312, 313, 314, 315, 316, 317, 318, 319,
   320, 321, 322, 323, 324, 325, 326, 327,
   328, 329, 330, 331, 332, 333, 334, 335,
   336, 337, 338, 339, 340, 341, 342, 343,
   344, 345, 346, 347, 348, 349, 350, 351,
   352, 353, 354, 355, 356, 357, 358, 359,
   360, 361, 362, 363, 364, 365, 366, 367,
   368, 369, 370, 371, 372, 373, 374, 375,
   376, 377, 378, 379, 380, 381, 382, 383,
   384, 385, 386, 387, 388, 389, 390, 391,
   392, 393, 394, 395, 396, 397, 398, 399,
   400, 401, 402, 403, 404, 405, 406, 407,
   408, 409, 410, 411, 412, 413, 414, 415,
   416, 417, 418, 419, 420, 421, 422, 423,
   424, 425, 426, 427, 428, 429, 430, 431,
   432, 433, 434, 435, 436, 437, 438, 439,
   440, 441, 442, 443, 444, 445, 446, 447,
   448, 449, 450, 451, 452, 453, 454, 455,
   456, 457, 458, 459, 460, 461, 462, 463,
   464, 465, 466, 467, 468, 469, 470, 471,
   472, 473, 474, 475, 476, 477, 478, 479,
   480, 481, 482, 483, 484, 485, 486, 487,
   488, 489, 490, 491, 492, 493, 494, 495,
   496, 497, 498, 499, 500, 501, 502, 503,
   504, 505, 506, 507, 508, 509, 510, 511,
   512, 513, 514, 515, 516, 517, 518, 519,
   520, 521, 522, 523, 524, 525, 526, 527,
   528, 529, 530, 531, 532, 533, 534, 535,
   536, 537, 538, 539, 540, 541, 542, 543,
   544, 545, 546, 547, 548, 549, 550, 551,
   552, 553, 554, 555, 556, 557, 558, 559,
   560, 561, 562, 563, 564, 565, 566, 567,
   568, 569, 570, 571, 572, 573, 574, 575,
   576, 577, 578, 579, 580, 581, 582, 583,
   584, 585, 586, 587, 588, 589, 590, 591,
   592, 593, 594, 595, 596, 597, 598, 599,
   600, 601, 602, 603, 604, 605, 606, 607,
   608, 609, 610, 611, 612, 613, 614, 615,
   616, 617, 618, 619, 620, 621, 622]

def c1S1 : Nat × Nat × List Nat :=
  (142734034, 313,
    [142734034, 2916146832, 34782949, 1226457986, 3761027786, 1285948639, 975540284, 2947737408,
   1601926242, 3759737929, 2582034960, 3239950393, 667742236, 1312406577, 2573705612, 2730510776,
   426665187, 1757804190, 51184555, 1222939296, 922186079, 1046497567, 438085196, 771183330,
   862342957, 3127753611, 1301176317, 2681595121, 240910660, 2516586762, 1816545474, 1518371465,
   3119455410, 4266377361, 2225964784, 1149173203, 1174445287, 3562264788, 2613796143, 670873689,
   2851998122, 2200349072, 2649636591, 3164133583, 2539969944, 718792604, 2532158399, 2116300560,
   4159903992, 4210635059, 3318710975, 3232676806, 1476265004, 2574997514, 680496635, 3356722694,
   4192871202, 3711010937, 277065458, 3832221927, 1622853283, 2833360921, 3727894469, 2643788909,
   1401714789, 3428669802, 1797269750, 1890650113, 293994524, 3059852298, 2686841033, 2568658569,
   140581304, 3111882026, 4271912220, 3797759893, 1640252809, 3275208410, 3489134272, 2991500316,
   2520802485, 506003017, 798286522, 1370367813, 2136364769, 1880693944, 758340017, 2727104545,
   861781568, 1788453345, 2556071384, 2008745587, 2587648220, 3686064131, 1012335624, 3635632789,
   3126539534, 46152446, 3681829528, 2681274264, 2282092805, 3881512158, 742342831, 3979653402,
   2911604503, 1696011322, 2247148685, 623564883, 3897607181, 406561453, 4156878137, 3076008769,
   3221624091, 3773310804, 3807832586, 4137898487, 3138556488, 478803252, 3484259358, 1521860141,
   901228284, 930072460, 416687433, 366677807, 3396216457, 2795804747, 3344730195, 1974090788,
   3902327948, 1029228868, 4293649418, 3682192071, 399772074, 1133695167, 3089667358, 1931293181,
   3971218783, 2537690753, 1140607595, 4137805178, 539814729, 2026267864, 3865519914, 422274176,
   980222603, 3439545764, 104744889, 2050343702, 2832484895, 738773343, 893089804, 2704726048,
   2648785169, 668528669, 2796353700, 955816590, 1904872348, 3309743875, 1829519945, 2002220930,
   346693941, 4246102746, 3025229445, 1205933762, 1573187880, 3179572998, 1942259446, 2344564886,
   1267030560, 3423543891, 2922602614, 3331577291, 1897974631, 1112268606, 3268366900, 340444514,
   1002066021, 2358935835, 4134715143, 2421398767, 2499713312, 2262104686, 1124854030, 1727529885,
   4014428911, 2631768385, 2905279128, 2987412752, 3647085204, 1628511289, 1203228647, 2932986219,
   3636393737, 2857335743, 1765506473, 3524644532, 1647333586, 2672900100, 2400528575, 1862314184,
   1685794058, 1550777747, 1370736725, 3255278936, 1897615374, 669116410, 1614747618, 4174970395,
   1043137738, 1556864443, 332872900, 1499706375, 548699130, 393453278, 2287991389, 3468881884,
   4121261916, 34711884, 2278780139, 3894654986, 1055110313, 804406473, 4167967445, 1963601502,
   3949991970, 3671007489, 2075519075, 22171017, 302309156, 3103448722, 3115851985, 2842514961,
   275612352, 3898116531, 3628367767, 4073107990, 1635136148, 3359074475, 147288288, 4194693085,
   2360410630, 499957222, 3015982257, 2452306317, 2429248426, 3667677805, 3537107937, 4141458096,
   2116659522, 2964190680, 2488668711, 2727485495, 3269762417, 3146346387, 2087741561, 3888374480,
   2864380489, 3629971774, 799115259, 750866145, 3007610686, 970921794, 80499043, 2890863071,
   3096545044, 1934126869, 1402615791, 4240588078, 2876012911, 41492871, 3529585711, 2088609312,
   3699583528, 2832785922, 254650943, 653651109, 1224061569, 1814262168, 594136785, 3148644481,
   2107812065, 3537525294, 1900533858, 1318655221, 551149560, 3436335279, 3057012486, 1211472509,
   3924081815, 2590753297, 2341377904, 2400416080, 4207719964, 2783805802, 2882769417, 2585306665,
   1422571577, 3311200630, 3855278296, 3489052161, 2892331238, 1330738387, 1003665704, 3889680837,
   2833403150, 1814940559, 721660136, 2188372024, 719805879, 1417962806, 874550967, 2194844435,
   19650218])

def c1S2 : Nat × Nat × List Nat :=
  (2905164258, 624,
    [2905164258, 1635052534, 3108728554, 2494804283, 2939219489, 1098865791, 2463881971, 2920297152,
   1481676153, 2613550760, 4237199385, 2196303270, 1430072091, 2544260698, 1779286169, 1932918233,
   4096823942, 2739462297, 604774175, 1576615579, 3104188113, 4155016765, 2421794725, 4184957279,
   3360749048, 1702902668, 2080594943, 3010604384, 4022490143, 2873283550, 853096604, 336174575,
   2326708913, 3993561529, 518523023, 911976986, 1643999927, 1354685949, 3225750324, 121785359,
   4188334520, 2510752543, 1375945828, 758818611, 2998385089, 3951567013, 4291719204, 763251111,
   2063591130, 623498751, 619161901, 2929333298, 1919198655, 595304244, 3167671920, 1949555562,
   899447370, 1976606742, 1103312993, 1020530876, 3410898923, 2003138393, 189686171, 4215513121,
   2373631903, 2893719730, 2287658550, 2830079959, 2365602253, 1012445178, 3995730323, 1657192483,
   243557343, 2407111514, 3737140007, 2563327448, 4142650279, 940193076, 2916138664, 3081487737,
   4148604134, 2483173049, 1931863550, 2823456463, 3543924788, 722448549, 3445281068, 1163635478,
   672527398, 3349647456, 1168938371, 2822882772, 3621804227, 744286448, 3951905925, 834843492,
   2330951878, 3646714856, 1761180115, 2775252812, 3542996035, 2682159578, 656698256, 248278651,
   2657856757, 559859542, 2709652242, 2646143627, 1468655994, 2507869609, 2445243929, 1037069880,
   68817880, 3581811046, 19134280, 291303663, 2201173365, 4181545713, 933165355, 2302165064,
   228231184, 156211365, 1115859074, 2982111755, 2710753737, 238911006, 3219381950, 222528329,
   3621950182, 2751150377, 343671839, 2161504072, 2783186990, 165909127, 2659914459, 2325690120,
   4284063395, 4171611151, 2057094004, 3066948065, 3338815162, 3882536840, 798789550, 2942754891,
   2003448718, 1498851202, 2962654934, 1862999556, 1854864649, 1988620951, 3617063034, 3560958606,
   3747681661, 913857966, 107682552, 1238578150, 2279952808, 3374677426, 3152395874, 349292989,
   1528864744, 1466421412, 3245216029, 2634319122, 3621709005, 802662362, 3847861459, 2263235392,
   1862432793, 1831166187, 2794717891, 4178799653, 3719088974, 1337937966, 189424636, 246502175,
   1626809714, 2352722741, 439226283, 2896358996, 3370826939, 3513884419, 704411669, 3888932143,
   1607063978, 1410495094, 775553472, 589268143, 1859142878, 866785615, 865242585, 1413065993,
   1404204260, 506301841, 989728679, 2950230896, 320925812, 2657233815, 2392480235, 3729298457,
   752278045, 25504318, 725502136, 993379095, 3385122292, 4273098366, 1350089133, 3926678815,
   1120564498, 1293199350, 406246264, 4063025724, 2892512290, 1831627642, 433656928, 1079541434,
   4021176185, 3851731257, 2379159653, 3390355091, 1729663122, 3736887952, 306465830, 2331394419,
   1181922214, 3337180104, 1394934451, 1805942063, 2692883557, 3297105617, 3643232056, 2765853569,
   3471943430, 2372597521, 3652717612, 3879209240, 3607443975, 3730509879, 2042086160, 3578587616,
   1525608673, 4175228089, 1922410526, 1715499660, 3715638227, 1888657273, 926205331, 87326482,
   735476370, 919015551, 1782441684, 97659251, 3091367825, 2716998340, 2527971304, 792789163,
   87174175, 3258199283, 957417377, 2730075174, 2937538864, 1373900512, 4205099837, 4084014919,
   1731016690, 3924670764, 2909421388, 3652705112, 1168231653, 1007986266, 1300643225, 478389208,
   3481808155, 737713932, 2042766103, 1161124915, 4264242568, 3595587370, 1285104017, 160348120,
   1493415041, 2371373280, 3565909441, 4181103103, 1006180559, 3756851151, 3229539130, 2481932343,
   2094837850, 1038354351, 2558474063, 2241527512, 3764647071, 4137196231, 487578169, 1622629937,
   3045003063, 2056318769, 1678953742, 1541227668, 1482533137, 3705107125, 4087139828, 3376719924,
   2199197158, 3100986137, 3517313596, 1575951506, 3947471773, 4042990521, 569716755, 142734034,
   2916146832, 34782949, 1226457986, 3761027786, 1285948639, 975540284, 2947737408, 1601926242,
   3759737929, 2582034960, 3239950393, 667742236, 1312406577, 2573705612, 2730510776, 426665187,
   1757804190, 51184555, 1222939296, 922186079, 1046497567, 438085196, 771183330, 862342957,
   3127753611, 1301176317, 2681595121, 240910660, 2516586762, 1816545474, 1518371465, 3119455410,
   4266377361, 2225964784, 1149173203, 1174445287, 3562264788, 2613796143, 670873689, 2851998122,
   2200349072, 2649636591, 3164133583, 2539969944, 718792604, 2532158399, 2116300560, 4159903992,
   4210635059, 3318710975, 3232676806, 1476265004, 2574997514, 680496635, 3356722694, 4192871202,
   3711010937, 277065458, 3832221927, 1622853283, 2833360921, 3727894469, 2643788909, 1401714789,
   3428669802, 1797269750, 1890650113, 293994524, 3059852298, 2686841033, 2568658569, 140581304,
   3111882026, 4271912220, 3797759893, 1640252809, 3275208410, 3489134272, 2991500316, 2520802485,
   506003017, 798286522, 1370367813, 2136364769, 1880693944, 758340017, 2727104545, 861781568,
   1788453345, 2556071384, 2008745587, 2587648220, 3686064131, 1012335624, 3635632789, 3126539534,
   46152446, 3681829528, 2681274264, 2282092805, 3881512158, 742342831, 3979653402, 2911604503,
   1696011322, 2247148685, 623564883, 3897607181, 406561453, 4156878137, 3076008769, 3221624091,
   3773310804, 3807832586, 4137898487, 3138556488, 478803252, 3484259358, 1521860141, 901228284,
   930072460, 416687433, 366677807, 3396216457, 2795804747, 3344730195, 1974090788, 3902327948,
   1029228868, 4293649418, 3682192071, 399772074, 1133695167, 3089667358, 1931293181, 3971218783,
   2537690753, 1140607595, 4137805178, 539814729, 2026267864, 3865519914, 422274176, 980222603,
   3439545764, 104744889, 2050343702, 2832484895, 738773343, 893089804, 2704726048, 2648785169,
   668528669, 2796353700, 955816590, 1904872348, 3309743875, 1829519945, 2002220930, 346693941,
   4246102746, 3025229445, 1205933762, 1573187880, 3179572998, 1942259446, 2344564886, 1267030560,
   3423543891, 2922602614, 3331577291, 1897974631, 1112268606, 3268366900, 340444514, 1002066021,
   2358935835, 4134715143, 2421398767, 2499713312, 2262104686, 1124854030, 1727529885, 4014428911,
   2631768385, 2905279128, 2987412752, 3647085204, 1628511289, 1203228647, 2932986219, 3636393737,
   2857335743, 1765506473, 3524644532, 1647333586, 2672900100, 2400528575, 1862314184, 1685794058,
   1550777747, 1370736725, 3255278936, 1897615374, 669116410, 1614747618, 4174970395, 1043137738,
   1556864443, 332872900, 1499706375, 548699130, 393453278, 2287991389, 3468881884, 4121261916,
   34711884, 2278780139, 3894654986, 1055110313, 804406473, 4167967445, 1963601502, 3949991970,
   3671007489, 2075519075, 22171017, 302309156, 3103448722, 3115851985, 2842514961, 275612352,
   3898116531, 3628367767, 4073107990, 1635136148, 3359074475, 147288288, 4194693085, 2360410630,
   499957222, 3015982257, 2452306317, 2429248426, 3667677805, 3537107937, 4141458096, 2116659522,
   2964190680, 2488668711, 2727485495, 3269762417, 3146346387, 2087741561, 3888374480, 2864380489,
   3629971774, 799115259, 750866145, 3007610686, 970921794, 80499043, 2890863071, 3096545044,
   1934126869, 1402615791, 4240588078, 2876012911, 41492871, 3529585711, 2088609312, 3699583528,
   2832785922, 254650943, 653651109, 1224061569, 1814262168, 594136785, 3148644481, 2107812065,
   3537525294, 1900533858, 1318655221, 551149560, 3436335279, 3057012486, 1211472509, 3924081815,
   2590753297, 2341377904, 2400416080, 4207719964, 2783805802, 2882769417, 2585306665, 1422571577,
   3311200630, 3855278296, 3489052161, 2892331238, 1330738387, 1003665704, 3889680837, 2833403150,
   1814940559, 721660136, 2188372024, 719805879, 1417962806, 874550967, 2194844435, 19650218])

def c1LitA : List Nat :=
  [19650218, 2194844435, 874550967, 1417962806, 719805879, 2188372024, 721660136, 1814940559,
   2833403150, 3889680837, 1003665704, 1330738387, 2892331238, 3489052161, 3855278296, 3311200630,
   1422571577, 2585306665, 2882769417, 2783805802, 4207719964, 2400416080, 2341377904, 2590753297,
   3924081815, 1211472509, 3057012486, 3436335279, 551149560, 1318655221, 1900533858, 3537525294,
   2107812065, 3148644481, 594136785, 1814262168, 1224061569, 653651109, 254650943, 2832785922,
   3699583528, 2088609312, 3529585711, 41492871, 2876012911, 4240588078, 1402615791, 1934126869,
   3096545044, 2890863071, 80499043, 970921794, 3007610686, 750866145, 799115259, 3629971774,
   2864380489, 3888374480, 2087741561, 3146346387, 3269762417, 2727485495, 2488668711, 2964190680,
   2116659522, 4141458096, 3537107937, 3667677805, 2429248426, 2452306317, 3015982257, 499957222,
   2360410630, 4194693085, 147288288, 3359074475, 1635136148, 4073107990, 3628367767, 3898116531,
   275612352, 2842514961, 3115851985, 3103448722, 302309156, 22171017, 2075519075, 3671007489,
   3949991970, 1963601502, 4167967445, 804406473, 1055110313, 3894654986, 2278780139, 34711884,
   4121261916, 3468881884, 2287991389, 393453278, 548699130, 1499706375, 332872900, 1556864443,
   1043137738, 4174970395, 1614747618, 669116410, 1897615374, 3255278936, 1370736725, 1550777747,
   1685794058, 1862314184, 2400528575, 2672900100, 1647333586, 3524644532, 1765506473, 2857335743,
   3636393737, 2932986219, 1203228647, 1628511289, 3647085204, 2987412752, 2905279128, 2631768385,
   4014428911, 1727529885, 1124854030, 2262104686, 2499713312, 2421398767, 4134715143, 2358935835,
   1002066021, 340444514, 3268366900, 1112268606, 1897974631, 3331577291, 2922602614, 3423543891,
   1267030560, 2344564886, 1942259446, 3179572998, 1573187880, 1205933762, 3025229445, 4246102746,
   346693941, 2002220930, 1829519945, 3309743875, 1904872348, 955816590, 2796353700, 668528669,
   2648785169, 2704726048, 893089804, 738773343, 2832484895, 2050343702, 104744889, 3439545764,
   980222603, 422274176, 3865519914, 2026267864, 539814729, 4137805178, 1140607595, 2537690753,
   3971218783, 1931293181, 3089667358, 1133695167, 399772074, 3682192071, 4293649418, 1029228868,
   3902327948, 1974090788, 3344730195, 2795804747, 3396216457, 366677807, 416687433, 930072460,
   901228284, 1521860141, 3484259358, 478803252, 3138556488, 4137898487, 3807832586, 3773310804,
   3221624091, 3076008769, 4156878137, 406561453, 3897607181, 623564883, 2247148685, 1696011322,
   2911604503, 3979653402, 742342831, 3881512158, 2282092805, 2681274264, 3681829528, 46152446,
   3126539534, 3635632789, 1012335624, 3686064131, 2587648220, 2008745587, 2556071384, 1788453345,
   861781568, 2727104545, 758340017, 1880693944, 2136364769, 1370367813, 798286522, 506003017,
   2520802485, 2991500316, 3489134272, 3275208410, 1640252809, 3797759893, 4271912220, 3111882026,
   140581304, 2568658569, 2686841033, 3059852298, 293994524, 1890650113, 1797269750, 3428669802,
   1401714789, 2643788909, 3727894469, 2833360921, 1622853283, 3832221927, 277065458, 3711010937,
   4192871202, 3356722694, 680496635, 2574997514, 1476265004, 3232676806, 3318710975, 4210635059,
   4159903992, 2116300560, 2532158399, 718792604, 2539969944, 3164133583, 2649636591, 2200349072,
   2851998122, 670873689, 2613796143, 3562264788, 1174445287, 1149173203, 2225964784, 4266377361,
   3119455410, 1518371465, 1816545474, 2516586762, 240910660, 2681595121, 1301176317, 3127753611,
   862342957, 771183330, 438085196, 1046497567, 922186079, 1222939296, 51184555, 1757804190,
   426665187, 2730510776, 2573705612, 1312406577, 667742236, 3239950393, 2582034960, 3759737929,
   1601926242, 2947737408, 975540284, 1285948639, 3761027786, 1226457986, 34782949, 2916146832,
   142734034, 569716755, 4042990521, 3947471773, 1575951506, 3517313596, 3100986137, 2199197158,
   3376719924, 4087139828, 3705107125, 1482533137, 1541227668, 1678953742, 2056318769, 3045003063,
   1622629937, 487578169, 4137196231, 3764647071, 2241527512, 2558474063, 1038354351, 2094837850,
   2481932343, 3229539130, 3756851151, 1006180559, 4181103103, 3565909441, 2371373280, 1493415041,
   160348120, 1285104017, 3595587370, 4264242568, 1161124915, 2042766103, 737713932, 3481808155,
   478389208, 1300643225, 1007986266, 1168231653, 3652705112, 2909421388, 3924670764, 1731016690,
   4084014919, 4205099837, 1373900512, 2937538864, 2730075174, 957417377, 3258199283, 87174175,
   792789163, 2527971304, 2716998340, 3091367825, 97659251, 1782441684, 919015551, 735476370,
   87326482, 926205331, 1888657273, 3715638227, 1715499660, 1922410526, 4175228089, 1525608673,
   3578587616, 2042086160, 3730509879, 3607443975, 3879209240, 3652717612, 2372597521, 3471943430,
   2765853569, 3643232056, 3297105617, 2692883557, 1805942063, 1394934451, 3337180104, 1181922214,
   2331394419, 306465830, 3736887952, 1729663122, 3390355091, 2379159653, 3851731257, 4021176185,
   1079541434, 433656928, 1831627642, 2892512290, 4063025724, 406246264, 1293199350, 1120564498,
   3926678815, 1350089133, 4273098366, 3385122292, 993379095, 725502136, 25504318, 752278045,
   3729298457, 2392480235, 2657233815, 320925812, 2950230896, 989728679, 506301841, 1404204260,
   1413065993, 865242585, 866785615, 1859142878, 589268143, 775553472, 1410495094, 1607063978,
   3888932143, 704411669, 3513884419, 3370826939, 2896358996, 439226283, 2352722741, 1626809714,
   246502175, 189424636, 1337937966, 3719088974, 4178799653, 2794717891, 1831166187, 1862432793,
   2263235392, 3847861459, 802662362, 3621709005, 2634319122, 3245216029, 1466421412, 1528864744,
   349292989, 3152395874, 3374677426, 2279952808, 1238578150, 107682552, 913857966, 3747681661,
   3560958606, 3617063034, 1988620951, 1854864649, 1862999556, 2962654934, 1498851202, 2003448718,
   2942754891, 798789550, 3882536840, 3338815162, 3066948065, 2057094004, 4171611151, 4284063395,
   2325690120, 2659914459, 165909127, 2783186990, 2161504072, 343671839, 2751150377, 3621950182,
   222528329, 3219381950, 238911006, 2710753737, 2982111755, 1115859074, 156211365, 228231184,
   2302165064, 933165355, 4181545713, 2201173365, 291303663, 19134280, 3581811046, 68817880,
   1037069880, 2445243929, 2507869609, 1468655994, 2646143627, 2709652242, 559859542, 2657856757,
   248278651, 656698256, 2682159578, 3542996035, 2775252812, 1761180115, 3646714856, 2330951878,
   834843492, 3951905925, 744286448, 3621804227, 2822882772, 1168938371, 3349647456, 672527398,
   1163635478, 3445281068, 722448549, 3543924788, 2823456463, 1931863550, 2483173049, 4148604134,
   3081487737, 2916138664, 940193076, 4142650279, 2563327448, 3737140007, 2407111514, 243557343,
   1657192483, 3995730323, 1012445178, 2365602253, 2830079959, 2287658550, 2893719730, 2373631903,
   4215513121, 189686171, 2003138393, 3410898923, 1020530876, 1103312993, 1976606742, 899447370,
   1949555562, 3167671920, 595304244, 1919198655, 2929333298, 619161901, 623498751, 2063591130,
   763251111, 4291719204, 3951567013, 2998385089, 758818611, 1375945828, 2510752543, 4188334520,
   121785359, 3225750324, 1354685949, 1643999927, 911976986, 518523023, 3993561529, 2326708913,
   336174575, 853096604, 2873283550, 4022490143, 3010604384, 2080594943, 1702902668, 3360749048,
   4184957279, 2421794725, 4155016765, 3104188113, 1576615579, 604774175, 2739462297, 4096823942,
   1932918233, 1779286169, 2544260698, 1430072091, 2196303270, 4237199385, 2613550760, 1481676153,
   2920297152, 2463881971, 1098865791, 2939219489, 2494804283, 3108728554, 1635052534, 2905164258]

def c1RA : List Nat :=
  [2194844435, 874550967, 1417962806, 719805879, 2188372024, 721660136, 1814940559, 2833403150,
   3889680837, 1003665704, 1330738387, 2892331238, 3489052161, 3855278296, 3311200630, 1422571577,
   2585306665, 2882769417, 2783805802, 4207719964, 2400416080, 2341377904, 2590753297, 3924081815,
   1211472509, 3057012486, 3436335279, 551149560, 1318655221, 1900533858, 3537525294, 2107812065,
   3148644481, 594136785, 1814262168, 1224061569, 653651109, 254650943, 2832785922, 3699583528,
   2088609312, 3529585711, 41492871, 2876012911, 4240588078, 1402615791, 1934126869, 3096545044,
   2890863071, 80499043, 970921794, 3007610686, 750866145, 799115259, 3629971774, 2864380489,
   3888374480, 2087741561, 3146346387, 3269762417, 2727485495, 2488668711, 2964190680, 2116659522,
   4141458096, 3537107937, 3667677805, 2429248426, 2452306317, 3015982257, 499957222, 2360410630,
   4194693085, 147288288, 3359074475, 1635136148, 4073107990, 3628367767, 3898116531, 275612352,
   2842514961, 3115851985, 3103448722, 302309156, 22171017, 2075519075, 3671007489, 3949991970,
   1963601502, 4167967445, 804406473, 1055110313, 3894654986, 2278780139, 34711884, 4121261916,
   3468881884, 2287991389, 393453278, 548699130, 1499706375, 332872900, 1556864443, 1043137738,
   4174970395, 1614747618, 669116410, 1897615374, 3255278936, 1370736725, 1550777747, 1685794058,
   1862314184, 2400528575, 2672900100, 1647333586, 3524644532, 1765506473, 2857335743, 3636393737,
   2932986219, 1203228647, 1628511289, 3647085204, 2987412752, 2905279128, 2631768385, 4014428911,
   1727529885, 1124854030, 2262104686, 2499713312, 2421398767, 4134715143, 2358935835, 1002066021,
   340444514, 3268366900, 1112268606, 1897974631, 3331577291, 2922602614, 3423543891, 1267030560,
   2344564886, 1942259446, 3179572998, 1573187880, 1205933762, 3025229445, 4246102746, 346693941,
   2002220930, 1829519945, 3309743875, 1904872348, 955816590, 2796353700, 668528669, 2648785169,
   2704726048, 893089804, 738773343, 2832484895, 2050343702, 104744889, 3439545764, 980222603,
   422274176, 3865519914, 2026267864, 539814729, 4137805178, 1140607595, 2537690753, 3971218783,
   1931293181, 3089667358, 1133695167, 399772074, 3682192071, 4293649418, 1029228868, 3902327948,
   1974090788, 3344730195, 2795804747, 3396216457, 366677807, 416687433, 930072460, 901228284,
   1521860141, 3484259358, 478803252, 3138556488, 4137898487, 3807832586, 3773310804, 3221624091,
   3076008769, 4156878137, 406561453, 3897607181, 623564883, 2247148685, 1696011322, 2911604503,
   3979653402, 742342831, 3881512158, 2282092805, 2681274264, 3681829528, 46152446, 3126539534,
   3635632789, 1012335624, 3686064131, 2587648220, 2008745587, 2556071384, 1788453345, 861781568,
   2727104545, 758340017, 1880693944, 2136364769, 1370367813, 798286522, 506003017, 2520802485,
   2991500316, 3489134272, 3275208410, 1640252809, 3797759893, 4271912220, 3111882026, 140581304,
   2568658569, 2686841033, 3059852298, 293994524, 1890650113, 1797269750, 3428669802, 1401714789,
   2643788909, 3727894469, 2833360921, 1622853283, 3832221927, 277065458, 3711010937, 4192871202,
   3356722694, 680496635, 2574997514, 1476265004, 3232676806, 3318710975, 4210635059, 4159903992,
   2116300560, 2532158399, 718792604, 2539969944, 3164133583, 2649636591, 2200349072, 2851998122,
   670873689, 2613796143, 3562264788, 1174445287, 1149173203, 2225964784, 4266377361, 3119455410,
   1518371465, 1816545474, 2516586762, 240910660, 2681595121, 1301176317, 3127753611, 862342957,
   771183330, 438085196, 1046497567, 922186079, 1222939296, 51184555, 1757804190, 426665187,
   2730510776, 2573705612, 1312406577, 667742236, 3239950393, 2582034960, 3759737929, 1601926242,
   2947737408, 975540284, 1285948639, 3761027786, 1226457986, 34782949, 2916146832, 142734034]

def c1RB : List Nat :=
  [569716755, 4042990521, 3947471773, 1575951506, 3517313596, 3100986137, 2199197158, 3376719924,
   4087139828, 3705107125, 1482533137, 1541227668, 1678953742, 2056318769, 3045003063, 1622629937,
   487578169, 4137196231, 3764647071, 2241527512, 2558474063, 1038354351, 2094837850, 2481932343,
   3229539130, 3756851151, 1006180559, 4181103103, 3565909441, 2371373280, 1493415041, 160348120,
   1285104017, 3595587370, 4264242568, 1161124915, 2042766103, 737713932, 3481808155, 478389208,
   1300643225, 1007986266, 1168231653, 3652705112, 2909421388, 3924670764, 1731016690, 4084014919,
   4205099837, 1373900512, 2937538864, 2730075174, 957417377, 3258199283, 87174175, 792789163,
   2527971304, 2716998340, 3091367825, 97659251, 1782441684, 919015551, 735476370, 87326482,
   926205331, 1888657273, 3715638227, 1715499660, 1922410526, 4175228089, 1525608673, 3578587616,
   2042086160, 3730509879, 3607443975, 3879209240, 3652717612, 2372597521, 3471943430, 2765853569,
   3643232056, 3297105617, 2692883557, 1805942063, 1394934451, 3337180104, 1181922214, 2331394419,
   306465830, 3736887952, 1729663122, 3390355091, 2379159653, 3851731257, 4021176185, 1079541434,
   433656928, 1831627642, 2892512290, 4063025724, 406246264, 1293199350, 1120564498, 3926678815,
   1350089133, 4273098366, 3385122292, 993379095, 725502136, 25504318, 752278045, 3729298457,
   2392480235, 2657233815, 320925812, 2950230896, 989728679, 506301841, 1404204260, 1413065993,
   865242585, 866785615, 1859142878, 589268143, 775553472, 1410495094, 1607063978, 3888932143,
   704411669, 3513884419, 3370826939, 2896358996, 439226283, 2352722741, 1626809714, 246502175,
   189424636, 1337937966, 3719088974, 4178799653, 2794717891, 1831166187, 1862432793, 2263235392,
   3847861459, 802662362, 3621709005, 2634319122, 3245216029, 1466421412, 1528864744, 349292989,
   3152395874, 3374677426, 2279952808, 1238578150, 107682552, 913857966, 3747681661, 3560958606,
   3617063034, 1988620951, 1854864649, 1862999556, 2962654934, 1498851202, 2003448718, 2942754891,
   798789550, 3882536840, 3338815162, 3066948065, 2057094004, 4171611151, 4284063395, 2325690120,
   2659914459, 165909127, 2783186990, 2161504072, 343671839, 2751150377, 3621950182, 222528329,
   3219381950, 238911006, 2710753737, 2982111755, 1115859074, 156211365, 228231184, 2302165064,
   933165355, 4181545713, 2201173365, 291303663, 19134280, 3581811046, 68817880, 1037069880,
   2445243929, 2507869609, 1468655994, 2646143627, 2709652242, 559859542, 2657856757, 248278651,
   656698256, 2682159578, 3542996035, 2775252812, 1761180115, 3646714856, 2330951878, 834843492,
   3951905925, 744286448, 3621804227, 2822882772, 1168938371, 3349647456, 672527398, 1163635478,
   3445281068, 722448549, 3543924788, 2823456463, 1931863550, 2483173049, 4148604134, 3081487737,
   2916138664, 940193076, 4142650279, 2563327448, 3737140007, 2407111514, 243557343, 1657192483,
   3995730323, 1012445178, 2365602253, 2830079959, 2287658550, 2893719730, 2373631903, 4215513121,
   189686171, 2003138393, 3410898923, 1020530876, 1103312993, 1976606742, 899447370, 1949555562,
   3167671920, 595304244, 1919198655, 2929333298, 619161901, 623498751, 2063591130, 763251111,
   4291719204, 3951567013, 2998385089, 758818611, 1375945828, 2510752543, 4188334520, 121785359,
   3225750324, 1354685949, 1643999927, 911976986, 518523023, 3993561529, 2326708913, 336174575,
   853096604, 2873283550, 4022490143, 3010604384, 2080594943, 1702902668, 3360749048, 4184957279,
   2421794725, 4155016765, 3104188113, 1576615579, 604774175, 2739462297, 4096823942, 1932918233,
   1779286169, 2544260698, 1430072091, 2196303270, 4237199385, 2613550760, 1481676153, 2920297152,
   2463881971, 1098865791, 2939219489, 2494804283, 3108728554, 1635052534, 2905164258]

def c1T1 : Nat × Nat × List Nat :=
  (1704958731, 313,
    [1704958731, 1449835910, 1375542885, 1607767839, 1935689306, 2899348568, 3758500206, 2872122002,
   1322373393, 646890721, 1459678063, 3063917875, 89452328, 3364616097, 3447196901, 2199821929,
   3486566040, 82525193, 1770422204, 1557942548, 3937650681, 2729070410, 4156868848, 4149531305,
   642346265, 4291380897, 2557845606, 3198699711, 594523772, 1778995895, 3951741432, 1917406469,
   1197745459, 159926735, 1496339405, 3915472484, 4068331318, 2883717469, 2734648073, 181103816,
   3391964760, 2040212717, 4015652772, 4214896706, 2091382282, 2183792082, 3148432510, 3440871692,
   3398943233, 3243600480, 1349505760, 3537842854, 2857920616, 2466956528, 2531007350, 3509847048,
   2954299906, 2947831592, 3673000984, 1648310645, 2257510118, 3197048481, 4260801821, 889203926,
   816311901, 1181740471, 1280432026, 784818086, 3314690554, 23764084, 806073432, 2823911001,
   230064854, 3268917791, 1084319058, 1427958397, 4265187365, 55444434, 1218691251, 3613703414,
   1244578441, 2986808440, 1921313402, 1176071499, 4093647679, 1286441549, 4185633020, 4159524532,
   2967408413, 2586428165, 2608449512, 99447222, 4124480544, 2310080840, 3105634843, 2635897623,
   1522788225, 2664483063, 2682129013, 1471866070, 4253622655, 1489753177, 2782812527, 2161345096,
   1158817229, 2575047502, 2800973260, 3337081760, 2184744131, 3586532607, 2420366226, 2813798415,
   2073012605, 3183408610, 2713584774, 2036360007, 2992845560, 2113012279, 3224202182, 1895289539,
   3507417503, 1804178852, 901582182, 2527421091, 1714626119, 3384988927, 2539100172, 33696893,
   1863663898, 2987971302, 835994144, 3247549799, 37187498, 1087254411, 1904931983, 908041759,
   730224480, 2107386564, 1448830862, 2106440386, 2832046624, 1385308146, 274236872, 360284060,
   926927618, 4187807732, 3092851756, 221270047, 360050551, 1728101011, 1569713543, 1816013420,
   1206641395, 377822048, 2596606605, 1898012202, 1970103231, 750680421, 1781397473, 3399240813,
   2212311631, 2522037082, 2967638280, 4153249740, 4012671787, 1391465156, 3546294231, 4004775916,
   872053356, 430786802, 1128535918, 3500119809, 2483656454, 2704678957, 1745126184, 1249252059,
   3164228325, 772962590, 550061411, 704299134, 4056335644, 2194860192, 3777958579, 1176461818,
   708931513, 3219354810, 152746141, 739181647, 3869994130, 2451124502, 36846497, 2233360474,
   3260867644, 3442626108, 2015356760, 1737682490, 2259430334, 3675835301, 3704219520, 3073783687,
   4062907970, 2223806448, 3996576306, 1940271032, 4214260005, 285175713, 2009181624, 1754415781,
   1801615769, 4037243026, 3618900500, 2322776748, 3936078626, 104728514, 3147375636, 462699211,
   1299263784, 3931384801, 3170894621, 87008176, 2068948277, 181697410, 2316290863, 1992707033,
   4111546990, 751449606, 741633753, 1383762053, 1457197235, 1744172456, 1124474629, 2383891608,
   2184499681, 3496976088, 3771709626, 2066247466, 1528664247, 2406423399, 119532934, 2538307062,
   2979303823, 4232204788, 497191780, 3067870557, 3224438957, 73183173, 1576470247, 972035092,
   1268857515, 3163724757, 1849914998, 4019370972, 208762209, 1298889575, 510570830, 3234291146,
   2908179834, 3116814519, 1569308662, 2606254985, 3487315837, 3966194970, 676986690, 3685419244,
   1334943176, 4027372441, 2456928264, 1907220044, 2093243381, 3502785039, 561580338, 2747904217,
   932877331, 3289577950, 3613114837, 3736743071, 1081223961, 1684324463, 3501730186, 2213388159,
   2979806446, 543974913, 2702111703, 1098222546, 2385194875, 2457824071, 10980114, 13858030,
   412577173, 2037987349, 21697418, 414487256, 1940399647, 1254303940, 1010454088, 1909567690,
   3564892966, 2040579408, 1581336345, 2336705097, 1022308830, 1649822115, 57768122, 512586704,
   3188882037, 3444419378, 2039225082, 2613675602, 3188110858, 67375611, 2988510025, 4287170995])

def c1T2 : Nat × Nat × List Nat :=
  (4145181966, 624,
    [4145181966, 1086829351, 2821448285, 1216945204, 4202840046, 1679420096, 2109536900, 778227445,
   2781715261, 478324938, 3069433826, 1935176348, 2418485550, 535206995, 3538895476, 3673130708,
   1661761398, 2695373624, 442154411, 3017393676, 4054917014, 2198784539, 1168439221, 2796957932,
   1289230408, 2572698420, 643185206, 3639740724, 3923256089, 3796392235, 2130827282, 3616861119,
   2358787352, 341058435, 267050264, 3296392894, 2428853180, 3216248579, 1348140013, 3900769176,
   411621565, 1417330510, 2285390813, 2247935481, 4129120471, 1536683109, 404530270, 3611738203,
   3207692404, 2921250634, 544474835, 1319439597, 1291368188, 656051225, 904380911, 471671761,
   2550009595, 2223068605, 2112194080, 1282162618, 694521364, 3542170782, 2767849115, 1459352715,
   3472024907, 2791798444, 844376184, 1011529536, 1367501644, 2764564961, 1225634424, 3854837562,
   3863814084, 3306584658, 2452855984, 2130117740, 2889727480, 2177809495, 4132900774, 3871825471,
   1366481749, 1139168840, 2234928185, 492748717, 3150612982, 2366767298, 2547742139, 246865577,
   2802870583, 1206937502, 91256044, 1096125900, 866504470, 3286220912, 3022295444, 1205275314,
   1209589797, 269240377, 611498651, 1064220658, 718051500, 917522253, 325100949, 476287055,
   3826331533, 1874493431, 2652511597, 4066970398, 1887500594, 3562207473, 2732183260, 36648463,
   3392215242, 15532880, 2117132489, 3639232776, 3815057486, 3647597790, 267767969, 1447884677,
   1335834422, 3214964406, 1834486548, 4185480659, 1316743875, 1640312105, 3868435166, 2417059688,
   3663314984, 3717770691, 4174468747, 3439598957, 2792053997, 2718550939, 2553865236, 1664221356,
   3341516713, 3376449559, 2450130944, 3025448496, 3888343624, 10370540, 76559722, 1648347743,
   1398076143, 3882146092, 996489032, 3046187986, 2943513638, 3286042530, 4117338960, 1455836933,
   1550114176, 3436442188, 169130612, 3794139697, 673603501, 2324353101, 3252582558, 3198644596,
   335765323, 2073727972, 4282701021, 203833694, 3413893125, 1558413959, 2300144153, 4261334231,
   3350314410, 925628725, 1058972472, 2612713867, 3784043871, 3923170460, 173080196, 3521020405,
   403599260, 2224448650, 3142581363, 2264110784, 2332195856, 2025489224, 2909042971, 466939452,
   4145168170, 909447690, 2209911028, 253946746, 1473837170, 2698314212, 1856599328, 2093668642,
   2233891727, 2937844687, 4074691791, 1924079763, 1089168420, 2514925100, 4272314994, 4044099140,
   1316622342, 4165999934, 2847671432, 1924791223, 371147946, 959751116, 2181745542, 3677352334,
   3999683868, 41379368, 1482925329, 2627539345, 595019967, 3228264024, 4071899871, 743749489,
   2073594088, 1387031898, 2361261735, 79532480, 453156257, 3320349442, 1943737297, 41739853,
   2637032986, 584872758, 3300458991, 2188830548, 2274089523, 1537054373, 1133561787, 2500354887,
   1448847061, 3688145130, 915884701, 3251655376, 2141207471, 2689382352, 835836573, 318337015,
   1025992233, 2335512156, 1642862766, 153233658, 3276241735, 1685240687, 2254611302, 1426203666,
   115128458, 4274015745, 1171190657, 354579607, 109007358, 1823177184, 1117401859, 85954381,
   1077524321, 2001500225, 2638176510, 43877009, 721147917, 4271376996, 2579245064, 304452711,
   3328622889, 2360224235, 1226973080, 2173450176, 4241251581, 958019350, 1852350727, 2096374797,
   2236353885, 2885865794, 2567463038, 2859641173, 3535327971, 3616515022, 3892337917, 1442443923,
   897149229, 1467941843, 3405100214, 1718294280, 4047402398, 2611718365, 441770596, 3811860667,
   2396456260, 2386729850, 323000691, 103179702, 1544600093, 1396231061, 299070884, 869296711,
   2784181574, 735730303, 1196401533, 289290249, 2927715613, 1389130675, 2124490773, 1405702850,
   1795554757, 992959609, 734123942, 3506253307, 933023575, 3970004459, 3308252051, 1704958731,
   1449835910, 1375542885, 1607767839, 1935689306, 2899348568, 3758500206, 2872122002, 1322373393,
   646890721, 1459678063, 3063917875, 89452328, 3364616097, 3447196901, 2199821929, 3486566040,
   82525193, 1770422204, 1557942548, 3937650681, 2729070410, 4156868848, 4149531305, 642346265,
   4291380897, 2557845606, 3198699711, 594523772, 1778995895, 3951741432, 1917406469, 1197745459,
   159926735, 1496339405, 3915472484, 4068331318, 2883717469, 2734648073, 181103816, 3391964760,
   2040212717, 4015652772, 4214896706, 2091382282, 2183792082, 3148432510, 3440871692, 3398943233,
   3243600480, 1349505760, 3537842854, 2857920616, 2466956528, 2531007350, 3509847048, 2954299906,
   2947831592, 3673000984, 1648310645, 2257510118, 3197048481, 4260801821, 889203926, 816311901,
   1181740471, 1280432026, 784818086, 3314690554, 23764084, 806073432, 2823911001, 230064854,
   3268917791, 1084319058, 1427958397, 4265187365, 55444434, 1218691251, 3613703414, 1244578441,
   2986808440, 1921313402, 1176071499, 4093647679, 1286441549, 4185633020, 4159524532, 2967408413,
   2586428165, 2608449512, 99447222, 4124480544, 2310080840, 3105634843, 2635897623, 1522788225,
   2664483063, 2682129013, 1471866070, 4253622655, 1489753177, 2782812527, 2161345096, 1158817229,
   2575047502, 2800973260, 3337081760, 2184744131, 3586532607, 2420366226, 2813798415, 2073012605,
   3183408610, 2713584774, 2036360007, 2992845560, 2113012279, 3224202182, 1895289539, 3507417503,
   1804178852, 901582182, 2527421091, 1714626119, 3384988927, 2539100172, 33696893, 1863663898,
   2987971302, 835994144, 3247549799, 37187498, 1087254411, 1904931983, 908041759, 730224480,
   2107386564, 1448830862, 2106440386, 2832046624, 1385308146, 274236872, 360284060, 926927618,
   4187807732, 3092851756, 221270047, 360050551, 1728101011, 1569713543, 1816013420, 1206641395,
   377822048, 2596606605, 1898012202, 1970103231, 750680421, 1781397473, 3399240813, 2212311631,
   2522037082, 2967638280, 4153249740, 4012671787, 1391465156, 3546294231, 4004775916, 872053356,
   430786802, 1128535918, 3500119809, 2483656454, 2704678957, 1745126184, 1249252059, 3164228325,
   772962590, 550061411, 704299134, 4056335644, 2194860192, 3777958579, 1176461818, 708931513,
   3219354810, 152746141, 739181647, 3869994130, 2451124502, 36846497, 2233360474, 3260867644,
   3442626108, 2015356760, 1737682490, 2259430334, 3675835301, 3704219520, 3073783687, 4062907970,
   2223806448, 3996576306, 1940271032, 4214260005, 285175713, 2009181624, 1754415781, 1801615769,
   4037243026, 3618900500, 2322776748, 3936078626, 104728514, 3147375636, 462699211, 1299263784,
   3931384801, 3170894621, 87008176, 2068948277, 181697410, 2316290863, 1992707033, 4111546990,
   751449606, 741633753, 1383762053, 1457197235, 1744172456, 1124474629, 2383891608, 2184499681,
   3496976088, 3771709626, 2066247466, 1528664247, 2406423399, 119532934, 2538307062, 2979303823,
   4232204788, 497191780, 3067870557, 3224438957, 73183173, 1576470247, 972035092, 1268857515,
   3163724757, 1849914998, 4019370972, 208762209, 1298889575, 510570830, 3234291146, 2908179834,
   3116814519, 1569308662, 2606254985, 3487315837, 3966194970, 676986690, 3685419244, 1334943176,
   4027372441, 2456928264, 1907220044, 2093243381, 3502785039, 561580338, 2747904217, 932877331,
   3289577950, 3613114837, 3736743071, 1081223961, 1684324463, 3501730186, 2213388159, 2979806446,
   543974913, 2702111703, 1098222546, 2385194875, 2457824071, 10980114, 13858030, 412577173,
   2037987349, 21697418, 414487256, 1940399647, 1254303940, 1010454088, 1909567690, 3564892966,
   2040579408, 1581336345, 2336705097, 1022308830, 1649822115, 57768122, 512586704, 3188882037,
   3444419378, 2039225082, 2613675602, 3188110858, 67375611, 2988510025, 4287170995])

def c1LitB : List Nat :=
  [4145181966, 2874218012, 2988510025, 67375611, 3188110858, 2613675602, 2039225082, 3444419378,
   3188882037, 512586704, 57768122, 1649822115, 1022308830, 2336705097, 1581336345, 2040579408,
   3564892966, 1909567690, 1010454088, 1254303940, 1940399647, 414487256, 21697418, 2037987349,
   412577173, 13858030, 10980114, 2457824071, 2385194875, 1098222546, 2702111703, 543974913,
   2979806446, 2213388159, 3501730186, 1684324463, 1081223961, 3736743071, 3613114837, 3289577950,
   932877331, 2747904217, 561580338, 3502785039, 2093243381, 1907220044, 2456928264, 4027372441,
   1334943176, 3685419244, 676986690, 3966194970, 3487315837, 2606254985, 1569308662, 3116814519,
   2908179834, 3234291146, 510570830, 1298889575, 208762209, 4019370972, 1849914998, 3163724757,
   1268857515, 972035092, 1576470247, 73183173, 3224438957, 3067870557, 497191780, 4232204788,
   2979303823, 2538307062, 119532934, 2406423399, 1528664247, 2066247466, 3771709626, 3496976088,
   2184499681, 2383891608, 1124474629, 1744172456, 1457197235, 1383762053, 741633753, 751449606,
   4111546990, 1992707033, 2316290863, 181697410, 2068948277, 87008176, 3170894621, 3931384801,
   1299263784, 462699211, 3147375636, 104728514, 3936078626, 2322776748, 3618900500, 4037243026,
   1801615769, 1754415781, 2009181624, 285175713, 4214260005, 1940271032, 3996576306, 2223806448,
   4062907970, 3073783687, 3704219520, 3675835301, 2259430334, 1737682490, 2015356760, 3442626108,
   3260867644, 2233360474, 36846497, 2451124502, 3869994130, 739181647, 152746141, 3219354810,
   708931513, 1176461818, 3777958579, 2194860192, 4056335644, 704299134, 550061411, 772962590,
   3164228325, 1249252059, 1745126184, 2704678957, 2483656454, 3500119809, 1128535918, 430786802,
   872053356, 4004775916, 3546294231, 1391465156, 4012671787, 4153249740, 2967638280, 2522037082,
   2212311631, 3399240813, 1781397473, 750680421, 1970103231, 1898012202, 2596606605, 377822048,
   1206641395, 1816013420, 1569713543, 1728101011, 360050551, 221270047, 3092851756, 4187807732,
   926927618, 360284060, 274236872, 1385308146, 2832046624, 2106440386, 1448830862, 2107386564,
   730224480, 908041759, 1904931983, 1087254411, 37187498, 3247549799, 835994144, 2987971302,
   1863663898, 33696893, 2539100172, 3384988927, 1714626119, 2527421091, 901582182, 1804178852,
   3507417503, 1895289539, 3224202182, 2113012279, 2992845560, 2036360007, 2713584774, 3183408610,
   2073012605, 2813798415, 2420366226, 3586532607, 2184744131, 3337081760, 2800973260, 2575047502,
   1158817229, 2161345096, 2782812527, 1489753177, 4253622655, 1471866070, 2682129013, 2664483063,
   1522788225, 2635897623, 3105634843, 2310080840, 4124480544, 99447222, 2608449512, 2586428165,
   2967408413, 4159524532, 4185633020, 1286441549, 4093647679, 1176071499, 1921313402, 2986808440,
   1244578441, 3613703414, 1218691251, 55444434, 4265187365, 1427958397, 1084319058, 3268917791,
   230064854, 2823911001, 806073432, 23764084, 3314690554, 784818086, 1280432026, 1181740471,
   816311901, 889203926, 4260801821, 3197048481, 2257510118, 1648310645, 3673000984, 2947831592,
   2954299906, 3509847048, 2531007350, 2466956528, 2857920616, 3537842854, 1349505760, 3243600480,
   3398943233, 3440871692, 3148432510, 2183792082, 2091382282, 4214896706, 4015652772, 2040212717,
   3391964760, 181103816, 2734648073, 2883717469, 4068331318, 3915472484, 1496339405, 159926735,
   1197745459, 1917406469, 3951741432, 1778995895, 594523772, 3198699711, 2557845606, 4291380897,
   642346265, 4149531305, 4156868848, 2729070410, 3937650681, 1557942548, 1770422204, 82525193,
   3486566040, 2199821929, 3447196901, 3364616097, 89452328, 3063917875, 1459678063, 646890721,
   1322373393, 2872122002, 3758500206, 2899348568, 1935689306, 1607767839, 1375542885, 1449835910,
   1704958731, 3308252051, 3970004459, 933023575, 3506253307, 734123942, 992959609, 1795554757,
   1405702850, 2124490773, 1389130675, 2927715613, 289290249, 1196401533, 735730303, 2784181574,
   869296711, 299070884, 1396231061, 1544600093, 103179702, 323000691, 2386729850, 2396456260,
   3811860667, 441770596, 2611718365, 4047402398, 1718294280, 3405100214, 1467941843, 897149229,
   1442443923, 3892337917, 3616515022, 3535327971, 2859641173, 2567463038, 2885865794, 2236353885,
   2096374797, 1852350727, 958019350, 4241251581, 2173450176, 1226973080, 2360224235, 3328622889,
   304452711, 2579245064, 4271376996, 721147917, 43877009, 2638176510, 2001500225, 1077524321,
   85954381, 1117401859, 1823177184, 109007358, 354579607, 1171190657, 4274015745, 115128458,
   1426203666, 2254611302, 1685240687, 3276241735, 153233658, 1642862766, 2335512156, 1025992233,
   318337015, 835836573, 2689382352, 2141207471, 3251655376, 915884701, 3688145130, 1448847061,
   2500354887, 1133561787, 1537054373, 2274089523, 2188830548, 3300458991, 584872758, 2637032986,
   41739853, 1943737297, 3320349442, 453156257, 79532480, 2361261735, 1387031898, 2073594088,
   743749489, 4071899871, 3228264024, 595019967, 2627539345, 1482925329, 41379368, 3999683868,
   3677352334, 2181745542, 959751116, 371147946, 1924791223, 2847671432, 4165999934, 1316622342,
   4044099140, 4272314994, 2514925100, 1089168420, 1924079763, 4074691791, 2937844687, 2233891727,
   2093668642, 1856599328, 2698314212, 1473837170, 253946746, 2209911028, 909447690, 4145168170,
   466939452, 2909042971, 2025489224, 2332195856, 2264110784, 3142581363, 2224448650, 403599260,
   3521020405, 173080196, 3923170460, 3784043871, 2612713867, 1058972472, 925628725, 3350314410,
   4261334231, 2300144153, 1558413959, 3413893125, 203833694, 4282701021, 2073727972, 335765323,
   3198644596, 3252582558, 2324353101, 673603501, 3794139697, 169130612, 3436442188, 1550114176,
   1455836933, 4117338960, 3286042530, 2943513638, 3046187986, 996489032, 3882146092, 1398076143,
   1648347743, 76559722, 10370540, 3888343624, 3025448496, 2450130944, 3376449559, 3341516713,
   1664221356, 2553865236, 2718550939, 2792053997, 3439598957, 4174468747, 3717770691, 3663314984,
   2417059688, 3868435166, 1640312105, 1316743875, 4185480659, 1834486548, 3214964406, 1335834422,
   1447884677, 267767969, 3647597790, 3815057486, 3639232776, 2117132489, 15532880, 3392215242,
   36648463, 2732183260, 3562207473, 1887500594, 4066970398, 2652511597, 1874493431, 3826331533,
   476287055, 325100949, 917522253, 718051500, 1064220658, 611498651, 269240377, 1209589797,
   1205275314, 3022295444, 3286220912, 866504470, 1096125900, 91256044, 1206937502, 2802870583,
   246865577, 2547742139, 2366767298, 3150612982, 492748717, 2234928185, 1139168840, 1366481749,
   3871825471, 4132900774, 2177809495, 2889727480, 2130117740, 2452855984, 3306584658, 3863814084,
   3854837562, 1225634424, 2764564961, 1367501644, 1011529536, 844376184, 2791798444, 3472024907,
   1459352715, 2767849115, 3542170782, 694521364, 1282162618, 2112194080, 2223068605, 2550009595,
   471671761, 904380911, 656051225, 1291368188, 1319439597, 544474835, 2921250634, 3207692404,
   3611738203, 404530270, 1536683109, 4129120471, 2247935481, 2285390813, 1417330510, 411621565,
   3900769176, 1348140013, 3216248579, 2428853180, 3296392894, 267050264, 341058435, 2358787352,
   3616861119, 2130827282, 3796392235, 3923256089, 3639740724, 643185206, 2572698420, 1289230408,
   2796957932, 1168439221, 2198784539, 4054917014, 3017393676, 442154411, 2695373624, 1661761398,
   3673130708, 3538895476, 535206995, 2418485550, 1935176348, 3069433826, 478324938, 2781715261,
   778227445, 2109536900, 1679420096, 4202840046, 1216945204, 2821448285, 1086829351, 4145181966]

def c1RB1 : List Nat :=
  [2988510025, 67375611, 3188110858, 2613675602, 2039225082, 3444419378, 3188882037, 512586704,
   57768122, 1649822115, 1022308830, 2336705097, 1581336345, 2040579408, 3564892966, 1909567690,
   1010454088, 1254303940, 1940399647, 414487256, 21697418, 2037987349, 412577173, 13858030,
   10980114, 2457824071, 2385194875, 1098222546, 2702111703, 543974913, 2979806446, 2213388159,
   3501730186, 1684324463, 1081223961, 3736743071, 3613114837, 3289577950, 932877331, 2747904217,
   561580338, 3502785039, 2093243381, 1907220044, 2456928264, 4027372441, 1334943176, 3685419244,
   676986690, 3966194970, 3487315837, 2606254985, 1569308662, 3116814519, 2908179834, 3234291146,
   510570830, 1298889575, 208762209, 4019370972, 1849914998, 3163724757, 1268857515, 972035092,
   1576470247, 73183173, 3224438957, 3067870557, 497191780, 4232204788, 2979303823, 2538307062,
   119532934, 2406423399, 1528664247, 2066247466, 3771709626, 3496976088, 2184499681, 2383891608,
   1124474629, 1744172456, 1457197235, 1383762053, 741633753, 751449606, 4111546990, 1992707033,
   2316290863, 181697410, 2068948277, 87008176, 3170894621, 3931384801, 1299263784, 462699211,
   3147375636, 104728514, 3936078626, 2322776748, 3618900500, 4037243026, 1801615769, 1754415781,
   2009181624, 285175713, 4214260005, 1940271032, 3996576306, 2223806448, 4062907970, 3073783687,
   3704219520, 3675835301, 2259430334, 1737682490, 2015356760, 3442626108, 3260867644, 2233360474,
   36846497, 2451124502, 3869994130, 739181647, 152746141, 3219354810, 708931513, 1176461818,
   3777958579, 2194860192, 4056335644, 704299134, 550061411, 772962590, 3164228325, 1249252059,
   1745126184, 2704678957, 2483656454, 3500119809, 1128535918, 430786802, 872053356, 4004775916,
   3546294231, 1391465156, 4012671787, 4153249740, 2967638280, 2522037082, 2212311631, 3399240813,
   1781397473, 750680421, 1970103231, 1898012202]

def c1RB2 : List Nat :=
  [2596606605, 377822048, 1206641395, 1816013420, 1569713543, 1728101011, 360050551, 221270047,
   3092851756, 4187807732, 926927618, 360284060, 274236872, 1385308146, 2832046624, 2106440386,
   1448830862, 2107386564, 730224480, 908041759, 1904931983, 1087254411, 37187498, 3247549799,
   835994144, 2987971302, 1863663898, 33696893, 2539100172, 3384988927, 1714626119, 2527421091,
   901582182, 1804178852, 3507417503, 1895289539, 3224202182, 2113012279, 2992845560, 2036360007,
   2713584774, 3183408610, 2073012605, 2813798415, 2420366226, 3586532607, 2184744131, 3337081760,
   2800973260, 2575047502, 1158817229, 2161345096, 2782812527, 1489753177, 4253622655, 1471866070,
   2682129013, 2664483063, 1522788225, 2635897623, 3105634843, 2310080840, 4124480544, 99447222,
   2608449512, 2586428165, 2967408413, 4159524532, 4185633020, 1286441549, 4093647679, 1176071499,
   1921313402, 2986808440, 1244578441, 3613703414, 1218691251, 55444434, 4265187365, 1427958397,
   1084319058, 3268917791, 230064854, 2823911001, 806073432, 23764084, 3314690554, 784818086,
   1280432026, 1181740471, 816311901, 889203926, 4260801821, 3197048481, 2257510118, 1648310645,
   3673000984, 2947831592, 2954299906, 3509847048, 2531007350, 2466956528, 2857920616, 3537842854,
   1349505760, 3243600480, 3398943233, 3440871692, 3148432510, 2183792082, 2091382282, 4214896706,
   4015652772, 2040212717, 3391964760, 181103816, 2734648073, 2883717469, 4068331318, 3915472484,
   1496339405, 159926735, 1197745459, 1917406469, 3951741432, 1778995895, 594523772, 3198699711,
   2557845606, 4291380897, 642346265, 4149531305, 4156868848, 2729070410, 3937650681, 1557942548,
   1770422204, 82525193, 3486566040, 2199821929, 3447196901, 3364616097, 89452328, 3063917875,
   1459678063, 646890721, 1322373393, 2872122002, 3758500206, 2899348568, 1935689306, 1607767839,
   1375542885, 1449835910, 1704958731, 3308252051]

def c1RB3 : List Nat :=
  [3970004459, 933023575, 3506253307, 734123942, 992959609, 1795554757, 1405702850, 2124490773,
   1389130675, 2927715613, 289290249, 1196401533, 735730303, 2784181574, 869296711, 299070884,
   1396231061, 1544600093, 103179702, 323000691, 2386729850, 2396456260, 3811860667, 441770596,
   2611718365, 4047402398, 1718294280, 3405100214, 1467941843, 897149229, 1442443923, 3892337917,
   3616515022, 3535327971, 2859641173, 2567463038, 2885865794, 2236353885, 2096374797, 1852350727,
   958019350, 4241251581, 2173450176, 1226973080, 2360224235, 3328622889, 304452711, 2579245064,
   4271376996, 721147917, 43877009, 2638176510, 2001500225, 1077524321, 85954381, 1117401859,
   1823177184, 109007358, 354579607, 1171190657, 4274015745, 115128458, 1426203666, 2254611302,
   1685240687, 3276241735, 153233658, 1642862766, 2335512156, 1025992233, 318337015, 835836573,
   2689382352, 2141207471, 3251655376, 915884701, 3688145130, 1448847061, 2500354887, 1133561787,
   1537054373, 2274089523, 2188830548, 3300458991, 584872758, 2637032986, 41739853, 1943737297,
   3320349442, 453156257, 79532480, 2361261735, 1387031898, 2073594088, 743749489, 4071899871,
   3228264024, 595019967, 2627539345, 1482925329, 41379368, 3999683868, 3677352334, 2181745542,
   959751116, 371147946, 1924791223, 2847671432, 4165999934, 1316622342, 4044099140, 4272314994,
   2514925100, 1089168420, 1924079763, 4074691791, 2937844687, 2233891727, 2093668642, 1856599328,
   2698314212, 1473837170, 253946746, 2209911028, 909447690, 4145168170, 466939452, 2909042971,
   2025489224, 2332195856, 2264110784, 3142581363, 2224448650, 403599260, 3521020405, 173080196,
   3923170460, 3784043871, 2612713867, 1058972472, 925628725, 3350314410, 4261334231, 2300144153,
   1558413959, 3413893125, 203833694, 4282701021, 2073727972, 335765323, 3198644596, 3252582558,
   2324353101, 673603501, 3794139697]

def c1RB4 : List Nat :=
  [169130612, 3436442188, 1550114176, 1455836933, 4117338960, 3286042530, 2943513638, 3046187986,
   996489032, 3882146092, 1398076143, 1648347743, 76559722, 10370540, 3888343624, 3025448496,
   2450130944, 3376449559, 3341516713, 1664221356, 2553865236, 2718550939, 2792053997, 3439598957,
   4174468747, 3717770691, 3663314984, 2417059688, 3868435166, 1640312105, 1316743875, 4185480659,
   1834486548, 3214964406, 1335834422, 1447884677, 267767969, 3647597790, 3815057486, 3639232776,
   2117132489, 15532880, 3392215242, 36648463, 2732183260, 3562207473, 1887500594, 4066970398,
   2652511597, 1874493431, 3826331533, 476287055, 325100949, 917522253, 718051500, 1064220658,
   611498651, 269240377, 1209589797, 1205275314, 3022295444, 3286220912, 866504470, 1096125900,
   91256044, 1206937502, 2802870583, 246865577, 2547742139, 2366767298, 3150612982, 492748717,
   2234928185, 1139168840, 1366481749, 3871825471, 4132900774, 2177809495, 2889727480, 2130117740,
   2452855984, 3306584658, 3863814084, 3854837562, 1225634424, 2764564961, 1367501644, 1011529536,
   844376184, 2791798444, 3472024907, 1459352715, 2767849115, 3542170782, 694521364, 1282162618,
   2112194080, 2223068605, 2550009595, 471671761, 904380911, 656051225, 1291368188, 1319439597,
   544474835, 2921250634, 3207692404, 3611738203, 404530270, 1536683109, 4129120471, 2247935481,
   2285390813, 1417330510, 411621565, 3900769176, 1348140013, 3216248579, 2428853180, 3296392894,
   267050264, 341058435, 2358787352, 3616861119, 2130827282, 3796392235, 3923256089, 3639740724,
   643185206, 2572698420, 1289230408, 2796957932, 1168439221, 2198784539, 4054917014, 3017393676,
   442154411, 2695373624, 1661761398, 3673130708, 3538895476, 535206995, 2418485550, 1935176348,
   3069433826, 478324938, 2781715261, 778227445, 2109536900, 1679420096, 4202840046, 1216945204,
   2821448285, 1086829351, 4145181966]

def c1U1 : Nat × Nat × List Nat :=
  (1818491115, 158,
    [1818491115, 469597178, 1601249908, 3482946337, 3487178321, 4215465336, 942669427, 3043882514,
   3661487907, 1748572517, 2218370920, 773651923, 3593186505, 2917622652, 3712691939, 628298112,
   626297312, 4249022207, 336603657, 2277658311, 2422558087, 3605167212, 4291072830, 1528092990,
   3100587289, 2522345570, 817882994, 1544113456, 3529449838, 110595825, 2423629098, 34860823,
   2043772521, 1258231796, 999514170, 1384352870, 2284795055, 3164659080, 815895436, 626310867,
   2428898623, 2973984628, 1114240159, 4231140840, 136586706, 4212967543, 3083975235, 1675305243,
   1693112478, 267695159, 3148865036, 1591684127, 341987293, 296768679, 3471765469, 859131678,
   3635576403, 891137156, 31554818, 4001282840, 179283414, 2403147598, 1876091663, 513709795,
   3989025583, 4080251279, 1178977927, 3003441634, 2892850965, 3584060392, 961082774, 2787714317,
   2746067504, 3719657987, 398621460, 337805347, 3700818611, 1326640493, 1085684525, 3705208535,
   1105301682, 1913828272, 402718959, 4171919258, 3960676281, 3941849319, 3625364515, 2405785668,
   2905552980, 2516282486, 3217965001, 2100344468, 794645213, 1353452355, 3027705354, 4168215407,
   3419017276, 779696961, 3146271214, 2419262004, 509936800, 275568407, 463384209, 707931667,
   3153518673, 2978809697, 2462024394, 2408378201, 1036436373, 3325168865, 1696475748, 1291113795,
   856187525, 1343888423, 4057683373, 309282955, 4215122040, 3219127066, 277836669, 4084130289,
   1482298779, 2621505393, 1050912668, 693539728, 3003603418, 2411478582, 2789881946, 1843120409,
   135156064, 3137932929, 2929115884, 3445105475, 3299498912, 3722463752, 1344728592, 812658506,
   830208930, 1445156418, 3193335063, 1623886423, 1225256972, 3160784265, 1349998930, 2777468639,
   2294256870, 2249539888, 1904716859, 3828254850, 3456236285, 4286297885, 2256063250, 1860774990,
   24546326, 3019570967, 636135997, 2893088925])

def c1U2 : Nat × Nat × List Nat :=
  (1631579992, 314,
    [1631579992, 337828826, 3166820007, 3788773243, 3520331847, 739856935, 189439853, 2441459098,
   1949766651, 31184870, 301214971, 1920856686, 456837495, 2708454729, 1097652888, 3770974649,
   2492763276, 514981036, 163309404, 3078376128, 1704556115, 3495347199, 1341022931, 3541488655,
   514185517, 807914587, 1061742010, 3113411354, 256114694, 3784007535, 3781519656, 876746724,
   2606175116, 1922492705, 2478240576, 2778991034, 1964615512, 4175486934, 2195515566, 1817684589,
   1125000767, 1249017785, 1385437628, 1573642799, 3760991014, 3227615774, 2161876642, 1147869714,
   2378381496, 2335743307, 2855668456, 1938406370, 4019603819, 1460528927, 724343279, 2770821848,
   3848227135, 638928040, 2373810016, 3032881065, 766650195, 4190466754, 4187659899, 1995821706,
   1158604068, 1270108782, 2033691678, 3542982905, 2356147667, 2309810132, 3742645833, 3793122731,
   165401569, 2090053422, 2911538986, 2550069388, 977841416, 4163953899, 1194400779, 3554851415,
   4071375369, 1897062325, 352066180, 2380682517, 2326476783, 2875885233, 2973515872, 1938487543,
   830556865, 1536630367, 2891053688, 3510875881, 2127279618, 796018101, 2264400735, 2412393864,
   2942537095, 193791403, 3329305049, 2004064826, 3779563010, 1852362860, 1535646930, 3914221647,
   1415574839, 206634816, 3409007898, 4250533656, 81879010, 3916984160, 1656759234, 1785179275,
   1878774970, 1940200605, 1940323897, 2949529144, 282490136, 4108340113, 1809089960, 3066356526,
   2162668284, 1968252583, 3879409563, 3818723621, 2162762403, 1628211718, 3562185378, 8326138,
   2922144346, 4066940373, 2092395850, 733114459, 2531596767, 4189813876, 2871278936, 2609804162,
   2006706590, 2840847890, 3898916345, 4051737087, 718967271, 2703925404, 3552901963, 3805400503,
   1875383540, 437047405, 2266480073, 947404084, 732813758, 2992389838, 2357131299, 3674604594,
   4019241556, 2216101671, 2221862694, 80564289, 1818491115, 469597178, 1601249908, 3482946337,
   3487178321, 4215465336, 942669427, 3043882514, 3661487907, 1748572517, 2218370920, 773651923,
   3593186505, 2917622652, 3712691939, 628298112, 626297312, 4249022207, 336603657, 2277658311,
   2422558087, 3605167212, 4291072830, 1528092990, 3100587289, 2522345570, 817882994, 1544113456,
   3529449838, 110595825, 2423629098, 34860823, 2043772521, 1258231796, 999514170, 1384352870,
   2284795055, 3164659080, 815895436, 626310867, 2428898623, 2973984628, 1114240159, 4231140840,
   136586706, 4212967543, 3083975235, 1675305243, 1693112478, 267695159, 3148865036, 1591684127,
   341987293, 296768679, 3471765469, 859131678, 3635576403, 891137156, 31554818, 4001282840,
   179283414, 2403147598, 1876091663, 513709795, 3989025583, 4080251279, 1178977927, 3003441634,
   2892850965, 3584060392, 961082774, 2787714317, 2746067504, 3719657987, 398621460, 337805347,
   3700818611, 1326640493, 1085684525, 3705208535, 1105301682, 1913828272, 402718959, 4171919258,
   3960676281, 3941849319, 3625364515, 2405785668, 2905552980, 2516282486, 3217965001, 2100344468,
   794645213, 1353452355, 3027705354, 4168215407, 3419017276, 779696961, 3146271214, 2419262004,
   509936800, 275568407, 463384209, 707931667, 3153518673, 2978809697, 2462024394, 2408378201,
   1036436373, 3325168865, 1696475748, 1291113795, 856187525, 1343888423, 4057683373, 309282955,
   4215122040, 3219127066, 277836669, 4084130289, 1482298779, 2621505393, 1050912668, 693539728,
   3003603418, 2411478582, 2789881946, 1843120409, 135156064, 3137932929, 2929115884, 3445105475,
   3299498912, 3722463752, 1344728592, 812658506, 830208930, 1445156418, 3193335063, 1623886423,
   1225256972, 3160784265, 1349998930, 2777468639, 2294256870, 2249539888, 1904716859, 3828254850,
   3456236285, 4286297885, 2256063250, 1860774990, 24546326, 3019570967, 636135997, 2893088925])

def c1U3 : Nat × Nat × List Nat :=
  (1998962611, 469,
    [1998962611, 2073239679, 2842949521, 2991049876, 4169368284, 3194322170, 1043243098, 2476334046,
   3471784765, 946279179, 1761454038, 3156664729, 674308959, 2401745714, 3607558740, 3864733440,
   274763961, 3405220797, 177656051, 391675253, 2698130632, 482285113, 2239511190, 4219648645,
   4187726558, 2333252688, 3880820604, 1278628775, 954894943, 1981482574, 437809411, 1468913206,
   793795123, 792586457, 428194342, 1973162893, 2531414212, 396085150, 598800538, 1871106170,
   3348105419, 1210333973, 265015572, 1325076011, 3195554732, 1668640209, 2824137892, 2936832102,
   318263239, 2004830125, 3030507376, 2052349063, 339083030, 802145496, 4172840588, 4056304345,
   1002595035, 3117123308, 4141082587, 1587776552, 1488819143, 162714006, 1161230560, 98190780,
   2498978236, 2296063826, 2721998326, 3245415105, 223716551, 3458070289, 2561153328, 2012962537,
   3357510694, 3616462829, 217145583, 1027197356, 1777785975, 4142416987, 845226091, 2423935613,
   823139251, 2997552985, 1069486583, 2492332535, 2027033728, 1061343275, 4234947780, 3203745988,
   1683014082, 2324011638, 3432604029, 1986065849, 1829175237, 4079011584, 669389241, 2279534740,
   2257262314, 1706684308, 3384920070, 1216643257, 3462483062, 1444617422, 608609324, 2942128189,
   3054377158, 230213479, 1775223026, 2487635930, 682139375, 3585595507, 2902378869, 1425759089,
   3006573620, 2786166650, 2103513505, 782410481, 2362575667, 1420734279, 4200431068, 3936540955,
   2229618828, 3934856826, 1154751487, 2033502282, 1446870279, 2422905566, 3274025787, 3928455961,
   1104303097, 4072283490, 3020610381, 4012858393, 2113920247, 2025298253, 2975391482, 1527672907,
   372958735, 3093222635, 750471247, 2531952414, 3020789253, 2182973760, 3732892462, 1495628974,
   4164503157, 203095536, 473950614, 894504079, 2310666979, 1586324428, 1576604599, 3608415135,
   2960613104, 48580235, 1550300092, 1631579992, 337828826, 3166820007, 3788773243, 3520331847,
   739856935, 189439853, 2441459098, 1949766651, 31184870, 301214971, 1920856686, 456837495,
   2708454729, 1097652888, 3770974649, 2492763276, 514981036, 163309404, 3078376128, 1704556115,
   3495347199, 1341022931, 3541488655, 514185517, 807914587, 1061742010, 3113411354, 256114694,
   3784007535, 3781519656, 876746724, 2606175116, 1922492705, 2478240576, 2778991034, 1964615512,
   4175486934, 2195515566, 1817684589, 1125000767, 1249017785, 1385437628, 1573642799, 3760991014,
   3227615774, 2161876642, 1147869714, 2378381496, 2335743307, 2855668456, 1938406370, 4019603819,
   1460528927, 724343279, 2770821848, 3848227135, 638928040, 2373810016, 3032881065, 766650195,
   4190466754, 4187659899, 1995821706, 1158604068, 1270108782, 2033691678, 3542982905, 2356147667,
   2309810132, 3742645833, 3793122731, 165401569, 2090053422, 2911538986, 2550069388, 977841416,
   4163953899, 1194400779, 3554851415, 4071375369, 1897062325, 352066180, 2380682517, 2326476783,
   2875885233, 2973515872, 1938487543, 830556865, 1536630367, 2891053688, 3510875881, 2127279618,
   796018101, 2264400735, 2412393864, 2942537095, 193791403, 3329305049, 2004064826, 3779563010,
   1852362860, 1535646930, 3914221647, 1415574839, 206634816, 3409007898, 4250533656, 81879010,
   3916984160, 1656759234, 1785179275, 1878774970, 1940200605, 1940323897, 2949529144, 282490136,
   4108340113, 1809089960, 3066356526, 2162668284, 1968252583, 3879409563, 3818723621, 2162762403,
   1628211718, 3562185378, 8326138, 2922144346, 4066940373, 2092395850, 733114459, 2531596767,
   4189813876, 2871278936, 2609804162, 2006706590, 2840847890, 3898916345, 4051737087, 718967271,
   2703925404, 3552901963, 3805400503, 1875383540, 437047405, 2266480073, 947404084, 732813758,
   2992389838, 2357131299, 3674604594, 4019241556, 2216101671, 2221862694, 80564289, 1818491115,
   469597178, 1601249908, 3482946337, 3487178321, 4215465336, 942669427, 3043882514, 3661487907,
   1748572517, 2218370920, 773651923, 3593186505, 2917622652, 3712691939, 628298112, 626297312,
   4249022207, 336603657, 2277658311, 2422558087, 3605167212, 4291072830, 1528092990, 3100587289,
   2522345570, 817882994, 1544113456, 3529449838, 110595825, 2423629098, 34860823, 2043772521,
   1258231796, 999514170, 1384352870, 2284795055, 3164659080, 815895436, 626310867, 2428898623,
   2973984628, 1114240159, 4231140840, 136586706, 4212967543, 3083975235, 1675305243, 1693112478,
   267695159, 3148865036, 1591684127, 341987293, 296768679, 3471765469, 859131678, 3635576403,
   891137156, 31554818, 4001282840, 179283414, 2403147598, 1876091663, 513709795, 3989025583,
   4080251279, 1178977927, 3003441634, 2892850965, 3584060392, 961082774, 2787714317, 2746067504,
   3719657987, 398621460, 337805347, 3700818611, 1326640493, 1085684525, 3705208535, 1105301682,
   1913828272, 402718959, 4171919258, 3960676281, 3941849319, 3625364515, 2405785668, 2905552980,
   2516282486, 3217965001, 2100344468, 794645213, 1353452355, 3027705354, 4168215407, 3419017276,
   779696961, 3146271214, 2419262004, 509936800, 275568407, 463384209, 707931667, 3153518673,
   2978809697, 2462024394, 2408378201, 1036436373, 3325168865, 1696475748, 1291113795, 856187525,
   1343888423, 4057683373, 309282955, 4215122040, 3219127066, 277836669, 4084130289, 1482298779,
   2621505393, 1050912668, 693539728, 3003603418, 2411478582, 2789881946, 1843120409, 135156064,
   3137932929, 2929115884, 3445105475, 3299498912, 3722463752, 1344728592, 812658506, 830208930,
   1445156418, 3193335063, 1623886423, 1225256972, 3160784265, 1349998930, 2777468639, 2294256870,
   2249539888, 1904716859, 3828254850, 3456236285, 4286297885, 2256063250, 1860774990, 24546326,
   3019570967, 636135997, 2893088925])

def c1U4 : Nat × Nat × List Nat :=
  (1117176787, 624,
    [1117176787, 2556821342, 3938904076, 1124921173, 280024913, 1845742827, 391857777, 590796294,
   1839004158, 2977353850, 4017917921, 2230197974, 2952819116, 155522317, 3521974415, 2676883510,
   483798042, 459939171, 736834565, 2118197908, 1820847437, 2957143652, 1486200384, 1569326525,
   1143177220, 3097199637, 3226180464, 717859959, 3038763409, 4076796346, 2281624473, 2154267290,
   1803562288, 3812349912, 3664343362, 1767241802, 3787152651, 568009634, 3299719616, 188650516,
   1622539381, 2958285935, 1575571934, 417153830, 3463030932, 2265317890, 3206300687, 3011101684,
   1918840642, 772033361, 1430864864, 3088358324, 2677702491, 827827234, 4284736866, 3453957991,
   2843359028, 3094317138, 567873425, 3037659372, 1433237907, 699491946, 1434001627, 3523060552,
   761663095, 2731658219, 1220913936, 408462433, 3125340747, 1709244339, 2467408270, 2464919329,
   243742967, 3281640657, 2736734275, 2535567866, 81960074, 204722481, 2318728374, 4173241118,
   148419949, 160552549, 3615999596, 3873775347, 3881871097, 3539311673, 1681592764, 517890262,
   1531604026, 1214282351, 1060758655, 103869720, 2728352098, 175011879, 3304058646, 4073969204,
   1943340735, 357426703, 2422318934, 2281836698, 3998842055, 9488294, 3618297786, 1448961183,
   1200672969, 1131157144, 4126762422, 3355230493, 32183507, 2736397334, 1080209204, 1781257268,
   1672319774, 120227467, 1091176804, 666011272, 987730076, 2575764583, 2648595793, 2091909390,
   776414663, 1928034793, 343413685, 1059470054, 3199626967, 6468565, 2281824596, 3897510140,
   3856734519, 2332870900, 4001257230, 2885240242, 2545083253, 516937481, 58127176, 1760719552,
   4054064567, 3452655976, 1043692261, 4051830273, 503518641, 1206460077, 3981626660, 1936069442,
   1053367865, 1970320682, 3257359703, 3312633039, 3603362438, 130342971, 3246600424, 973127869,
   622995024, 1059592731, 440335225, 1998962611, 2073239679, 2842949521, 2991049876, 4169368284,
   3194322170, 1043243098, 2476334046, 3471784765, 946279179, 1761454038, 3156664729, 674308959,
   2401745714, 3607558740, 3864733440, 274763961, 3405220797, 177656051, 391675253, 2698130632,
   482285113, 2239511190, 4219648645, 4187726558, 2333252688, 3880820604, 1278628775, 954894943,
   1981482574, 437809411, 1468913206, 793795123, 792586457, 428194342, 1973162893, 2531414212,
   396085150, 598800538, 1871106170, 3348105419, 1210333973, 265015572, 1325076011, 3195554732,
   1668640209, 2824137892, 2936832102, 318263239, 2004830125, 3030507376, 2052349063, 339083030,
   802145496, 4172840588, 4056304345, 1002595035, 3117123308, 4141082587, 1587776552, 1488819143,
   162714006, 1161230560, 98190780, 2498978236, 2296063826, 2721998326, 3245415105, 223716551,
   3458070289, 2561153328, 2012962537, 3357510694, 3616462829, 217145583, 1027197356, 1777785975,
   4142416987, 845226091, 2423935613, 823139251, 2997552985, 1069486583, 2492332535, 2027033728,
   1061343275, 4234947780, 3203745988, 1683014082, 2324011638, 3432604029, 1986065849, 1829175237,
   4079011584, 669389241, 2279534740, 2257262314, 1706684308, 3384920070, 1216643257, 3462483062,
   1444617422, 608609324, 2942128189, 3054377158, 230213479, 1775223026, 2487635930, 682139375,
   3585595507, 2902378869, 1425759089, 3006573620, 2786166650, 2103513505, 782410481, 2362575667,
   1420734279, 4200431068, 3936540955, 2229618828, 3934856826, 1154751487, 2033502282, 1446870279,
   2422905566, 3274025787, 3928455961, 1104303097, 4072283490, 3020610381, 4012858393, 2113920247,
   2025298253, 2975391482, 1527672907, 372958735, 3093222635, 750471247, 2531952414, 3020789253,
   2182973760, 3732892462, 1495628974, 4164503157, 203095536, 473950614, 894504079, 2310666979,
   1586324428, 1576604599, 3608415135, 2960613104, 48580235, 1550300092, 1631579992, 337828826,
   3166820007, 3788773243, 3520331847, 739856935, 189439853, 2441459098, 1949766651, 31184870,
   301214971, 1920856686, 456837495, 2708454729, 1097652888, 3770974649, 2492763276, 514981036,
   163309404, 3078376128, 1704556115, 3495347199, 1341022931, 3541488655, 514185517, 807914587,
   1061742010, 3113411354, 256114694, 3784007535, 3781519656, 876746724, 2606175116, 1922492705,
   2478240576, 2778991034, 1964615512, 4175486934, 2195515566, 1817684589, 1125000767, 1249017785,
   1385437628, 1573642799, 3760991014, 3227615774, 2161876642, 1147869714, 2378381496, 2335743307,
   2855668456, 1938406370, 4019603819, 1460528927, 724343279, 2770821848, 3848227135, 638928040,
   2373810016, 3032881065, 766650195, 4190466754, 4187659899, 1995821706, 1158604068, 1270108782,
   2033691678, 3542982905, 2356147667, 2309810132, 3742645833, 3793122731, 165401569, 2090053422,
   2911538986, 2550069388, 977841416, 4163953899, 1194400779, 3554851415, 4071375369, 1897062325,
   352066180, 2380682517, 2326476783, 2875885233, 2973515872, 1938487543, 830556865, 1536630367,
   2891053688, 3510875881, 2127279618, 796018101, 2264400735, 2412393864, 2942537095, 193791403,
   3329305049, 2004064826, 3779563010, 1852362860, 1535646930, 3914221647, 1415574839, 206634816,
   3409007898, 4250533656, 81879010, 3916984160, 1656759234, 1785179275, 1878774970, 1940200605,
   1940323897, 2949529144, 282490136, 4108340113, 1809089960, 3066356526, 2162668284, 1968252583,
   3879409563, 3818723621, 2162762403, 1628211718, 3562185378, 8326138, 2922144346, 4066940373,
   2092395850, 733114459, 2531596767, 4189813876, 2871278936, 2609804162, 2006706590, 2840847890,
   3898916345, 4051737087, 718967271, 2703925404, 3552901963, 3805400503, 1875383540, 437047405,
   2266480073, 947404084, 732813758, 2992389838, 2357131299, 3674604594, 4019241556, 2216101671,
   2221862694, 80564289, 1818491115, 469597178, 1601249908, 3482946337, 3487178321, 4215465336,
   942669427, 3043882514, 3661487907, 1748572517, 2218370920, 773651923, 3593186505, 2917622652,
   3712691939, 628298112, 626297312, 4249022207, 336603657, 2277658311, 2422558087, 3605167212,
   4291072830, 1528092990, 3100587289, 2522345570, 817882994, 1544113456, 3529449838, 110595825,
   2423629098, 34860823, 2043772521, 1258231796, 999514170, 1384352870, 2284795055, 3164659080,
   815895436, 626310867, 2428898623, 2973984628, 1114240159, 4231140840, 136586706, 4212967543,
   3083975235, 1675305243, 1693112478, 267695159, 3148865036, 1591684127, 341987293, 296768679,
   3471765469, 859131678, 3635576403, 891137156, 31554818, 4001282840, 179283414, 2403147598,
   1876091663, 513709795, 3989025583, 4080251279, 1178977927, 3003441634, 2892850965, 3584060392,
   961082774, 2787714317, 2746067504, 3719657987, 398621460, 337805347, 3700818611, 1326640493,
   1085684525, 3705208535, 1105301682, 1913828272, 402718959, 4171919258, 3960676281, 3941849319,
   3625364515, 2405785668, 2905552980, 2516282486, 3217965001, 2100344468, 794645213, 1353452355,
   3027705354, 4168215407, 3419017276, 779696961, 3146271214, 2419262004, 509936800, 275568407,
   463384209, 707931667, 3153518673, 2978809697, 2462024394, 2408378201, 1036436373, 3325168865,
   1696475748, 1291113795, 856187525, 1343888423, 4057683373, 309282955, 4215122040, 3219127066,
   277836669, 4084130289, 1482298779, 2621505393, 1050912668, 693539728, 3003603418, 2411478582,
   2789881946, 1843120409, 135156064, 3137932929, 2929115884, 3445105475, 3299498912, 3722463752,
   1344728592, 812658506, 830208930, 1445156418, 3193335063, 1623886423, 1225256972, 3160784265,
   1349998930, 2777468639, 2294256870, 2249539888, 1904716859, 3828254850, 3456236285, 4286297885,
   2256063250, 1860774990, 24546326, 3019570967, 636135997, 2893088925])

def c1State2 : List Nat :=
  [2147483648, 279925189, 2893088925, 636135997, 3019570967, 24546326, 1860774990, 2256063250,
   4286297885, 3456236285, 3828254850, 1904716859, 2249539888, 2294256870, 2777468639, 1349998930,
   3160784265, 1225256972, 1623886423, 3193335063, 1445156418, 830208930, 812658506, 1344728592,
   3722463752, 3299498912, 3445105475, 2929115884, 3137932929, 135156064, 1843120409, 2789881946,
   2411478582, 3003603418, 693539728, 1050912668, 2621505393, 1482298779, 4084130289, 277836669,
   3219127066, 4215122040, 309282955, 4057683373, 1343888423, 856187525, 1291113795, 1696475748,
   3325168865, 1036436373, 2408378201, 2462024394, 2978809697, 3153518673, 707931667, 463384209,
   275568407, 509936800, 2419262004, 3146271214, 779696961, 3419017276, 4168215407, 3027705354,
   1353452355, 794645213, 2100344468, 3217965001, 2516282486, 2905552980, 2405785668, 3625364515,
   3941849319, 3960676281, 4171919258, 402718959, 1913828272, 1105301682, 3705208535, 1085684525,
   1326640493, 3700818611, 337805347, 398621460, 3719657987, 2746067504, 2787714317, 961082774,
   3584060392, 2892850965, 3003441634, 1178977927, 4080251279, 3989025583, 513709795, 1876091663,
   2403147598, 179283414, 4001282840, 31554818, 891137156, 3635576403, 859131678, 3471765469,
   296768679, 341987293, 1591684127, 3148865036, 267695159, 1693112478, 1675305243, 3083975235,
   4212967543, 136586706, 4231140840, 1114240159, 2973984628, 2428898623, 626310867, 815895436,
   3164659080, 2284795055, 1384352870, 999514170, 1258231796, 2043772521, 34860823, 2423629098,
   110595825, 3529449838, 1544113456, 817882994, 2522345570, 3100587289, 1528092990, 4291072830,
   3605167212, 2422558087, 2277658311, 336603657, 4249022207, 626297312, 628298112, 3712691939,
   2917622652, 3593186505, 773651923, 2218370920, 1748572517, 3661487907, 3043882514, 942669427,
   4215465336, 3487178321, 3482946337, 1601249908, 469597178, 1818491115, 80564289, 2221862694,
   2216101671, 4019241556, 3674604594, 2357131299, 2992389838, 732813758, 947404084, 2266480073,
   437047405, 1875383540, 3805400503, 3552901963, 2703925404, 718967271, 4051737087, 3898916345,
   2840847890, 2006706590, 2609804162, 2871278936, 4189813876, 2531596767, 733114459, 2092395850,
   4066940373, 2922144346, 8326138, 3562185378, 1628211718, 2162762403, 3818723621, 3879409563,
   1968252583, 2162668284, 3066356526, 1809089960, 4108340113, 282490136, 2949529144, 1940323897,
   1940200605, 1878774970, 1785179275, 1656759234, 3916984160, 81879010, 4250533656, 3409007898,
   206634816, 1415574839, 3914221647, 1535646930, 1852362860, 3779563010, 2004064826, 3329305049,
   193791403, 2942537095, 2412393864, 2264400735, 796018101, 2127279618, 3510875881, 2891053688,
   1536630367, 830556865, 1938487543, 2973515872, 2875885233, 2326476783, 2380682517, 352066180,
   1897062325, 4071375369, 3554851415, 1194400779, 4163953899, 977841416, 2550069388, 2911538986,
   2090053422, 165401569, 3793122731, 3742645833, 2309810132, 2356147667, 3542982905, 2033691678,
   1270108782, 1158604068, 1995821706, 4187659899, 4190466754, 766650195, 3032881065, 2373810016,
   638928040, 3848227135, 2770821848, 724343279, 1460528927, 4019603819, 1938406370, 2855668456,
   2335743307, 2378381496, 1147869714, 2161876642, 3227615774, 3760991014, 1573642799, 1385437628,
   1249017785, 1125000767, 1817684589, 2195515566, 4175486934, 1964615512, 2778991034, 2478240576,
   1922492705, 2606175116, 876746724, 3781519656, 3784007535, 256114694, 3113411354, 1061742010,
   807914587, 514185517, 3541488655, 1341022931, 3495347199, 1704556115, 3078376128, 163309404,
   514981036, 2492763276, 3770974649, 1097652888, 2708454729, 456837495, 1920856686, 301214971,
   31184870, 1949766651, 2441459098, 189439853, 739856935, 3520331847, 3788773243, 3166820007,
   337828826, 1631579992, 1550300092, 48580235, 2960613104, 3608415135, 1576604599, 1586324428,
   2310666979, 894504079, 473950614, 203095536, 4164503157, 1495628974, 3732892462, 2182973760,
   3020789253, 2531952414, 750471247, 3093222635, 372958735, 1527672907, 2975391482, 2025298253,
   2113920247, 4012858393, 3020610381, 4072283490, 1104303097, 3928455961, 3274025787, 2422905566,
   1446870279, 2033502282, 1154751487, 3934856826, 2229618828, 3936540955, 4200431068, 1420734279,
   2362575667, 782410481, 2103513505, 2786166650, 3006573620, 1425759089, 2902378869, 3585595507,
   682139375, 2487635930, 1775223026, 230213479, 3054377158, 2942128189, 608609324, 1444617422,
   3462483062, 1216643257, 3384920070, 1706684308, 2257262314, 2279534740, 669389241, 4079011584,
   1829175237, 1986065849, 3432604029, 2324011638, 1683014082, 3203745988, 4234947780, 1061343275,
   2027033728, 2492332535, 1069486583, 2997552985, 823139251, 2423935613, 845226091, 4142416987,
   1777785975, 1027197356, 217145583, 3616462829, 3357510694, 2012962537, 2561153328, 3458070289,
   223716551, 3245415105, 2721998326, 2296063826, 2498978236, 98190780, 1161230560, 162714006,
   1488819143, 1587776552, 4141082587, 3117123308, 1002595035, 4056304345, 4172840588, 802145496,
   339083030, 2052349063, 3030507376, 2004830125, 318263239, 2936832102, 2824137892, 1668640209,
   3195554732, 1325076011, 265015572, 1210333973, 3348105419, 1871106170, 598800538, 396085150,
   2531414212, 1973162893, 428194342, 792586457, 793795123, 1468913206, 437809411, 1981482574,
   954894943, 1278628775, 3880820604, 2333252688, 4187726558, 4219648645, 2239511190, 482285113,
   2698130632, 391675253, 177656051, 3405220797, 274763961, 3864733440, 3607558740, 2401745714,
   674308959, 3156664729, 1761454038, 946279179, 3471784765, 2476334046, 1043243098, 3194322170,
   4169368284, 2991049876, 2842949521, 2073239679, 1998962611, 440335225, 1059592731, 622995024,
   973127869, 3246600424, 130342971, 3603362438, 3312633039, 3257359703, 1970320682, 1053367865,
   1936069442, 3981626660, 1206460077, 503518641, 4051830273, 1043692261, 3452655976, 4054064567,
   1760719552, 58127176, 516937481, 2545083253, 2885240242, 4001257230, 2332870900, 3856734519,
   3897510140, 2281824596, 6468565, 3199626967, 1059470054, 343413685, 1928034793, 776414663,
   2091909390, 2648595793, 2575764583, 987730076, 666011272, 1091176804, 120227467, 1672319774,
   1781257268, 1080209204, 2736397334, 32183507, 3355230493, 4126762422, 1131157144, 1200672969,
   1448961183, 3618297786, 9488294, 3998842055, 2281836698, 2422318934, 357426703, 1943340735,
   4073969204, 3304058646, 175011879, 2728352098, 103869720, 1060758655, 1214282351, 1531604026,
   517890262, 1681592764, 3539311673, 3881871097, 3873775347, 3615999596, 160552549, 148419949,
   4173241118, 2318728374, 204722481, 81960074, 2535567866, 2736734275, 3281640657, 243742967,
   2464919329, 2467408270, 1709244339, 3125340747, 408462433, 1220913936, 2731658219, 761663095,
   3523060552, 1434001627, 699491946, 1433237907, 3037659372, 567873425, 3094317138, 2843359028,
   3453957991, 4284736866, 827827234, 2677702491, 3088358324, 1430864864, 772033361, 1918840642,
   3011101684, 3206300687, 2265317890, 3463030932, 417153830, 1575571934, 2958285935, 1622539381,
   188650516, 3299719616, 568009634, 3787152651, 1767241802, 3664343362, 3812349912, 1803562288,
   2154267290, 2281624473, 4076796346, 3038763409, 717859959, 3226180464, 3097199637, 1143177220,
   1569326525, 1486200384, 2957143652, 1820847437, 2118197908, 736834565, 459939171, 483798042,
   2676883510, 3521974415, 155522317, 2952819116, 2230197974, 4017917921, 2977353850, 1839004158,
   590796294, 391857777, 1845742827, 280024913, 1124921173, 3938904076, 2556821342, 1117176787]

def catC1 : List Item :=
  [⟨"B1", 100, none, none, none, none, none, [.breakfast], none, none⟩,
   ⟨"D1", 100, none, none, none, none, none, [.dinner], none, none⟩,
   ⟨"S1", 100, some 1, none, none, none, none, [.lunch], none, some .side⟩,
   ⟨"S2", 100, some 2, none, none, none, none, [.lunch], none, some .side⟩,
   ⟨"U1", 100, none, none, none, none, none, [.lunch], none, none⟩]

def goalsC1 : Goals := mkGoals 400 0 none none

/-- The catalog state after the first `generate_day_plan(catC1, .., seed
2)` call: `pick_lunch_pair` has persisted the inferred MAIN role onto the
shared entry `U1`. -/
def catC1mut : List Item :=
  [⟨"B1", 100, none, none, none, none, none, [.breakfast], none, none⟩,
   ⟨"D1", 100, none, none, none, none, none, [.dinner], none, none⟩,
   ⟨"S1", 100, some 1, none, none, none, none, [.lunch], none, some .side⟩,
   ⟨"S2", 100, some 2, none, none, none, none, [.lunch], none, some .side⟩,
   ⟨"U1", 100, none, none, none, none, none, [.lunch], none, some .main⟩]

def plan1C1 : DayPlan := ⟨[⟨0, 1⟩], [⟨4, 1⟩, ⟨2, 1⟩], [⟨1, 1⟩]⟩

def plan2C1 : DayPlan := ⟨[⟨0, 1⟩], [⟨4, 1⟩, ⟨3, 1⟩], [⟨1, 1⟩]⟩

def catC1W : List Item :=
  [⟨"Bw", 100, none, none, none, none, none, [.breakfast], none, none⟩,
   ⟨"Dw", 100, none, none, none, none, none, [.dinner], none, none⟩,
   ⟨"Mw", 100, none, none, none, none, none, [.lunch], none, some .main⟩,
   ⟨"Sw", 100, none, none, none, none, none, [.lunch], none, some .side⟩]

def planC1W : DayPlan := ⟨[⟨0, 1⟩], [⟨2, 1⟩, ⟨3, 1⟩], [⟨1, 1⟩]⟩

theorem rhe_intCast (n : ℤ) : rhe (n : ℚ) = n := by
  unfold rhe
  simp

theorem round2_of_int_mul (q : ℚ) (m : ℤ) (h : q * 100 = (m : ℚ)) :
    round2 q = q := by
  unfold round2
  rw [h, rhe_intCast]
  field_simp at h ⊢
  linarith

theorem D2.round2_eq {q : ℚ} (h : D2 q) : round2 q = q := by
  obtain ⟨m, hm⟩ := h
  exact round2_of_int_mul q m hm

theorem D2_zero : D2 0 := ⟨0, by norm_num⟩

theorem D2_add {a b : ℚ} (ha : D2 a) (hb : D2 b) : D2 (a + b) := by
  obtain ⟨m, hm⟩ := ha
  obtain ⟨n, hn⟩ := hb
  exact ⟨m + n, by push_cast; rw [add_mul, hm, hn]⟩

theorem D2_round2 (q : ℚ) : D2 (round2 q) := by
  refine ⟨rhe (q * 100), ?_⟩
  unfold round2
  field_simp

theorem round2_add_of_D2 {a b : ℚ} (ha : D2 a) (hb : D2 b) :
    round2 (a + b) = a + b :=
  (D2_add ha hb).round2_eq

theorem exbind_ok {α β : Type} {e : Except Err α} {f : α → Except Err β}
    {b : β} (h : e >>= f = .ok b) : ∃ a, e = .ok a ∧ f a = .ok b := by
  cases e with
  | error _ => exact absurd h (by simp [Bind.bind, Except.bind])
  | ok a => exact ⟨a, rfl, h⟩

theorem mkPortion_ok {cat : List Item} {i : Nat} {sp : ℚ} {po : Portion}
    (h : mkPortion cat i sp = .ok po) : po = ⟨i, sp⟩ := by
  unfold mkPortion at h
  split at h
  · exact absurd h (by simp)
  · split at h
    · split at h
      · exact absurd h (by simp)
      · simpa using h.symm
    · simpa using h.symm

/-- Success characterization of `DayPlan.add`: the daily-cap check passes,
the entry lists the slot, and the portion is appended to that meal. -/
theorem dayPlanAdd_ok {cat : List Item} {p : DayPlan} {mt : MealType}
    {po : Portion} {p' : DayPlan} (h : dayPlanAdd cat p mt po = .ok p') :
    (∀ m, (itemAt cat po.idx).max_portions = some m →
      itemTotal p po.idx + po.portions ≤ m) ∧
    mt ∈ (itemAt cat po.idx).meal_types ∧
    p' = p.setMeal mt (p.meal mt ++ [po]) := by
  unfold dayPlanAdd dayPlanAddRun mealAddRun at h
  by_cases hm : mt ∈ (itemAt cat po.idx).meal_types
  · rcases hc : (itemAt cat po.idx).max_portions with _ | m
    · simp [hc, hm] at h
      exact ⟨by simp [hc], hm, h.symm⟩
    · by_cases hlt : m < itemTotal p po.idx + po.portions
      · simp [hc, hlt] at h
      · simp [hc, hlt, hm] at h
        refine ⟨?_, hm, h.symm⟩
        intro m' hm'
        obtain rfl : m = m' := Option.some.inj hm'
        exact le_of_not_lt hlt
  · rcases hc : (itemAt cat po.idx).max_portions with _ | m
    · simp [hc, hm] at h
    · by_cases hlt : m < itemTotal p po.idx + po.portions
      · simp [hc, hlt] at h
      · simp [hc, hlt, hm] at h

/-- `DayPlan.add` fails with the capacity error as soon as the running
daily total would exceed the cap. -/
theorem dayPlanAdd_capErr {cat : List Item} {p : DayPlan} {mt : MealType}
    {po : Portion} {m : ℚ} (hc : (itemAt cat po.idx).max_portions = some m)
    (hlt : m < itemTotal p po.idx + po.portions) :
    dayPlanAdd cat p mt po = .error .exceedsMaxPortions := by
  unfold dayPlanAdd dayPlanAddRun
  simp [hc, hlt]

theorem msum_append (l : List Portion) (po : Portion) (i : Nat) :
    msum (l ++ [po]) i = msum l i + (if po.idx = i then po.portions else 0) := by
  simp [msum]

/-- Appending a portion to one meal shifts the daily total of exactly that
portion's item. -/
theorem itemTotal_setMeal_append (p : DayPlan) (mt : MealType)
    (po : Portion) (i : Nat) :
    itemTotal (p.setMeal mt (p.meal mt ++ [po])) i =
      itemTotal p i + (if po.idx = i then po.portions else 0) := by
  cases mt <;>
    simp [itemTotal, DayPlan.setMeal, DayPlan.meal, msum_append] <;> ring

/-! ### Calorie accounting

All nutrient totals produced by the folds are exact multiples of 1/100
(each entry of a portion's nutrient dictionary is a `round2` image), so
the per-combine rounding inside `add_nutrients` is the identity on them
and calorie totals add exactly. -/

theorem D2_nAdd_cal (a b : Nutr) : D2 (nAdd a b).calories :=
  D2_round2 _

theorem D2_mealNutr_cal (cat : List Item) (l : List Portion) :
    D2 (mealNutr cat l).calories := by
  have key : ∀ (l : List Portion) (acc : Nutr), D2 acc.calories →
      D2 ((l.foldl (fun t p => nAdd t (portionNutr cat p)) acc)).calories := by
    intro l
    induction l with
    | nil => intro acc h; simpa using h
    | cons p rest ih =>
        intro acc _
        exact ih _ (D2_nAdd_cal _ _)
  exact key l nZero (by simpa [nZero] using D2_zero)

theorem nAdd_cal_of_D2 {a b : Nutr} (ha : D2 a.calories)
    (hb : D2 b.calories) : (nAdd a b).calories = a.calories + b.calories :=
  round2_add_of_D2 ha hb

theorem mealNutr_append (cat : List Item) (l : List Portion) (po : Portion) :
    mealNutr cat (l ++ [po]) = nAdd (mealNutr cat l) (portionNutr cat po) := by
  simp [mealNutr, List.foldl_append]

theorem planCal_eq (cat : List Item) (p : DayPlan) :
    planCal cat p = (mealNutr cat p.breakfast).calories
      + (mealNutr cat p.lunch).calories + (mealNutr cat p.dinner).calories := by
  unfold planCal planNutr
  rw [nAdd_cal_of_D2 (D2_nAdd_cal _ _) (D2_mealNutr_cal _ _),
    nAdd_cal_of_D2 (D2_nAdd_cal _ _) (D2_mealNutr_cal _ _),
    nAdd_cal_of_D2 (by simpa [nZero] using D2_zero) (D2_mealNutr_cal _ _)]
  simp [nZero]

theorem mealNutr_cal_append (cat : List Item) (l : List Portion)
    (po : Portion) :
    (mealNutr cat (l ++ [po])).calories =
      (mealNutr cat l).calories + (portionNutr cat po).calories := by
  rw [mealNutr_append]
  exact nAdd_cal_of_D2 (D2_mealNutr_cal _ _) (D2_round2 _)

/-- Appending a portion to any meal adds exactly its (rounded) calories to
the day total. -/
theorem planCal_setMeal_append (cat : List Item) (p : DayPlan)
    (mt : MealType) (po : Portion) :
    planCal cat (p.setMeal mt (p.meal mt ++ [po])) =
      planCal cat p + (portionNutr cat po).calories := by
  cases mt <;>
    simp [planCal_eq, DayPlan.setMeal, DayPlan.meal, mealNutr_cal_append] <;>
    ring

/-! ### The role writes touch nothing but `lunch_role` -/

theorem itemAt_set_core (cat : List Item) (i : Nat) (v : Item)
    (hv : core v = core (itemAt cat i)) (j : Nat) :
    core (itemAt (cat.set i v) j) = core (itemAt cat j) := by
  unfold itemAt
  by_cases hj : j < cat.length
  · rw [List.getD_eq_getElem _ _ (by simpa using hj),
      List.getD_eq_getElem _ _ hj]
    by_cases hij : i = j
    · subst hij
      rw [List.getElem_set_self]
      rw [hv]
      unfold itemAt
      rw [List.getD_eq_getElem _ _ hj]
    · rw [List.getElem_set_ne hij]
  · rw [List.getD_eq_default _ _ (by simpa using le_of_not_lt hj),
      List.getD_eq_default _ _ (le_of_not_lt hj)]

theorem applyRoleOp_core (cat : List Item) (op : RoleOp) (j : Nat) :
    core (itemAt (applyRoleOp cat op) j) = core (itemAt cat j) := by
  cases op with
  | ifUnset i ro =>
      rcases h : (itemAt cat i).lunch_role with _ | ro'
      · rw [show applyRoleOp cat (.ifUnset i ro)
            = cat.set i { itemAt cat i with lunch_role := some ro } by
          simp [applyRoleOp, h]]
        exact itemAt_set_core cat i _ (by simp [core]) j
      · rw [show applyRoleOp cat (.ifUnset i ro) = cat by
          simp [applyRoleOp, h]]
  | force i ro => exact itemAt_set_core cat i _ (by simp [core]) j

theorem applyRoleOp_length (cat : List Item) (op : RoleOp) :
    (applyRoleOp cat op).length = cat.length := by
  cases op with
  | ifUnset i ro =>
      rcases h : (itemAt cat i).lunch_role with _ | ro' <;>
        simp [applyRoleOp, h]
  | force i ro => simp [applyRoleOp]

theorem applyRoleOps_core (ops : List RoleOp) (cat : List Item) (j : Nat) :
    core (itemAt (applyRoleOps cat ops) j) = core (itemAt cat j) := by
  induction ops generalizing cat with
  | nil => rfl
  | cons op rest ih =>
      calc core (itemAt (applyRoleOps (applyRoleOp cat op) rest) j)
          = core (itemAt (applyRoleOp cat op) j) := ih _
        _ = core (itemAt cat j) := applyRoleOp_core cat op j

theorem applyRoleOps_length (ops : List RoleOp) (cat : List Item) :
    (applyRoleOps cat ops).length = cat.length := by
  induction ops generalizing cat with
  | nil => rfl
  | cons op rest ih => rw [applyRoleOps, List.foldl_cons, ← applyRoleOps, ih,
      applyRoleOp_length]

theorem core_meal_types {a b : Item} (h : core a = core b) :
    a.meal_types = b.meal_types := by
  unfold core at h
  exact congrArg (fun t => t.2.2.2.2.2.2.2.1) h

theorem core_max_portions {a b : Item} (h : core a = core b) :
    a.max_portions = b.max_portions := by
  unfold core at h
  exact congrArg (fun t => t.2.2.2.2.2.2.2.2) h

theorem core_calories {a b : Item} (h : core a = core b) :
    a.calories_per_portion = b.calories_per_portion := by
  unfold core at h
  exact congrArg (fun t => t.2.1) h

theorem items_for_meal_applyRoleOps (ops : List RoleOp) (cat : List Item)
    (mt : MealType) :
    items_for_meal (applyRoleOps cat ops) mt = items_for_meal cat mt := by
  unfold items_for_meal
  rw [applyRoleOps_length]
  refine List.filter_congr ?_
  intro i _
  rw [core_meal_types (applyRoleOps_core ops cat i)]

/-! ### Constructor invariants of the catalog, and the cap invariant -/

theorem itemAt_mem_or (cat : List Item) (i : Nat) :
    itemAt cat i ∈ cat ∨ itemAt cat i = dfltItem := by
  unfold itemAt
  by_cases h : i < cat.length
  · left
    rw [List.getD_eq_getElem _ _ h]
    exact List.getElem_mem h
  · right
    exact List.getD_eq_default _ _ (le_of_not_lt h)

theorem CapsPos.pt_pos {cat : List Item} (h : CapsPos cat) (i : Nat) (m : ℚ)
    (hm : (itemAt cat i).max_portions = some m) : 0 < m := by
  rcases itemAt_mem_or cat i with hmem | hd
  · have := h _ hmem
    rw [hm] at this
    simpa using this
  · rw [hd] at hm
    exact absurd hm (by simp [dfltItem])

theorem CalR.pt_cal {cat : List Item} (h : CalR cat) (i : Nat) :
    round2 (itemAt cat i).calories_per_portion
      = (itemAt cat i).calories_per_portion := by
  rcases itemAt_mem_or cat i with hmem | hd
  · exact h _ hmem
  · rw [hd]
    exact (by simpa [dfltItem] using D2_zero.round2_eq)

theorem CalR.ops_cal {cat : List Item} (h : CalR cat)
    (ops : List RoleOp) (i : Nat) :
    round2 (itemAt (applyRoleOps cat ops) i).calories_per_portion
      = (itemAt (applyRoleOps cat ops) i).calories_per_portion := by
  rw [core_calories (applyRoleOps_core ops cat i)]
  exact h.pt_cal i

theorem CapsPos.ops_pos {cat : List Item} (h : CapsPos cat)
    (ops : List RoleOp) (i : Nat) (m : ℚ)
    (hm : (itemAt (applyRoleOps cat ops) i).max_portions = some m) :
    0 < m := by
  rw [core_max_portions (applyRoleOps_core ops cat i)] at hm
  exact h.pt_pos i m hm

/-- `DayPlan.add` preserves the cap invariant. -/
theorem CapOK.add_ok {cat : List Item} {p p' : DayPlan} {mt : MealType}
    {po : Portion} (hp : CapOK cat p)
    (h : dayPlanAdd cat p mt po = .ok p') : CapOK cat p' := by
  obtain ⟨hcap, _, rfl⟩ := dayPlanAdd_ok h
  intro i m hm
  rw [itemTotal_setMeal_append]
  by_cases hi : po.idx = i
  · subst hi
    simpa using hcap m hm
  · simpa [hi] using hp i m hm

theorem CapOK.empty (cat : List Item) (h : CapsPos cat) :
    CapOK cat emptyPlan := by
  intro i m hm
  have : itemTotal emptyPlan i = 0 := by simp [itemTotal, emptyPlan, msum]
  rw [this]
  exact le_of_lt (h.pt_pos i m hm)

/-! ### Shapes of the repair-loop steps -/

theorem bfStep_some {cat : List Item} {plan : DayPlan} {lim cur : ℚ}
    {acc : Option Nat × ℚ} {x j : Nat}
    (h : (bfStep cat plan lim cur acc x).1 = some j) :
    acc.1 = some j ∨
      (j = x ∧ 0 < (itemAt cat x).calories_per_portion * step_portions ∧
        cur + (itemAt cat x).calories_per_portion * step_portions ≤ lim) := by
  unfold bfStep at h
  dsimp only at h
  split at h
  · exact .inl h
  · split at h
    · exact .inl h
    · rename_i h1 h2
      split at h
      · exact .inl h
      · rename_i h3
        split at h
        · right
          simp only at h
          exact ⟨(Option.some.inj h).symm, lt_of_not_le h2, le_of_not_lt h3⟩
        · exact .inl h

theorem bestFold_spec {cat : List Item} {plan : DayPlan} {lim cur : ℚ}
    {cands : List Nat} {j : Nat}
    (h : (bestFold cat plan lim cur cands).1 = some j) :
    j ∈ cands ∧ 0 < (itemAt cat j).calories_per_portion * step_portions ∧
      cur + (itemAt cat j).calories_per_portion * step_portions ≤ lim := by
  have aux : ∀ (l : List Nat) (acc : Option Nat × ℚ),
      (l.foldl (bfStep cat plan lim cur) acc).1 = some j →
      acc.1 = some j ∨
        (j ∈ l ∧ 0 < (itemAt cat j).calories_per_portion * step_portions ∧
          cur + (itemAt cat j).calories_per_portion * step_portions ≤ lim) := by
    intro l
    induction l with
    | nil => intro acc hh; exact .inl hh
    | cons x xs ih =>
        intro acc hh
        rw [List.foldl_cons] at hh
        rcases ih _ hh with h' | h'
        · rcases bfStep_some h' with h'' | h''
          · exact .inl h''
          · right
            obtain ⟨rfl, hc, hl⟩ := h''
            exact ⟨List.mem_cons_self .., hc, hl⟩
        · right
          exact ⟨List.mem_cons_of_mem _ h'.1, h'.2⟩
  rcases aux cands (none, -1) h with h' | h'
  · exact absurd h' (by simp)
  · exact h'

/-- Success shape of `add_best_item`: the added portion is one step of a
candidate, and the pre-add calorie guard held. -/
theorem addBestItem_some {cat : List Item} {plan : DayPlan} {mt : MealType}
    {cands : List Nat} {lim : ℚ} {p' : DayPlan}
    (h : addBestItem cat plan mt cands lim = .ok (some p')) :
    ∃ it ∈ cands, dayPlanAdd cat plan mt ⟨it, step_portions⟩ = .ok p' ∧
      planCal cat plan + (itemAt cat it).calories_per_portion * step_portions
        ≤ lim := by
  unfold addBestItem at h
  dsimp only at h
  rcases hb : (bestFold cat plan lim ((planNutr cat plan).calories) cands).1
    with _ | best
  · rw [hb] at h
    exact absurd h (by simp)
  · rw [hb] at h
    rcases exbind_ok h with ⟨po, hpo, h2⟩
    rcases exbind_ok h2 with ⟨plan2, hplan, h3⟩
    obtain rfl := mkPortion_ok hpo
    obtain rfl : plan2 = p' := by
      simpa [pure, Except.pure] using h3
    obtain ⟨hmem, _, hle⟩ := bestFold_spec hb
    exact ⟨best, hmem, hplan, hle⟩

/-- Success shape of the stage-2 slot loop. -/
theorem stage2Try_some {cat : List Item} {plan : DayPlan} {lim : ℚ}
    {p' : DayPlan} :
    ∀ {mts : List MealType}, stage2Try cat plan lim mts = .ok (some p') →
    ∃ mt ∈ mts, ∃ it ∈ stage2Pool cat plan mt,
      dayPlanAdd cat plan mt ⟨it, step_portions⟩ = .ok p' ∧
      planCal cat plan + (itemAt cat it).calories_per_portion * step_portions
        ≤ lim := by
  intro mts
  induction mts with
  | nil => intro h; exact absurd h (by simp [stage2Try])
  | cons mt rest ih =>
      intro h
      unfold stage2Try at h
      dsimp only at h
      split at h
      · obtain ⟨mt', hmt', rest'⟩ := ih h
        exact ⟨mt', List.mem_cons_of_mem _ hmt', rest'⟩
      · rcases exbind_ok h with ⟨res, hres, h2⟩
        cases res with
        | some q =>
            obtain rfl : q = p' := by
              simpa [pure, Except.pure] using h2
            obtain ⟨it, hit, hadd, hle⟩ := addBestItem_some hres
            exact ⟨mt, List.mem_cons_self .., it, hit, hadd, hle⟩
        | none =>
            obtain ⟨mt', hmt', rest'⟩ := ih h2
            exact ⟨mt', List.mem_cons_of_mem _ hmt', rest'⟩

/-- Success shape of one stage-2 iteration. -/
theorem stage2Step_some {cat : List Item} {g : Goals} {lim : ℚ}
    {plan p' : DayPlan} (h : stage2Step cat g lim plan = .ok (some p')) :
    ∃ mt, ∃ it ∈ stage2Pool cat plan mt,
      dayPlanAdd cat plan mt ⟨it, step_portions⟩ = .ok p' ∧
      planCal cat plan + (itemAt cat it).calories_per_portion * step_portions
        ≤ lim := by
  unfold stage2Step at h
  dsimp only at h
  split at h
  · exact absurd h (by simp)
  · split at h
    · exact absurd h (by simp)
    · obtain ⟨mt, _, rest⟩ := stage2Try_some h
      exact ⟨mt, rest⟩

theorem bestCarb_mem (cat : List Item) (best : MealType × Nat)
    (l : List (MealType × Nat)) : bestCarb cat best l ∈ best :: l := by
  induction l generalizing best with
  | nil => simp [bestCarb]
  | cons c rest ih =>
      rw [show bestCarb cat best (c :: rest)
          = if carbScore cat best.2 < carbScore cat c.2 then bestCarb cat c rest
            else bestCarb cat best rest from rfl]
      split
      · rcases List.mem_cons.mp (ih c) with h | h
        · rw [h]
          exact List.mem_cons_of_mem _ (List.mem_cons_self _ _)
        · exact List.mem_cons_of_mem _ (List.mem_cons_of_mem _ h)
      · rcases List.mem_cons.mp (ih best) with h | h
        · rw [h]
          exact List.mem_cons_self _ _
        · exact List.mem_cons_of_mem _ (List.mem_cons_of_mem _ h)

theorem stage3Cands_spec {cat : List Item} {plan : DayPlan}
    {mt : MealType} {i : Nat} (h : (mt, i) ∈ stage3Cands cat plan) :
    i ∈ items_for_meal cat mt ∧ (mt = .lunch → i ∈ lunchIdxs plan) := by
  unfold stage3Cands at h
  rw [List.mem_flatMap] at h
  obtain ⟨mt', _, hmem⟩ := h
  dsimp only at hmem
  rw [List.mem_map] at hmem
  obtain ⟨i', hi', heq⟩ := hmem
  have hmt : mt' = mt := congrArg Prod.fst heq
  have hii : i' = i := congrArg Prod.snd heq
  subst hmt
  subst hii
  rw [List.mem_filter] at hi'
  obtain ⟨hpool, _⟩ := hi'
  by_cases hl : mt' = MealType.lunch
  · rw [if_pos hl] at hpool
    rw [List.mem_filter] at hpool
    exact ⟨hpool.1, fun _ => by simpa using hpool.2⟩
  · rw [if_neg hl] at hpool
    exact ⟨hpool, fun hc => absurd hc hl⟩

/-- Success shape of one stage-3 iteration. -/
theorem stage3Step_some {cat : List Item} {g : Goals} {lim : ℚ}
    {plan p' : DayPlan} (h : stage3Step cat g lim plan = .ok (some p')) :
    ∃ mt it, (mt, it) ∈ stage3Cands cat plan ∧
      dayPlanAdd cat plan mt ⟨it, step_portions⟩ = .ok p' ∧
      planCal cat plan + (itemAt cat it).calories_per_portion * step_portions
        ≤ lim := by
  unfold stage3Step at h
  dsimp only at h
  split at h
  · exact absurd h (by simp)
  · split at h
    · exact absurd h (by simp)
    · rcases hc : stage3Cands cat plan with _ | ⟨c, rest⟩
      · rw [hc] at h
        exact absurd h (by simp)
      · rw [hc] at h
        dsimp only at h
        split at h
        · rename_i hle
          rcases exbind_ok h with ⟨po, hpo, h2⟩
          rcases exbind_ok h2 with ⟨plan2, hplan, h3⟩
          obtain rfl := mkPortion_ok hpo
          obtain rfl : plan2 = p' := by
            simpa [pure, Except.pure] using h3
          refine ⟨(bestCarb cat c rest).1, (bestCarb cat c rest).2, ?_, hplan, hle⟩
          simpa using bestCarb_mem cat c rest
        · exact absurd h (by simp)

/-! ### Stage-loop invariants -/

theorem capOK_congr {cat cat' : List Item}
    (hmax : ∀ i, (itemAt cat' i).max_portions = (itemAt cat i).max_portions)
    {p : DayPlan} (h : CapOK cat p) : CapOK cat' p := by
  intro i m hm
  exact h i m ((hmax i) ▸ hm)

/-- Stage 2 preserves the day-wide cap invariant. -/
theorem stage2_capOK {cat : List Item} {g : Goals} {lim : ℚ} :
    ∀ {fuel : Nat} {plan p' : DayPlan}, CapOK cat plan →
      stage2 cat g lim fuel plan = .ok p' → CapOK cat p' := by
  intro fuel
  induction fuel with
  | zero =>
      intro plan p' hc h
      obtain rfl : plan = p' := by simpa [stage2] using h
      exact hc
  | succ fuel ih =>
      intro plan p' hc h
      unfold stage2 at h
      rcases exbind_ok h with ⟨o, ho, h2⟩
      cases o with
      | none =>
          obtain rfl : plan = p' := by simpa [pure, Except.pure] using h2
          exact hc
      | some q =>
          obtain ⟨mt, it, _, hadd, _⟩ := stage2Step_some ho
          exact ih (hc.add_ok hadd) h2

/-- Stage 3 preserves the day-wide cap invariant. -/
theorem stage3_capOK {cat : List Item} {g : Goals} {lim : ℚ} :
    ∀ {fuel : Nat} {plan p' : DayPlan}, CapOK cat plan →
      stage3 cat g lim fuel plan = .ok p' → CapOK cat p' := by
  intro fuel
  induction fuel with
  | zero =>
      intro plan p' hc h
      obtain rfl : plan = p' := by simpa [stage3] using h
      exact hc
  | succ fuel ih =>
      intro plan p' hc h
      unfold stage3 at h
      rcases exbind_ok h with ⟨o, ho, h2⟩
      cases o with
      | none =>
          obtain rfl : plan = p' := by simpa [pure, Except.pure] using h2
          exact hc
      | some q =>
          obtain ⟨mt, it, _, hadd, _⟩ := stage3Step_some ho
          exact ih (hc.add_ok hadd) h2

theorem portionNutr_cal (cat : List Item) (po : Portion) :
    (portionNutr cat po).calories =
      round2 ((itemAt cat po.idx).calories_per_portion * po.portions) := rfl

/-- A repair-step addition lands exactly at `planCal + calories_per_portion`
when the catalog calories are 2-decimal values. -/
theorem planCal_after_step {cat : List Item}
    (hR : ∀ i, round2 (itemAt cat i).calories_per_portion
      = (itemAt cat i).calories_per_portion)
    {plan p' : DayPlan} {mt : MealType} {it : Nat}
    (hadd : dayPlanAdd cat plan mt ⟨it, step_portions⟩ = .ok p') :
    planCal cat p' = planCal cat plan
      + (itemAt cat it).calories_per_portion * step_portions := by
  obtain ⟨-, -, rfl⟩ := dayPlanAdd_ok hadd
  rw [planCal_setMeal_append, portionNutr_cal]
  simp only [step_portions, mul_one]
  rw [hR it]

/-- Stage 2 never lifts the calorie total above the ceiling: the result is
either under the ceiling or the untouched input plan. -/
theorem stage2_cal {cat : List Item} {g : Goals} {lim : ℚ}
    (hR : ∀ i, round2 (itemAt cat i).calories_per_portion
      = (itemAt cat i).calories_per_portion) :
    ∀ {fuel : Nat} {plan p' : DayPlan},
      stage2 cat g lim fuel plan = .ok p' →
      planCal cat p' ≤ lim ∨ p' = plan := by
  intro fuel
  induction fuel with
  | zero =>
      intro plan p' h
      right
      have hh : plan = p' := by simpa [stage2] using h
      exact hh.symm
  | succ fuel ih =>
      intro plan p' h
      unfold stage2 at h
      rcases exbind_ok h with ⟨o, ho, h2⟩
      cases o with
      | none =>
          right
          have hh : plan = p' := by simpa [pure, Except.pure] using h2
          exact hh.symm
      | some q =>
          left
          obtain ⟨mt, it, _, hadd, hle⟩ := stage2Step_some ho
          have hq : planCal cat q ≤ lim := by
            rw [planCal_after_step hR hadd]
            simpa [step_portions] using hle
          rcases ih h2 with h' | h'
          · exact h'
          · rw [h']
            exact hq

/-- Stage 3 never lifts the calorie total above the ceiling either. -/
theorem stage3_cal {cat : List Item} {g : Goals} {lim : ℚ}
    (hR : ∀ i, round2 (itemAt cat i).calories_per_portion
      = (itemAt cat i).calories_per_portion) :
    ∀ {fuel : Nat} {plan p' : DayPlan},
      stage3 cat g lim fuel plan = .ok p' →
      planCal cat p' ≤ lim ∨ p' = plan := by
  intro fuel
  induction fuel with
  | zero =>
      intro plan p' h
      right
      have hh : plan = p' := by simpa [stage3] using h
      exact hh.symm
  | succ fuel ih =>
      intro plan p' h
      unfold stage3 at h
      rcases exbind_ok h with ⟨o, ho, h2⟩
      cases o with
      | none =>
          right
          have hh : plan = p' := by simpa [pure, Except.pure] using h2
          exact hh.symm
      | some q =>
          left
          obtain ⟨mt, it, _, hadd, hle⟩ := stage3Step_some ho
          have hq : planCal cat q ≤ lim := by
            rw [planCal_after_step hR hadd]
            simpa [step_portions] using hle
          rcases ih h2 with h' | h'
          · exact h'
          · rw [h']
            exact hq

/-! ### The lunch meal only ever receives the stage-1 pair -/

theorem setMeal_lunch_ne (p : DayPlan) {mt : MealType} (h : mt ≠ .lunch)
    (l : List Portion) : (p.setMeal mt l).lunch = p.lunch := by
  cases mt
  · rfl
  · exact absurd rfl h
  · rfl

theorem getD_append_left {α : Type} {l l' : List α} {i : Nat}
    (h : i < l.length) (d : α) : (l ++ l').getD i d = l.getD i d := by
  rw [List.getD_eq_getElem _ _ (by simp; omega), List.getD_eq_getElem _ _ h]
  exact List.getElem_append_left ..

theorem LInv.add_keep {cat : List Item} {plan p' : DayPlan} {mt : MealType}
    {po : Portion} {a b : Nat} (hL : LInv plan a b)
    (hlun : mt = .lunch → po.idx ∈ lunchIdxs plan)
    (h : dayPlanAdd cat plan mt po = .ok p') : LInv p' a b := by
  obtain ⟨-, -, rfl⟩ := dayPlanAdd_ok h
  by_cases hmt : mt = .lunch
  · subst hmt
    obtain ⟨hlen, h0, h1, hall⟩ := hL
    unfold LInv
    rw [show (plan.setMeal .lunch (plan.meal .lunch ++ [po])).lunch
        = plan.lunch ++ [po] from rfl]
    refine ⟨?_, ?_, ?_, ?_⟩
    · rw [List.length_append]
      omega
    · rw [getD_append_left (by omega)]
      exact h0
    · rw [getD_append_left (by omega)]
      exact h1
    · intro q hq
      rcases List.mem_append.mp hq with hq | hq
      · exact hall q hq
      · have hqe : q = po := by simpa using hq
        have hex : ∃ q' ∈ plan.lunch, q'.idx = po.idx := by
          simpa [lunchIdxs] using hlun rfl
        obtain ⟨q', hq', hidx⟩ := hex
        rw [hqe, ← hidx]
        exact hall q' hq'
  · unfold LInv
    rw [setMeal_lunch_ne plan hmt]
    exact hL

/-- Stage 2 preserves the lunch invariant. -/
theorem stage2_LInv {cat : List Item} {g : Goals} {lim : ℚ} {a b : Nat} :
    ∀ {fuel : Nat} {plan p' : DayPlan}, LInv plan a b →
      stage2 cat g lim fuel plan = .ok p' → LInv p' a b := by
  intro fuel
  induction fuel with
  | zero =>
      intro plan p' hL h
      obtain rfl : plan = p' := by simpa [stage2] using h
      exact hL
  | succ fuel ih =>
      intro plan p' hL h
      unfold stage2 at h
      rcases exbind_ok h with ⟨o, ho, h2⟩
      cases o with
      | none =>
          obtain rfl : plan = p' := by simpa [pure, Except.pure] using h2
          exact hL
      | some q =>
          obtain ⟨mt, it, hpool, hadd, -⟩ := stage2Step_some ho
          refine ih (hL.add_keep ?_ hadd) h2
          intro hmt
          subst hmt
          unfold stage2Pool at hpool
          simp only [if_pos rfl] at hpool
          have := (List.mem_filter.mp hpool).1
          simpa using (List.mem_filter.mp this).2

/-- Stage 3 preserves the lunch invariant. -/
theorem stage3_LInv {cat : List Item} {g : Goals} {lim : ℚ} {a b : Nat} :
    ∀ {fuel : Nat} {plan p' : DayPlan}, LInv plan a b →
      stage3 cat g lim fuel plan = .ok p' → LInv p' a b := by
  intro fuel
  induction fuel with
  | zero =>
      intro plan p' hL h
      obtain rfl : plan = p' := by simpa [stage3] using h
      exact hL
  | succ fuel ih =>
      intro plan p' hL h
      unfold stage3 at h
      rcases exbind_ok h with ⟨o, ho, h2⟩
      cases o with
      | none =>
          obtain rfl : plan = p' := by simpa [pure, Except.pure] using h2
          exact hL
      | some q =>
          obtain ⟨mt, it, hmem, hadd, -⟩ := stage3Step_some ho
          exact ih (hL.add_keep (stage3Cands_spec hmem).2 hadd) h2

/-! ### Decomposing a successful generation run -/

theorem mem_items_for_meal {cat : List Item} {mt : MealType} {i : Nat} :
    i ∈ items_for_meal cat mt ↔
      i < cat.length ∧ mt ∈ (itemAt cat i).meal_types := by
  unfold items_for_meal
  simp [List.mem_filter, List.mem_range]

theorem generate_parts {cat : List Item} {g : Goals} {r : Rng}
    {p : DayPlan} {cat' : List Item}
    (h : generate_day_plan cat g r = .ok (p, cat')) :
    ∃ p1 r1 p2, stage1 cat r = .ok (p1, cat', r1) ∧
      stage2 cat' g (g.calories_target + 100) 200 p1 = .ok p2 ∧
      stage3 cat' g (g.calories_target + 100) 80 p2 = .ok p := by
  unfold generate_day_plan at h
  dsimp only at h
  rcases exbind_ok h with ⟨x, h1, h2⟩
  obtain ⟨p1, cat1, r1⟩ := x
  dsimp only at h2
  rcases exbind_ok h2 with ⟨p2, h2', h3⟩
  rcases exbind_ok h3 with ⟨p3, h3', h4⟩
  have hpair : (p3, cat1) = (p, cat') := by
    simpa [pure, Except.pure] using h4
  have hp3 : p3 = p := congrArg Prod.fst hpair
  have hcat : cat1 = cat' := congrArg Prod.snd hpair
  subst hp3
  subst hcat
  exact ⟨p1, r1, p2, h1, h2', h3'⟩

/-- The structure left behind by a successful stage 1: one breakfast
portion, one dinner portion, the lunch pair, all of one standard portion,
and the role-updated catalog. -/
theorem stage1_struct {cat : List Item} {r : Rng} {p1 : DayPlan}
    {cat1 : List Item} {r1 : Rng} (h : stage1 cat r = .ok (p1, cat1, r1)) :
    ∃ ops ib idn mi si,
      cat1 = applyRoleOps cat ops ∧
      p1 = ⟨[⟨ib, 1⟩], [⟨mi, 1⟩, ⟨si, 1⟩], [⟨idn, 1⟩]⟩ ∧
      dayPlanAdd cat emptyPlan .breakfast ⟨ib, 1⟩ = .ok ⟨[⟨ib, 1⟩], [], []⟩ ∧
      dayPlanAdd cat ⟨[⟨ib, 1⟩], [], []⟩ .dinner ⟨idn, 1⟩
        = .ok ⟨[⟨ib, 1⟩], [], [⟨idn, 1⟩]⟩ ∧
      dayPlanAdd cat1 ⟨[⟨ib, 1⟩], [], [⟨idn, 1⟩]⟩ .lunch ⟨mi, 1⟩
        = .ok ⟨[⟨ib, 1⟩], [⟨mi, 1⟩], [⟨idn, 1⟩]⟩ ∧
      dayPlanAdd cat1 ⟨[⟨ib, 1⟩], [⟨mi, 1⟩], [⟨idn, 1⟩]⟩ .lunch ⟨si, 1⟩
        = .ok p1 := by
  unfold stage1 at h
  dsimp only at h
  split at h
  · exact absurd h (by simp)
  · rcases exbind_ok h with ⟨x, hib, h2⟩
    obtain ⟨ib, rb⟩ := x
    dsimp only at h2
    rcases exbind_ok h2 with ⟨pb, hpb, h3⟩
    obtain rfl := mkPortion_ok hpb
    rcases exbind_ok h3 with ⟨planB, haddB, h4⟩
    have hplanB : planB = ⟨[⟨ib, 1⟩], [], []⟩ := by
      obtain ⟨-, -, rfl⟩ := dayPlanAdd_ok haddB
      rfl
    subst hplanB
    split at h4
    · exact absurd h4 (by simp)
    · rcases exbind_ok h4 with ⟨y, hidn, h5⟩
      obtain ⟨idn, rd⟩ := y
      dsimp only at h5
      rcases exbind_ok h5 with ⟨pd, hpd, h6⟩
      obtain rfl := mkPortion_ok hpd
      rcases exbind_ok h6 with ⟨planD, haddD, h7⟩
      have hplanD : planD = ⟨[⟨ib, 1⟩], [], [⟨idn, 1⟩]⟩ := by
        obtain ⟨-, -, rfl⟩ := dayPlanAdd_ok haddD
        rfl
      subst hplanD
      split at h7
      · exact absurd h7 (by simp)
      · rcases exbind_ok h7 with ⟨z, hpick, h8⟩
        obtain ⟨⟨mi, si⟩, ops, rl⟩ := z
        dsimp only at h8
        rcases exbind_ok h8 with ⟨pm, hpm, h9⟩
        obtain rfl := mkPortion_ok hpm
        rcases exbind_ok h9 with ⟨planM, haddM, h10⟩
        have hplanM : planM = ⟨[⟨ib, 1⟩], [⟨mi, 1⟩], [⟨idn, 1⟩]⟩ := by
          obtain ⟨-, -, rfl⟩ := dayPlanAdd_ok haddM
          rfl
        subst hplanM
        rcases exbind_ok h10 with ⟨ps, hps, h11⟩
        obtain rfl := mkPortion_ok hps
        rcases exbind_ok h11 with ⟨planS, haddS, h12⟩
        have htriple : (planS, applyRoleOps cat ops, rl) = (p1, cat1, r1) := by
          simpa [pure, Except.pure] using h12
        have hps1 : planS = p1 := congrArg (fun t => t.1) htriple
        have hcat1 : applyRoleOps cat ops = cat1 :=
          congrArg (fun t => t.2.1) htriple
        subst hps1
        subst hcat1
        refine ⟨ops, ib, idn, mi, si, rfl, ?_, ?_, ?_, ?_, ?_⟩
        · obtain ⟨-, -, rfl⟩ := dayPlanAdd_ok haddS
          rfl
        · exact haddB
        · exact haddD
        · exact haddM
        · exact haddS

/-! ### Claim theorems -/

/-- C2: for every catalog (with constructor-rounded calories), goals and
random source for which `generate_day_plan` returns a plan, no Stage-2 or
Stage-3 addition ever brings the total calories above
`goals.target_calories + 100`: the final plan is either at or under the
ceiling, or it is exactly the Stage-1 plan (so any excess over the ceiling
is attributable to Stage 1 alone). -/
theorem c2_repair_respects_ceiling {cat : List Item} {g : Goals} {r : Rng}
    {p1 : DayPlan} {cat1 : List Item} {r1 : Rng} {p : DayPlan}
    {cat' : List Item} (hcal : CalR cat)
    (h1 : stage1 cat r = .ok (p1, cat1, r1))
    (h : generate_day_plan cat g r = .ok (p, cat')) :
    planCal cat' p ≤ g.calories_target + 100 ∨ p = p1 := by
  obtain ⟨p1x, r1x, p2, hs1, hs2, hs3⟩ := generate_parts h
  have hinj : (p1, cat1, r1) = (p1x, cat', r1x) :=
    Except.ok.inj (h1.symm.trans hs1)
  have hp1x : p1x = p1 := (congrArg (fun t => t.1) hinj).symm
  subst hp1x
  obtain ⟨ops, -, -, -, -, hcat, -, -, -, -, -⟩ := stage1_struct hs1
  have hR : ∀ i, round2 (itemAt cat' i).calories_per_portion
      = (itemAt cat' i).calories_per_portion := by
    rw [hcat]
    exact fun i => hcal.ops_cal ops i
  rcases stage2_cal hR hs2 with h2 | h2
  · rcases stage3_cal hR hs3 with h3 | h3
    · exact .inl h3
    · rw [h3]
      exact .inl h2
  · rcases stage3_cal hR hs3 with h3 | h3
    · exact .inl h3
    · rw [h3, h2]
      exact .inr rfl

theorem c2_witness :
    CalR catW2 ∧
    (planCal catW2 planW2 ≤ goalsW2.calories_target + 100 ∨
      planW2 = planW2) := by
  have hcal : CalR catW2 := by
    unfold CalR
    with_unfolding_all decide
  have h1 : stage1 catW2 constRng
      = .ok (planW2, catW2, ⟨constRng.bits, 4⟩) := by
    set_option maxRecDepth 100000 in with_unfolding_all rfl
  have h : generate_day_plan catW2 goalsW2 constRng = .ok (planW2, catW2) := by
    set_option maxRecDepth 100000 in with_unfolding_all rfl
  exact ⟨hcal, c2_repair_respects_ceiling hcal h1 h⟩

/-- C3: every plan returned by `generate_day_plan` (over a catalog whose
caps satisfy the constructor invariant `max_portions > 0`) keeps each
capped entry's summed quantity across the three meals at or below its
`max_portions`; and `DayPlan.add` enforces exactly this by recomputing the
running daily total and failing with the capacity error whenever the
addition would exceed the cap. -/
theorem c3_dayplan_wide_cap :
    (∀ (cat : List Item) (g : Goals) (r : Rng) (p : DayPlan)
      (cat' : List Item), CapsPos cat →
      generate_day_plan cat g r = .ok (p, cat') →
      ∀ i m, (itemAt cat i).max_portions = some m → itemTotal p i ≤ m) ∧
    (∀ (cat : List Item) (p : DayPlan) (mt : MealType) (po : Portion)
      (m : ℚ), (itemAt cat po.idx).max_portions = some m →
      m < itemTotal p po.idx + po.portions →
      dayPlanAdd cat p mt po = .error .exceedsMaxPortions) := by
  constructor
  · intro cat g r p cat' hpos h i m hm
    obtain ⟨p1, r1, p2, hs1, hs2, hs3⟩ := generate_parts h
    obtain ⟨ops, ib, idn, mi, si, hcat, hp1, haddB, haddD, haddM, haddS⟩ :=
      stage1_struct hs1
    have hmax_eq : ∀ j, (itemAt cat' j).max_portions
        = (itemAt cat j).max_portions := by
      rw [hcat]
      exact fun j => core_max_portions (applyRoleOps_core ops cat j)
    have h0 : CapOK cat emptyPlan := CapOK.empty cat hpos
    have hB := h0.add_ok haddB
    have hD := hB.add_ok haddD
    have hD' : CapOK cat' ⟨[⟨ib, 1⟩], [], [⟨idn, 1⟩]⟩ :=
      capOK_congr hmax_eq hD
    have hM := hD'.add_ok haddM
    have hP1 : CapOK cat' p1 := hM.add_ok haddS
    have hP : CapOK cat' p := stage3_capOK (stage2_capOK hP1 hs2) hs3
    refine hP i m ?_
    rw [hmax_eq i]
    exact hm
  · intro cat p mt po m hm hlt
    exact dayPlanAdd_capErr hm hlt

theorem c3_witness :
    itemTotal planW3 1 ≤ 2 ∧
    dayPlanAdd catW3 planW3 .dinner ⟨1, 2⟩ = .error .exceedsMaxPortions := by
  have hpos : CapsPos catW3 := by
    unfold CapsPos
    with_unfolding_all decide
  have h : generate_day_plan catW3 (mkGoals 400 0 none none) constRng
      = .ok (planW3, catW3) := by
    set_option maxRecDepth 100000 in with_unfolding_all rfl
  refine ⟨c3_dayplan_wide_cap.1 catW3 (mkGoals 400 0 none none) constRng
      planW3 catW3 hpos h 1 2 (by with_unfolding_all rfl), ?_⟩
  refine c3_dayplan_wide_cap.2 catW3 planW3 .dinner ⟨1, 2⟩ 2
    (by with_unfolding_all rfl) (by with_unfolding_all decide)

/-- C5: whenever an add operation fails — `Meal.add` because the portion's
entry does not list the slot, or `DayPlan.add` because the daily cap would
be exceeded (or its delegated `Meal.add` fails) — the raised error leaves
every meal's portion sequence exactly as it was before the call. -/
theorem c5_failed_add_no_mutation :
    (∀ (cat : List Item) (mt : MealType) (l : List Portion) (po : Portion)
      (e : Err) (l' : List Portion),
      mealAddRun cat mt l po = (some e, l') → l' = l) ∧
    (∀ (cat : List Item) (p : DayPlan) (mt : MealType) (po : Portion)
      (e : Err) (p' : DayPlan),
      dayPlanAddRun cat p mt po = (some e, p') → p' = p) := by
  constructor
  · intro cat mt l po e l' h
    unfold mealAddRun at h
    split at h
    · exact absurd h (by simp)
    · exact (congrArg Prod.snd h).symm
  · intro cat p mt po e p' h
    unfold dayPlanAddRun at h
    dsimp only at h
    split at h
    · exact (congrArg Prod.snd h).symm
    · unfold mealAddRun at h
      by_cases hel : mt ∈ (itemAt cat po.idx).meal_types
      · rw [if_pos hel] at h
        dsimp only at h
        exact absurd (congrArg Prod.fst h) (by simp)
      · rw [if_neg hel] at h
        dsimp only at h
        have hsnd : p.setMeal mt (p.meal mt) = p' := congrArg Prod.snd h
        rw [← hsnd]
        cases mt <;> rfl

theorem c5_witness :
    mealAddRun catW5 .dinner [] ⟨0, 1⟩ = (some .notAllowed, []) ∧
    ([] : List Portion) = [] ∧
    dayPlanAddRun catW5 planW5 .breakfast ⟨0, 1⟩
      = (some .exceedsMaxPortions, planW5) ∧
    planW5 = planW5 :=
  ⟨by rfl, c5_failed_add_no_mutation.1 catW5 .dinner [] ⟨0, 1⟩ .notAllowed
      [] (by rfl),
    by with_unfolding_all rfl,
    c5_failed_add_no_mutation.2 catW5 planW5 .breakfast ⟨0, 1⟩
      .exceedsMaxPortions planW5 (by with_unfolding_all rfl)⟩

/-- C7: every plan returned by `generate_day_plan` has at least the two
Stage-1 lunch portions, and every portion of its lunch meal references one
of the (at most two) entries chosen by Stage 1's lunch pair selection —
the repair stages never introduce a new lunch item. -/
theorem c7_lunch_closed_under_repair {cat : List Item} {g : Goals}
    {r : Rng} {p1 : DayPlan} {cat1 : List Item} {r1 : Rng} {p : DayPlan}
    {cat' : List Item} (h1 : stage1 cat r = .ok (p1, cat1, r1))
    (h : generate_day_plan cat g r = .ok (p, cat')) :
    2 ≤ p.lunch.length ∧
    ∀ q ∈ p.lunch, q.idx = (p1.lunch.getD 0 dfltPortion).idx ∨
      q.idx = (p1.lunch.getD 1 dfltPortion).idx := by
  obtain ⟨p1x, r1x, p2, hs1, hs2, hs3⟩ := generate_parts h
  have hinj : (p1, cat1, r1) = (p1x, cat', r1x) :=
    Except.ok.inj (h1.symm.trans hs1)
  have hp1x : p1x = p1 := (congrArg (fun t => t.1) hinj).symm
  rw [← hp1x]
  obtain ⟨ops, ib, idn, mi, si, hcat, hp1, -, -, -, -⟩ := stage1_struct hs1
  have hL1 : LInv p1x mi si := by
    rw [hp1]
    refine ⟨by simp, rfl, rfl, ?_⟩
    intro q hq
    rcases List.mem_cons.mp hq with hq | hq
    · left
      rw [hq]
    · right
      rw [show q = ⟨si, 1⟩ by simpa using hq]
  have hLp : LInv p mi si := stage3_LInv (stage2_LInv hL1 hs2) hs3
  have h0 : (p1x.lunch.getD 0 dfltPortion).idx = mi := by
    rw [hp1]
    rfl
  have h1' : (p1x.lunch.getD 1 dfltPortion).idx = si := by
    rw [hp1]
    rfl
  rw [h0, h1']
  exact ⟨hLp.1, hLp.2.2.2⟩

theorem c7_witness :
    2 ≤ planW7.lunch.length ∧
    ∀ q ∈ planW7.lunch,
      q.idx = (planW7.lunch.getD 0 dfltPortion).idx ∨
        q.idx = (planW7.lunch.getD 1 dfltPortion).idx := by
  have h1 : stage1 catW7 constRng
      = .ok (planW7, catW7, ⟨constRng.bits, 4⟩) := by
    set_option maxRecDepth 100000 in with_unfolding_all rfl
  have h : generate_day_plan catW7 (mkGoals 400 0 none none) constRng
      = .ok (planW7, catW7) := by
    set_option maxRecDepth 100000 in with_unfolding_all rfl
  exact c7_lunch_closed_under_repair h1 h

/-- C6 (amended): if the lunch-eligible pool contains exactly one entry,
then any plan `generate_day_plan` returns uses that entry as both main and
side: the lunch meal has at least two portions and every one of them
references that entry.  (The original claim's "no error is raised" is
false in general: generation can fail, e.g. when the entry's
`max_daily_units` is 1 — see the counterexample.) -/
theorem c6_single_lunch_entry {cat : List Item} {g : Goals} {r : Rng}
    {e : Nat} (hpool : items_for_meal cat .lunch = [e]) {p : DayPlan}
    {cat' : List Item} (h : generate_day_plan cat g r = .ok (p, cat')) :
    2 ≤ p.lunch.length ∧ ∀ q ∈ p.lunch, q.idx = e := by
  obtain ⟨p1, r1, p2, hs1, hs2, hs3⟩ := generate_parts h
  obtain ⟨ops, ib, idn, mi, si, hcat, hp1, -, -, haddM, haddS⟩ :=
    stage1_struct hs1
  have hpool' : items_for_meal cat' .lunch = [e] := by
    rw [hcat, items_for_meal_applyRoleOps]
    exact hpool
  have key : ∀ j : Nat, MealType.lunch ∈ (itemAt cat' j).meal_types →
      j = e := by
    intro j helig
    have hlen : j < cat'.length := by
      by_contra hge
      have hd : itemAt cat' j = dfltItem :=
        List.getD_eq_default _ _ (le_of_not_lt hge)
      rw [hd] at helig
      exact absurd helig (by simp [dfltItem])
    have hmem : j ∈ items_for_meal cat' .lunch :=
      mem_items_for_meal.mpr ⟨hlen, helig⟩
    rw [hpool'] at hmem
    simpa using hmem
  have hmi : mi = e := key mi (dayPlanAdd_ok haddM).2.1
  have hsi : si = e := key si (dayPlanAdd_ok haddS).2.1
  have hL1 : LInv p1 mi si := by
    rw [hp1]
    refine ⟨by simp, rfl, rfl, ?_⟩
    intro q hq
    rcases List.mem_cons.mp hq with hq | hq
    · left
      rw [hq]
    · right
      rw [show q = ⟨si, 1⟩ by simpa using hq]
  have hLp : LInv p mi si := stage3_LInv (stage2_LInv hL1 hs2) hs3
  refine ⟨hLp.1, ?_⟩
  intro q hq
  rcases hLp.2.2.2 q hq with h' | h'
  · rw [h', hmi]
  · rw [h', hsi]

theorem c6_witness :
    items_for_meal catW6 .lunch = [2] ∧
    (2 ≤ planW6.lunch.length ∧ ∀ q ∈ planW6.lunch, q.idx = 2) := by
  have hpool : items_for_meal catW6 .lunch = [2] := by rfl
  have h : generate_day_plan catW6 (mkGoals 400 0 none none) constRng
      = .ok (planW6, catW6out) := by
    set_option maxRecDepth 100000 in with_unfolding_all rfl
  exact ⟨hpool, c6_single_lunch_entry hpool h⟩

/-- C6 (counterexample): a lunch pool with exactly one eligible entry does
not guarantee that no error is raised — with `max_daily_units = 1` the
second lunch placement of that entry fails with the capacity error, so
`generate_day_plan` raises instead of returning the entry twice. -/
theorem c6_counterexample :
    items_for_meal catX6 .lunch = [2] ∧
    generate_day_plan catX6 (mkGoals 400 0 none none) constRng
      = .error .exceedsMaxPortions := by
  refine ⟨by rfl, ?_⟩
  set_option maxRecDepth 100000 in with_unfolding_all rfl

/-- C8 (amended): `score` is the 2-decimal rounding of the sum of the four
deviation terms exactly as the spec writes them; it is 0 whenever no term
contributes; and when a term does contribute the pre-rounding sum is
strictly positive (the rounded result can still be 0 — see the
counterexample — so "strictly positive otherwise" holds only before
rounding). -/
theorem c8_score_formula (cat : List Item) (p : DayPlan) (g : Goals) :
    score cat p g = round2
      (|g.calories_target - (planNutr cat p).calories|
        + (if (planNutr cat p).protein < g.protein_min
            then (g.protein_min - (planNutr cat p).protein) ^ 2 * 3 else 0)
        + (match g.fat_max with
            | some fm => if fm < (planNutr cat p).fat
                then ((planNutr cat p).fat - fm) ^ 2 * 2 else 0
            | none => 0)
        + (match g.carbs_min with
            | some cm => if (planNutr cat p).carbs < cm
                then (cm - (planNutr cat p).carbs) ^ 2 * (3 / 2) else 0
            | none => 0)) ∧
    ((g.calories_target = (planNutr cat p).calories ∧
      ¬ (planNutr cat p).protein < g.protein_min ∧
      (∀ fm, g.fat_max = some fm → ¬ fm < (planNutr cat p).fat) ∧
      (∀ cm, g.carbs_min = some cm → ¬ (planNutr cat p).carbs < cm)) →
      score cat p g = 0) ∧
    ((g.calories_target ≠ (planNutr cat p).calories ∨
      (planNutr cat p).protein < g.protein_min ∨
      (∃ fm, g.fat_max = some fm ∧ fm < (planNutr cat p).fat) ∨
      (∃ cm, g.carbs_min = some cm ∧ (planNutr cat p).carbs < cm)) →
      0 < |g.calories_target - (planNutr cat p).calories|
        + (if (planNutr cat p).protein < g.protein_min
            then (g.protein_min - (planNutr cat p).protein) ^ 2 * 3 else 0)
        + (match g.fat_max with
            | some fm => if fm < (planNutr cat p).fat
                then ((planNutr cat p).fat - fm) ^ 2 * 2 else 0
            | none => 0)
        + (match g.carbs_min with
            | some cm => if (planNutr cat p).carbs < cm
                then (cm - (planNutr cat p).carbs) ^ 2 * (3 / 2) else 0
            | none => 0)) := by
  have hform : score cat p g = round2
      (|g.calories_target - (planNutr cat p).calories|
        + (if (planNutr cat p).protein < g.protein_min
            then (g.protein_min - (planNutr cat p).protein) ^ 2 * 3 else 0)
        + (match g.fat_max with
            | some fm => if fm < (planNutr cat p).fat
                then ((planNutr cat p).fat - fm) ^ 2 * 2 else 0
            | none => 0)
        + (match g.carbs_min with
            | some cm => if (planNutr cat p).carbs < cm
                then (cm - (planNutr cat p).carbs) ^ 2 * (3 / 2) else 0
            | none => 0)) := by
    unfold score
    rcases g.fat_max with _ | fm <;> rcases g.carbs_min with _ | cm <;>
      dsimp only <;> split_ifs <;> first | rfl | (congr 1; ring)
  refine ⟨hform, ?_, ?_⟩
  · rintro ⟨h1, h2, h3, h4⟩
    rw [hform, ← h1, sub_self, abs_zero, if_neg h2]
    rcases hf : g.fat_max with _ | fm <;> rcases hc : g.carbs_min with _ | cm <;>
      dsimp only
    · rw [show (0:ℚ) + 0 + 0 + 0 = 0 by ring]
      exact D2_zero.round2_eq
    · rw [if_neg (h4 cm hc), show (0:ℚ) + 0 + 0 + 0 = 0 by ring]
      exact D2_zero.round2_eq
    · rw [if_neg (h3 fm hf), show (0:ℚ) + 0 + 0 + 0 = 0 by ring]
      exact D2_zero.round2_eq
    · rw [if_neg (h3 fm hf), if_neg (h4 cm hc),
        show (0:ℚ) + 0 + 0 + 0 = 0 by ring]
      exact D2_zero.round2_eq
  · intro hcontrib
    have hb : (0:ℚ) ≤ |g.calories_target - (planNutr cat p).calories| :=
      abs_nonneg _
    have hp : (0:ℚ) ≤ (if (planNutr cat p).protein < g.protein_min
        then (g.protein_min - (planNutr cat p).protein) ^ 2 * 3 else 0) := by
      split
      · positivity
      · exact le_refl 0
    have hfnn : (0:ℚ) ≤ (match g.fat_max with
        | some fm => if fm < (planNutr cat p).fat
            then ((planNutr cat p).fat - fm) ^ 2 * 2 else 0
        | none => 0) := by
      rcases g.fat_max with _ | fm
      · exact le_refl 0
      · dsimp only
        split
        · positivity
        · exact le_refl 0
    have hcnn : (0:ℚ) ≤ (match g.carbs_min with
        | some cm => if (planNutr cat p).carbs < cm
            then (cm - (planNutr cat p).carbs) ^ 2 * (3 / 2) else 0
        | none => 0) := by
      rcases g.carbs_min with _ | cm
      · exact le_refl 0
      · dsimp only
        split
        · positivity
        · exact le_refl 0
    rcases hcontrib with h | h | ⟨fm, hfe, hflt⟩ | ⟨cm, hce, hclt⟩
    · have hpos : 0 < |g.calories_target - (planNutr cat p).calories| :=
        abs_pos.mpr (sub_ne_zero.mpr h)
      linarith
    · have hpos : (0:ℚ) < (if (planNutr cat p).protein < g.protein_min
          then (g.protein_min - (planNutr cat p).protein) ^ 2 * 3 else 0) := by
        rw [if_pos h]
        exact mul_pos (pow_pos (sub_pos.mpr h) 2) (by norm_num)
      linarith
    · have hpos : (0:ℚ) < (match g.fat_max with
          | some fm => if fm < (planNutr cat p).fat
              then ((planNutr cat p).fat - fm) ^ 2 * 2 else 0
          | none => 0) := by
        rw [hfe]
        dsimp only
        rw [if_pos hflt]
        exact mul_pos (pow_pos (sub_pos.mpr hflt) 2) (by norm_num)
      linarith
    · have hpos : (0:ℚ) < (match g.carbs_min with
          | some cm => if (planNutr cat p).carbs < cm
              then (cm - (planNutr cat p).carbs) ^ 2 * (3 / 2) else 0
          | none => 0) := by
        rw [hce]
        dsimp only
        rw [if_pos hclt]
        exact mul_pos (pow_pos (sub_pos.mpr hclt) 2) (by norm_num)
      linarith

theorem c8_witness :
    score [] emptyPlan (mkGoals 0 0 none none) = 0 :=
  (c8_score_formula [] emptyPlan (mkGoals 0 0 none none)).2.1
    ⟨by with_unfolding_all rfl, by with_unfolding_all decide,
      fun fm h => Option.noConfusion h, fun cm h => Option.noConfusion h⟩

/-- C8 (counterexample): a contributing term does not make the rounded
score strictly positive: with `min_protein = 0.01` and an empty plan the
protein term contributes `3 * 0.01 ^ 2 = 0.0003`, which rounds to 0, so
`score` returns exactly 0 despite the protein deficit. -/
theorem c8_counterexample :
    (planNutr [] emptyPlan).protein
        < (mkGoals 0 (1 / 100) none none).protein_min ∧
    score [] emptyPlan (mkGoals 0 (1 / 100) none none) = 0 := by
  with_unfolding_all decide

theorem round2_zero : round2 0 = 0 := D2_zero.round2_eq

theorem round2_fix_D2 {q : ℚ} (h : round2 q = q) : D2 q := h ▸ D2_round2 q

theorem add_nutrients_getD (a b : PyDict) (k : String) :
    (add_nutrients a b).getD k = round2 (a.getD k + b.getD k) := by
  by_cases hk : k ∈ a.keys ++ b.keys
  · show (if k ∈ a.keys ++ b.keys then round2 (a.getD k + b.getD k) else 0)
      = round2 (a.getD k + b.getD k)
    rw [if_pos hk]
  · show (if k ∈ a.keys ++ b.keys then round2 (a.getD k + b.getD k) else 0)
      = round2 (a.getD k + b.getD k)
    rw [if_neg hk]
    have ha : a.getD k = 0 := by
      unfold PyDict.getD
      rw [if_neg (fun hmem => hk (List.mem_append.mpr (.inl hmem)))]
    have hb : b.getD k = 0 := by
      unfold PyDict.getD
      rw [if_neg (fun hmem => hk (List.mem_append.mpr (.inr hmem)))]
    rw [ha, hb, add_zero, round2_zero]

/-- C9 (amended): `add_nutrients` is commutative as a dict operation for
all operands; it is associative for operands whose values are 2-decimal
(round2-fixed) — which includes every dictionary the program itself
produces — but not for arbitrary values, because each combine re-rounds
(see the counterexample). -/
theorem c9_combine_comm_assoc :
    ∀ a b c : PyDict,
      dictEq (add_nutrients a b) (add_nutrients b a) ∧
      ((∀ k, round2 (a.getD k) = a.getD k) →
       (∀ k, round2 (b.getD k) = b.getD k) →
       (∀ k, round2 (c.getD k) = c.getD k) →
        dictEq (add_nutrients (add_nutrients a b) c)
          (add_nutrients a (add_nutrients b c))) := by
  intro a b c
  constructor
  · constructor
    · intro k
      show k ∈ a.keys ++ b.keys ↔ k ∈ b.keys ++ a.keys
      rw [List.mem_append, List.mem_append, or_comm]
    · intro k _
      show round2 (a.getD k + b.getD k) = round2 (b.getD k + a.getD k)
      rw [add_comm]
  · intro hA hB hC
    constructor
    · intro k
      show k ∈ (a.keys ++ b.keys) ++ c.keys ↔ k ∈ a.keys ++ (b.keys ++ c.keys)
      rw [List.append_assoc]
    · intro k _
      show round2 ((add_nutrients a b).getD k + c.getD k)
        = round2 (a.getD k + (add_nutrients b c).getD k)
      rw [add_nutrients_getD, add_nutrients_getD,
        round2_add_of_D2 (round2_fix_D2 (hA k)) (round2_fix_D2 (hB k)),
        round2_add_of_D2 (round2_fix_D2 (hB k)) (round2_fix_D2 (hC k)),
        add_assoc]

theorem c9_witness :
    dictEq (add_nutrients dictA9 dictB9) (add_nutrients dictB9 dictA9) ∧
    dictEq (add_nutrients (add_nutrients dictA9 dictB9) dictC9)
      (add_nutrients dictA9 (add_nutrients dictB9 dictC9)) := by
  have hA : ∀ k, round2 (dictA9.getD k) = dictA9.getD k := by
    intro k
    show round2 (if k ∈ ["x"] then (1 : ℚ) / 10 else 0)
      = (if k ∈ ["x"] then (1 : ℚ) / 10 else 0)
    split
    · with_unfolding_all decide
    · exact round2_zero
  have hB : ∀ k, round2 (dictB9.getD k) = dictB9.getD k := by
    intro k
    show round2 (if k ∈ ["y"] then (3 : ℚ) / 10 else 0)
      = (if k ∈ ["y"] then (3 : ℚ) / 10 else 0)
    split
    · with_unfolding_all decide
    · exact round2_zero
  have hC : ∀ k, round2 (dictC9.getD k) = dictC9.getD k := by
    intro k
    show round2 (if k ∈ ["x"] then (1 : ℚ) / 2 else 0)
      = (if k ∈ ["x"] then (1 : ℚ) / 2 else 0)
    split
    · with_unfolding_all decide
    · exact round2_zero
  exact ⟨(c9_combine_comm_assoc dictA9 dictB9 dictC9).1,
    (c9_combine_comm_assoc dictA9 dictB9 dictC9).2 hA hB hC⟩

/-- C9 (counterexample): associativity fails for general values because
each combine rounds: with `a = b = ("x" : 0.003)` and `c = ("x" : 0)`,
`combine(combine(a,b),c)` gives 0.01 at `"x"` while
`combine(a,combine(b,c))` gives 0.0. -/
theorem c9_counterexample :
    ¬ dictEq (add_nutrients (add_nutrients dictA9x dictB9x) dictC9x)
      (add_nutrients dictA9x (add_nutrients dictB9x dictC9x)) := by
  intro hEq
  have hx := hEq.2 "x" (by with_unfolding_all decide)
  revert hx
  with_unfolding_all decide

/-- C10 (amended): `Goals.__init__` performs no validation at all: any
values, including negative target calories and negative minimum protein
(and negative optional bounds), are accepted and stored unchanged — there
is no failure path at construction time. -/
theorem c10_goals_no_validation :
    ∀ (ct pm : ℚ) (fm cm : Option ℚ), ct < 0 → pm < 0 →
      (mkGoals ct pm fm cm).calories_target = ct ∧
      (mkGoals ct pm fm cm).protein_min = pm ∧
      (mkGoals ct pm fm cm).fat_max = fm ∧
      (mkGoals ct pm fm cm).carbs_min = cm := by
  intro ct pm fm cm _ _
  exact ⟨rfl, rfl, rfl, rfl⟩

theorem c10_witness :
    ((-1 : ℚ) < 0) ∧
    (mkGoals (-1) (-2) (some (-3)) (some (-4))).calories_target = -1 :=
  ⟨by norm_num,
    (c10_goals_no_validation (-1) (-2) (some (-3)) (some (-4))
      (by norm_num) (by norm_num)).1⟩

/-- C10 (counterexample): constructing `Goals` from entirely negative
values succeeds and stores them unchanged — construction does not fail,
contradicting the claim that all values are validated non-negative at
construction time.  (The embedded constructor is total because the source
`Goals.__init__` contains no check or raise at all.) -/
theorem c10_counterexample :
    mkGoals (-2100) (-160) (some (-80)) (some (-5))
      = ⟨-2100, -160, some (-80), some (-5)⟩ ∧ ((-2100 : ℚ) < 0) :=
  ⟨rfl, by norm_num⟩

/-- C4 (amended): for an entry with `max_daily_units = 1` already placed
once anywhere in the plan, `DayPlan.add` of any further positive quantity
fails with the capacity error; but constructing a new `Portion` of the
entry does not consult the plan and succeeds whenever the portion's own
quantity is within the cap (it fails only when the quantity alone exceeds
`max_daily_units`). -/
theorem c4_cap_one_further_adds {cat : List Item} {p : DayPlan}
    {mt : MealType} {e : Nat} {q : ℚ}
    (hmax : (itemAt cat e).max_portions = some 1)
    (hplaced : 1 ≤ itemTotal p e) (hq : 0 < q) :
    dayPlanAdd cat p mt ⟨e, q⟩ = .error .exceedsMaxPortions ∧
    (mkPortion cat e q = .ok ⟨e, q⟩ ↔ q ≤ 1) := by
  constructor
  · exact dayPlanAdd_capErr hmax (by linarith)
  · unfold mkPortion
    rw [if_neg (not_le.mpr hq)]
    simp only [hmax]
    by_cases h1 : 1 < q
    · rw [if_pos h1]
      constructor
      · intro hcontra
        exact absurd hcontra (by simp)
      · intro hle
        exact absurd hle (not_le.mpr h1)
    · rw [if_neg h1]
      simp [le_of_not_lt h1]

theorem c4_witness :
    dayPlanAdd catW4 planW4 .lunch ⟨0, 1⟩ = .error .exceedsMaxPortions ∧
    (mkPortion catW4 0 1 = .ok ⟨0, 1⟩ ↔ (1 : ℚ) ≤ 1) :=
  c4_cap_one_further_adds (by rfl) (by with_unfolding_all decide)
    (by norm_num)

/-- C4 (counterexample): an entry with `max_daily_units = 1` already
placed once in the plan does not make further `Portion` construction
fail: `Portion.__init__` only checks its own quantity against
`max_portions` and never sees the plan, so `Portion(entry, 1)` succeeds
even though the entry's daily budget is exhausted. -/
theorem c4_counterexample :
    (itemAt catW4 0).max_portions = some 1 ∧ itemTotal planW4 0 = 1 ∧
    mkPortion catW4 0 1 = .ok ⟨0, 1⟩ := by
  refine ⟨rfl, ?_, ?_⟩
  · with_unfolding_all decide
  · with_unfolding_all rfl

theorem c1_range_split : List.range 623 = c1RngA ++ c1RngB := by
  set_option maxRecDepth 100000 in with_unfolding_all rfl

theorem c1_ig1 : c1RngA.foldl igStep (19650218, 1, [19650218]) = c1S1 := by
  set_option maxRecDepth 100000 in with_unfolding_all rfl

theorem c1_ig2 : c1RngB.foldl igStep c1S1 = c1S2 := by
  set_option maxRecDepth 100000 in with_unfolding_all rfl

theorem c1_initGenrand : initGenrand 19650218 = c1LitA := by
  unfold initGenrand
  rw [show ((19650218 : Nat) % U32) = 19650218 from by with_unfolding_all rfl]
  rw [c1_range_split]
  dsimp only
  rw [List.foldl_append, c1_ig1, c1_ig2]
  set_option maxRecDepth 100000 in with_unfolding_all rfl

theorem c1_litA_split : c1LitA = 19650218 :: (c1RA ++ c1RB) := by
  set_option maxRecDepth 100000 in with_unfolding_all rfl

theorem c1_scan1a :
    c1RA.foldl (mtScanStep (fun prev cur _ => mtF1 2 prev cur))
      (19650218, 1, ([] : List Nat)) = c1T1 := by
  set_option maxRecDepth 100000 in with_unfolding_all rfl

theorem c1_scan1b :
    c1RB.foldl (mtScanStep (fun prev cur _ => mtF1 2 prev cur)) c1T1
      = c1T2 := by
  set_option maxRecDepth 100000 in with_unfolding_all rfl

theorem c1_pass1 : mtPass1 2 c1LitA = c1LitB := by
  rw [c1_litA_split]
  unfold mtPass1
  dsimp only
  unfold mtScan
  rw [List.foldl_append, c1_scan1a, c1_scan1b]
  set_option maxRecDepth 100000 in with_unfolding_all rfl

theorem c1_litB_split :
    c1LitB = 4145181966 :: 2874218012 :: (c1RB1 ++ (c1RB2 ++ (c1RB3 ++ c1RB4))) := by
  set_option maxRecDepth 100000 in with_unfolding_all rfl

theorem c1_scan2a :
    c1RB1.foldl (mtScanStep mtF2) (2874218012, 2, ([] : List Nat))
      = c1U1 := by
  set_option maxRecDepth 100000 in with_unfolding_all rfl

theorem c1_scan2b : c1RB2.foldl (mtScanStep mtF2) c1U1 = c1U2 := by
  set_option maxRecDepth 100000 in with_unfolding_all rfl

theorem c1_scan2c : c1RB3.foldl (mtScanStep mtF2) c1U2 = c1U3 := by
  set_option maxRecDepth 100000 in with_unfolding_all rfl

theorem c1_scan2d : c1RB4.foldl (mtScanStep mtF2) c1U3 = c1U4 := by
  set_option maxRecDepth 100000 in with_unfolding_all rfl

theorem c1_pass2 : mtPass2 c1LitB = c1State2 := by
  rw [c1_litB_split]
  unfold mtPass2
  dsimp only
  unfold mtScan
  rw [List.foldl_append, List.foldl_append, List.foldl_append,
    c1_scan2a, c1_scan2b, c1_scan2c, c1_scan2d]
  set_option maxRecDepth 100000 in with_unfolding_all rfl

theorem c1_mtInit : mtInit 2 = c1State2 := by
  unfold mtInit
  rw [show ((2 : Nat) % U32) = 2 from by with_unfolding_all rfl,
    c1_initGenrand, c1_pass1, c1_pass2]

theorem c1_mtRng : mtRng 2 = ⟨fun i => mtWord c1State2 i, 0⟩ := by
  unfold mtRng mtStream
  simp only [c1_mtInit]

/-- C1 (counterexample): with seed 2 (CPython Mersenne Twister), the first
call on `catC1` picks lunch pair (U1, S1) and persists the inferred MAIN
role onto U1; the second call on the very same (now mutated) catalog takes
the explicit-roles branch of `pick_lunch_pair`, consumes the word stream
differently, and returns lunch pair (U1, S2): the two plans are not
byte-identical even though catalog, goals and seed are the same. -/
theorem c1_counterexample :
    generate_day_plan catC1 goalsC1 (mtRng 2) = .ok (plan1C1, catC1mut) ∧
    generate_day_plan catC1mut goalsC1 (mtRng 2)
      = .ok (plan2C1, catC1mut) ∧
    plan1C1 ≠ plan2C1 := by
  refine ⟨?_, ?_, by with_unfolding_all decide⟩
  · rw [c1_mtRng]
    set_option maxRecDepth 100000 in with_unfolding_all rfl
  · rw [c1_mtRng]
    set_option maxRecDepth 100000 in with_unfolding_all rfl

/-- C1 (amended): the generator is a pure function of the catalog state,
the goals and the seed stream, so two calls with the same seed produce
byte-identical plans whenever the first call leaves the catalog unchanged
(no lunch role newly inferred); when the first call does persist an
inferred role onto the shared catalog, the second call may differ (see the
counterexample). -/
theorem c1_determinism_role_stable {cat : List Item} {g : Goals} {r : Rng}
    {p : DayPlan} {cat' : List Item}
    (h : generate_day_plan cat g r = .ok (p, cat')) (hstable : cat' = cat) :
    generate_day_plan cat' g r = .ok (p, cat') := by
  subst hstable
  exact h

theorem c1_witness :
    generate_day_plan catC1W (mkGoals 400 0 none none) constRng
      = .ok (planC1W, catC1W) :=
  c1_determinism_role_stable
    (by set_option maxRecDepth 100000 in with_unfolding_all rfl) rfl

end FoodPlanner


